import Mathlib

/-! Output binding registry and device proxy of the RTMaps OpenCV/CUDA stages.

Shallow embedding of
* `local_interfaces/common/maps_dynamic_custom_struct_component.h`
  (`MAPS_DynamicCustomStructComponent`), and
* `local_interfaces/common/maps_cuda_struct.h` (`MapsCudaStruct`),
together with the allocation callbacks of the stages that build device proxies.

Conventions of the embedding
* A `void*` is a natural number, `0` being `nullptr`.
* A `MAPSOutput*` is a natural number (the identity of the output port); the
  FIFO of an output is the list of its `MAPSIOElt` cells, in the order in which
  `InitBegin` / `InitNext` walk them.
* The closures `ctor` / `dtor` of an `OutputWrapper` act on a caller supplied
  world `W` (state passing); `ctor` either returns a pointer or throws, `dtor`
  either returns or throws.
* `MAPSComponent::Error` reports and throws: a method that calls it stops there,
  which the embedding records in the `error` field of its result, the state
  reached so far being kept. An exception that no handler catches (one thrown
  by `dtor`) leaves the method the same way, with its description in `error`.
* `ReportInfo`, `ReportError`, and the calls of `ctor` and `dtor` are recorded
  as events, in program order.
-/

namespace DynamicCustomStruct

/-- A `void*`; `0` is `nullptr`. -/
abbrev Ptr := Nat

/-- What a call of `OutputWrapper::ctor` does: it returns a pointer, or throws
`std::bad_alloc`, another `std::exception`, a `const char*`, or anything else. -/
inductive CtorResult where
  | returned (p : Ptr)
  | badAlloc (what : String)
  | stdException (what : String)
  | cString (msg : String)
  | other
  deriving DecidableEq, Repr

/-- What a call of `OutputWrapper::dtor` does: it returns, or throws. -/
inductive DtorResult where
  | returned
  | threw (what : String)
  deriving DecidableEq, Repr

/-- The struct `OutputWrapper`: `output` is the `MAPSOutput*`. -/
structure OutputWrapper (W : Type) where
  output : Nat
  ctor : W → CtorResult × W
  dtor : Ptr → W → DtorResult × W
  typeName : String
  elementByteSize : Nat

/-- The fields of a `MAPSIOElt` that the registry touches. -/
structure MAPSIOElt where
  data : Ptr
  bufferSize : Int
  vectorSize : Int
  deriving DecidableEq, Repr

/-- Observable calls, in program order. -/
inductive Event where
  | reportInfo (msg : String)
  | reportError (msg : String)
  | construct (output : Nat) (fifoIdx : Nat) (r : CtorResult)
  | destroy (output : Nat) (fifoIdx : Nat) (p : Ptr)
  deriving DecidableEq, Repr

/-- The component: its outputs (name tail and FIFO, by output identity), the
member `m_outputWrappers`, and the world the closures act on. -/
structure Component (W : Type) where
  outputName : Nat → String
  fifo : Nat → List MAPSIOElt
  m_outputWrappers : List (OutputWrapper W)
  world : W

/-- Result of a component method: state reached, events emitted, and, when the
method ended by a throw, the message of `Error` or the description of the
exception that left it. -/
structure Run (W : Type) where
  state : Component W
  events : List Event
  error : Option String

/-- Result of the per-element operation handed to `forEachFifoElt`. -/
structure EltRun (W : Type) where
  elt : MAPSIOElt
  world : W
  events : List Event
  error : Option String

/-- Result of `forEachFifoElt`. -/
structure FifoRun (W : Type) where
  elts : List MAPSIOElt
  world : W
  events : List Event
  error : Option String

/-- The conversion `static_cast<int>(size_t)` on a 32 bit `int`. -/
def toInt32 (n : Nat) : Int :=
  if n % 2 ^ 32 < 2 ^ 31 then (n % 2 ^ 32 : Nat) else ((n % 2 ^ 32 : Nat) : Int) - 2 ^ 32

variable {W : Type}

/-- The message built in `allUniqueOutputs`. -/
def duplicateMessage (name : String) (idx : Nat) : String :=
  "AllocateDynamicOutputBuffers: Output [" ++ name ++
    "] has been added more than once [argument position = " ++ toString idx ++
    "] (argument positions start at 0)"

/-- Body of the `for` loop of `allUniqueOutputs`, at position `idx`. -/
def allUniqueOutputsStep (c : Component W) (acc : Bool × List Event) (idx : Nat) :
    Bool × List Event :=
  match c.m_outputWrappers[idx]? with
  | none => acc
  | some ow =>
    -- std::find(subVecBegin, subVecBegin + idx, ow) != subVecEnd, with operator==
    let alreadyAdded := (c.m_outputWrappers.take idx).any (fun o => o.output == ow.output)
    if alreadyAdded then
      (false, acc.2 ++ [Event.reportError (duplicateMessage (c.outputName ow.output) idx)])
    else acc

/-- Embeds `allUniqueOutputs`: `for (idx = 1; idx < m_outputWrappers.size(); ++idx)`. -/
def allUniqueOutputs (c : Component W) : Bool × List Event :=
  (List.range' 1 (c.m_outputWrappers.length - 1)).foldl (allUniqueOutputsStep c) (true, [])

/-- The text common to the five failure messages of `allocateDynamicOutputElement`. -/
def elementOfOutput (fifoIdx : Nat) (name : String) : String :=
  "when allocating element [" ++ toString fifoIdx ++ "] of output [" ++ name ++ "]"

/-- Embeds `allocateDynamicOutputElement`; `name` is `outputWrapper.outputName()`. -/
def allocateDynamicOutputElement (name : String) (outputWrapper : OutputWrapper W)
    (ioEltOut : MAPSIOElt) (fifoIdx : Nat) (w : W) : EltRun W :=
  let elt1 : MAPSIOElt :=
    { ioEltOut with bufferSize := toInt32 outputWrapper.elementByteSize,
                    vectorSize := toInt32 outputWrapper.elementByteSize }
  let call := outputWrapper.ctor w
  let ev := [Event.construct outputWrapper.output fifoIdx call.1]
  match call.1 with
  | CtorResult.returned p =>
    let elt2 : MAPSIOElt := { elt1 with data := p }
    if elt2.data = 0 then
      ⟨elt2, call.2, ev, some ("Not enough memory " ++ elementOfOutput fifoIdx name)⟩
    else ⟨elt2, call.2, ev, none⟩
  | CtorResult.badAlloc what =>
    ⟨elt1, call.2, ev,
      some ("Exception [std::bad_alloc] " ++ elementOfOutput fifoIdx name ++ ": " ++ what)⟩
  | CtorResult.stdException what =>
    ⟨elt1, call.2, ev,
      some ("Exception [std::exception] " ++ elementOfOutput fifoIdx name ++ ": " ++ what)⟩
  | CtorResult.cString msg =>
    ⟨elt1, call.2, ev,
      some ("Exception [const char*] " ++ elementOfOutput fifoIdx name ++ ": " ++ msg)⟩
  | CtorResult.other =>
    ⟨elt1, call.2, ev, some ("Exception [...] " ++ elementOfOutput fifoIdx name)⟩

/-- Embeds `freeDynamicOutputElement`: `outputWrapper.dtor(ioEltOut.Data())`, then
`ioEltOut.Data() = nullptr`; no handler surrounds the call, so an exception of `dtor`
leaves the function before the assignment. -/
def freeDynamicOutputElement (outputWrapper : OutputWrapper W)
    (ioEltOut : MAPSIOElt) (fifoIdx : Nat) (w : W) : EltRun W :=
  let call := outputWrapper.dtor ioEltOut.data w
  let ev := [Event.destroy outputWrapper.output fifoIdx ioEltOut.data]
  match call.1 with
  | DtorResult.returned => ⟨{ ioEltOut with data := 0 }, call.2, ev, none⟩
  | DtorResult.threw what => ⟨ioEltOut, call.2, ev, some what⟩

/-- The `while (fifoIterator)` loop of `forEachFifoElt`, on the cells still to
visit; a throwing `op` leaves the loop. -/
def forEachFifoEltFrom (op : MAPSIOElt → Nat → W → EltRun W) :
    List MAPSIOElt → Nat → W → FifoRun W
  | [], _, w => ⟨[], w, [], none⟩
  | ioEltOut :: rest, fifoIdx, w =>
    let r := op ioEltOut fifoIdx w
    match r.error with
    | some msg => ⟨r.elt :: rest, r.world, r.events, some msg⟩
    | none =>
      let t := forEachFifoEltFrom op rest (fifoIdx + 1) r.world
      ⟨r.elt :: t.elts, t.world, r.events ++ t.events, t.error⟩

/-- Embeds `forEachFifoElt`: walks the FIFO of `outputWrapper.output` from `fifoIdx = 0`. -/
def forEachFifoElt (c : Component W) (outputWrapper : OutputWrapper W)
    (op : MAPSIOElt → Nat → W → EltRun W) : Run W :=
  let r := forEachFifoEltFrom op (c.fifo outputWrapper.output) 0 c.world
  ⟨{ c with fifo := Function.update c.fifo outputWrapper.output r.elts, world := r.world },
    r.events, r.error⟩

/-- Embeds `allocateDynamicOutput`. -/
def allocateDynamicOutput (c : Component W) (outputWrapper : OutputWrapper W) : Run W :=
  let info := Event.reportInfo ("Allocating output [" ++ c.outputName outputWrapper.output ++
    "] of type [" ++ outputWrapper.typeName ++ "]")
  let r := forEachFifoElt c outputWrapper
    (allocateDynamicOutputElement (c.outputName outputWrapper.output) outputWrapper)
  ⟨r.state, info :: r.events, r.error⟩

/-- The range `for` of `allocateDynamicOutputs`, on the wrappers still to visit. -/
def allocateDynamicOutputsFrom : List (OutputWrapper W) → Component W → Run W
  | [], c => ⟨c, [], none⟩
  | outputWrapper :: rest, c =>
    let r := allocateDynamicOutput c outputWrapper
    match r.error with
    | some msg => ⟨r.state, r.events, some msg⟩
    | none =>
      let t := allocateDynamicOutputsFrom rest r.state
      ⟨t.state, r.events ++ t.events, t.error⟩

/-- Embeds `allocateDynamicOutputs`. -/
def allocateDynamicOutputs (c : Component W) : Run W :=
  allocateDynamicOutputsFrom c.m_outputWrappers c

/-- Embeds `freeDynamicOutput`. -/
def freeDynamicOutput (c : Component W) (outputWrapper : OutputWrapper W) : Run W :=
  let info := Event.reportInfo ("Freeing output [" ++ c.outputName outputWrapper.output ++
    "] of type [" ++ outputWrapper.typeName ++ "]")
  let r := forEachFifoElt c outputWrapper (freeDynamicOutputElement outputWrapper)
  ⟨r.state, info :: r.events, r.error⟩

/-- The range `for` of `freeDynamicOutputs`, on the wrappers still to visit. -/
def freeDynamicOutputsFrom : List (OutputWrapper W) → Component W → Run W
  | [], c => ⟨c, [], none⟩
  | outputWrapper :: rest, c =>
    let r := freeDynamicOutput c outputWrapper
    match r.error with
    | some msg => ⟨r.state, r.events, some msg⟩
    | none =>
      let t := freeDynamicOutputsFrom rest r.state
      ⟨t.state, r.events ++ t.events, t.error⟩

/-- Embeds `freeDynamicOutputs`. -/
def freeDynamicOutputs (c : Component W) : Run W :=
  freeDynamicOutputsFrom c.m_outputWrappers c

/-- Embeds `FreeDynamicOutputs`. -/
def FreeDynamicOutputs (c : Component W) : Run W :=
  if c.m_outputWrappers.isEmpty then ⟨c, [], none⟩
  else
    let r := freeDynamicOutputs c
    match r.error with
    | some msg => ⟨r.state, r.events, some msg⟩
    | none => ⟨{ r.state with m_outputWrappers := [] }, r.events, none⟩

/-- The message of the fatal error raised for a batch with a repeated output. -/
def notUniqueMessage : String :=
  "AllocateDynamicOutputBuffers: Outputs are not unique. Refer to the previous error " ++
    "messages to know which outputs have been added more than once"

/-- Embeds `addOutputWrappers(outputWrappers...)`: `emplace_back` of every argument, in order. -/
def addOutputWrappers (c : Component W) (outputWrappers : List (OutputWrapper W)) :
    Component W :=
  { c with m_outputWrappers := c.m_outputWrappers ++ outputWrappers }

/-- Embeds `AllocateDynamicOutputBuffers(outputWrapper, outputWrappers...)`. -/
def AllocateDynamicOutputBuffers (c : Component W) (outputWrapper : OutputWrapper W)
    (outputWrappers : List (OutputWrapper W)) : Run W :=
  let r0 := FreeDynamicOutputs c
  match r0.error with
  | some msg => ⟨r0.state, r0.events, some msg⟩
  | none =>
    let c1 := addOutputWrappers r0.state (outputWrapper :: outputWrappers)
    let u := allUniqueOutputs c1
    if !u.1 then
      ⟨{ c1 with m_outputWrappers := [] }, r0.events ++ u.2, some notUniqueMessage⟩
    else
      let r := allocateDynamicOutputs c1
      ⟨r.state, r0.events ++ u.2 ++ r.events, r.error⟩

/-- The `construct` calls of a trace: output, slot index, outcome. -/
def constructCalls : List Event → List (Nat × Nat × CtorResult)
  | [] => []
  | Event.construct o i r :: evs => (o, i, r) :: constructCalls evs
  | _ :: evs => constructCalls evs

/-- The `destroy` calls of a trace: output, slot index, pointer handed to `dtor`. -/
def destroyCalls : List Event → List (Nat × Nat × Ptr)
  | [] => []
  | Event.destroy o i p :: evs => (o, i, p) :: destroyCalls evs
  | _ :: evs => destroyCalls evs

end DynamicCustomStruct

/-! ## `maps_cuda_struct.h` and the proxies built by the allocation callbacks -/

namespace CudaStruct

open DynamicCustomStruct (Ptr)

/-- The fields of an `IplImage` that `MapsCudaStruct` keeps in `m_IplImageProxy`. -/
structure IplImage where
  align : Int
  depth : Int
  dataOrder : Int
  nChannels : Int
  width : Int
  height : Int
  channelSeq : String
  deriving DecidableEq, Repr

/-- The fields of a `MAPSImage` read by the Bayer stage's allocation callback. -/
structure MAPSImage where
  width : Int
  height : Int
  imageSize : Int
  imageCoding : String
  deriving DecidableEq, Repr

/-- Arithmetic on a 32 bit `int`: the value is kept modulo `2 ^ 32` in the signed range. -/
def wrapInt32 (z : Int) : Int := (z + 2 ^ 31) % 2 ^ 32 - 2 ^ 31

/-- The conversion of an `int` to the `size_t` parameter of `cudaMalloc` (64 bit). -/
def toSizeT (z : Int) : Nat := (z % 2 ^ 64).toNat

/-- The device runtime, on a device state `D`: `cudaMalloc` answers with a
pointer (`cudaSuccess`) or with no pointer (any other error code). -/
structure CudaRuntime (D : Type) where
  cudaMalloc : Nat → D → Option Ptr × D
  cudaFree : Ptr → D → D

/-- A device used to run the code on concrete inputs: the state is the list of
live regions (pointer, byte size); `cudaMalloc` hands out the address after the
last live region and fails beyond `capacity`. -/
def listRuntime (capacity : Nat) : CudaRuntime (List (Ptr × Nat)) where
  cudaMalloc := fun n d =>
    let p := (d.map (fun r => r.1 + r.2)).foldl max 1
    if p + n ≤ capacity then (some p, (p, n) :: d) else (none, d)
  cudaFree := fun p d => d.filter (fun r => r.1 != p)

/-- The struct `MapsCudaStruct`. -/
structure MapsCudaStruct where
  m_size : Int
  m_IplImageProxy : IplImage
  m_points : Ptr
  deriving DecidableEq, Repr

/-- Result of a constructor of `MapsCudaStruct`: the struct, or the `what()` of
the `std::runtime_error` it threw, and the device state. -/
structure Built (D : Type) where
  result : Except String MapsCudaStruct
  device : D

variable {D : Type}

/-- Embeds `MapsCudaStruct::allocateMemory`. -/
def allocateMemory (rt : CudaRuntime D) (nbPoints_ : Int) (d : D) : Except String Ptr × D :=
  match rt.cudaMalloc (toSizeT nbPoints_) d with
  | (some points, d1) => (Except.ok points, d1)
  | (none, d1) => (Except.error "Allocation failed", d1)

/-- Embeds `MapsCudaStruct::freeMemory`. -/
def freeMemory (rt : CudaRuntime D) (points_ : Ptr) (d : D) : D :=
  if points_ ≠ 0 then rt.cudaFree points_ d else d

/-- The assignments of the seven fields of `m_IplImageProxy`, shared by the three
constructors. -/
def copyProxy (image : IplImage) : IplImage :=
  { align := image.align, depth := image.depth, dataOrder := image.dataOrder,
    nChannels := image.nChannels, width := image.width, height := image.height,
    channelSeq := image.channelSeq }

/-- The body shared by the three constructors once `m_size` is initialised. -/
def construct (rt : CudaRuntime D) (m_size : Int) (image : IplImage) (d : D) : Built D :=
  match allocateMemory rt m_size d with
  | (Except.ok points, d1) =>
    ⟨Except.ok { m_size := m_size, m_IplImageProxy := copyProxy image, m_points := points }, d1⟩
  | (Except.error what, d1) => ⟨Except.error what, d1⟩

/-- Embeds `MapsCudaStruct(const int width_, const int height_, const int nbChannels_, const IplImage& image)`. -/
def MapsCudaStruct.ofDims (rt : CudaRuntime D) (width_ height_ nbChannels_ : Int)
    (image : IplImage) (d : D) : Built D :=
  construct rt (wrapInt32 (wrapInt32 (width_ * height_) * nbChannels_)) image d

/-- Embeds `MapsCudaStruct(const int size_, const IplImage& image)`. -/
def MapsCudaStruct.ofSize (rt : CudaRuntime D) (size_ : Int) (image : IplImage) (d : D) :
    Built D :=
  construct rt size_ image d

/-- Embeds `MapsCudaStruct(const MapsCudaStruct& cudaStruct)`. -/
def MapsCudaStruct.copy (rt : CudaRuntime D) (cudaStruct : MapsCudaStruct) (d : D) : Built D :=
  construct rt cudaStruct.m_size cudaStruct.m_IplImageProxy d

/-- Embeds `~MapsCudaStruct()`. -/
def MapsCudaStruct.destroy (rt : CudaRuntime D) (s : MapsCudaStruct) (d : D) : D :=
  freeMemory rt s.m_points d

/-- The byte depth of a descriptor: bits per channel (the low byte of `depth`,
which leaves out the sign flag of the signed depths) divided by eight. -/
def byteDepth (image : IplImage) : Int := (image.depth % 256) / 8

/-- Modelled from the spec: the channel count that `MAPS::IplImageModel` (RTMaps SDK,
outside the repository) records for a channel sequence: one for `GRAY`, else one
per character of the sequence. -/
def channelCount (channelSeq : String) : Int :=
  if channelSeq = "GRAY" then 1 else channelSeq.length

/-- Modelled from the spec: `MAPS::IplImageModel` (RTMaps SDK, outside the
repository) builds the descriptor of an image of the given width, height,
channel sequence, data order, depth and alignment. -/
def IplImageModel (width height : Int) (channelSeq : String) (dataOrder depth align : Int) :
    IplImage :=
  { align := align, depth := depth, dataOrder := dataOrder,
    nChannels := channelCount channelSeq, width := width, height := height,
    channelSeq := channelSeq }

def IPL_DATA_ORDER_PIXEL : Int := 0
def IPL_DATA_ORDER_PLANE : Int := 1
def IPL_DEPTH_8U : Int := 8
def IPL_DEPTH_16U : Int := 16
def IPL_ALIGN_QWORD : Int := 8

/-- The enum `OUTPUT_FORMAT` of the Bayer stage. -/
inductive OUTPUT_FORMAT where
  | BGR | RGB | BGRA | RGBA
  deriving DecidableEq, Repr

/-- The struct allocation of `MAPSOpenCV_Resize::AllocateOutputBufferSize` (host input):
`new MapsCudaStruct(model.width, model.height, model.nChannels, model)`. -/
def Resize_AllocateOutputBufferSize_struct (rt : CudaRuntime D) (m_newSize : Int × Int)
    (imageIn : IplImage) (d : D) : Built D :=
  let model := IplImageModel m_newSize.1 m_newSize.2 imageIn.channelSeq imageIn.dataOrder
    imageIn.depth imageIn.align
  MapsCudaStruct.ofDims rt model.width model.height model.nChannels model d

/-- The struct allocation of `MAPSOpenCV_Resize::AllocateOutputBufferSizeGpu` (device input):
`new MapsCudaStruct(m_newSize.width, m_newSize.height, imageIn.m_IplImageProxy.nChannels,
imageIn.m_IplImageProxy)`; `m_newSize` is (width, height). -/
def Resize_AllocateOutputBufferSizeGpu_struct (rt : CudaRuntime D) (m_newSize : Int × Int)
    (imageIn : MapsCudaStruct) (d : D) : Built D :=
  MapsCudaStruct.ofDims rt m_newSize.1 m_newSize.2 imageIn.m_IplImageProxy.nChannels
    imageIn.m_IplImageProxy d

/-- The struct allocation of `MAPSOpenCV_ChannelsMerger::AllocateOutputBufferSize` (host
inputs), reached once the three inputs passed the single channel and same size checks:
`new MapsCudaStruct(m_tempImageIn[0].cols, m_tempImageIn[0].rows,
m_tempImageIn[0].channels(), model)`, where `m_tempImageIn[0]` views `imageIn1`. -/
def ChannelsMerger_AllocateOutputBufferSize_struct (rt : CudaRuntime D) (m_channelSeq : String)
    (m_isOutputPlanar : Bool) (imageIn1 : IplImage) (d : D) : Built D :=
  let model := IplImageModel imageIn1.width imageIn1.height m_channelSeq
    (if m_isOutputPlanar then IPL_DATA_ORDER_PLANE else IPL_DATA_ORDER_PIXEL)
    imageIn1.depth imageIn1.align
  MapsCudaStruct.ofDims rt imageIn1.width imageIn1.height imageIn1.nChannels model d

/-- The struct allocation of `MAPSOpenCV_ChannelsMerger::AllocateOutputBufferSizeGpu` (device
inputs): `new MapsCudaStruct(imageIn1.m_size*3, model)`. -/
def ChannelsMerger_AllocateOutputBufferSizeGpu_struct (rt : CudaRuntime D)
    (m_channelSeq : String) (m_isOutputPlanar : Bool) (imageIn1 : MapsCudaStruct) (d : D) :
    Built D :=
  let model := IplImageModel imageIn1.m_IplImageProxy.width imageIn1.m_IplImageProxy.height
    m_channelSeq (if m_isOutputPlanar then IPL_DATA_ORDER_PLANE else IPL_DATA_ORDER_PIXEL)
    imageIn1.m_IplImageProxy.depth imageIn1.m_IplImageProxy.align
  MapsCudaStruct.ofSize rt (wrapInt32 (imageIn1.m_size * 3)) model d

/-- The `switch (m_outputFormat)` of the Bayer stage's allocation callbacks. -/
def Bayer_outputChanSeq : OUTPUT_FORMAT → String
  | OUTPUT_FORMAT.BGR => "BGR"
  | OUTPUT_FORMAT.RGB => "RGB"
  | OUTPUT_FORMAT.BGRA => "BGRA"
  | OUTPUT_FORMAT.RGBA => "RGBA"

/-- The struct allocation of `MAPSBayerDecoder::AllocateOutputBufferIpl`:
`new MapsCudaStruct(model.width, model.height, model.nChannels, model)`. -/
def Bayer_AllocateOutputBufferIpl_struct (rt : CudaRuntime D) (m_outputFormat : OUTPUT_FORMAT)
    (imageIn : IplImage) (d : D) : Built D :=
  let model := IplImageModel imageIn.width imageIn.height (Bayer_outputChanSeq m_outputFormat)
    imageIn.dataOrder imageIn.depth imageIn.align
  MapsCudaStruct.ofDims rt model.width model.height model.nChannels model d

/-- The struct allocation of `MAPSBayerDecoder::AllocateOutputBufferMaps`, for an image
coding the `switch (fourcc)` gave the depth `depth`:
`new MapsCudaStruct(imageIn.imageSize, model)`. -/
def Bayer_AllocateOutputBufferMaps_struct (rt : CudaRuntime D) (m_outputFormat : OUTPUT_FORMAT)
    (depth : Int) (imageIn : MAPSImage) (d : D) : Built D :=
  let model := IplImageModel imageIn.width imageIn.height (Bayer_outputChanSeq m_outputFormat)
    IPL_DATA_ORDER_PIXEL depth IPL_ALIGN_QWORD
  MapsCudaStruct.ofSize rt imageIn.imageSize model d

/-- The declared byte size of a built proxy next to the product of the width,
height and channel count its descriptor records. -/
def sizeAndRecordedDims (b : Built D) : Option (Int × Int) :=
  match b.result with
  | Except.ok s =>
    some (s.m_size,
      s.m_IplImageProxy.width * s.m_IplImageProxy.height * s.m_IplImageProxy.nChannels)
  | Except.error _ => none

end CudaStruct

/-! ## Predicates used in the statements -/

namespace DynamicCustomStruct

variable {W : Type}

/-- Position `idx` of the batch names the output of an earlier position. -/
def RepeatsEarlier (ws : List (OutputWrapper W)) (idx : Nat) : Prop :=
  ∃ j, j < idx ∧ (ws.map (fun o => o.output))[j]? = (ws.map (fun o => o.output))[idx]?

instance instDecidableRepeatsEarlier (ws : List (OutputWrapper W)) (idx : Nat) :
    Decidable (RepeatsEarlier ws idx) := by
  unfold RepeatsEarlier; infer_instance

/-- The error report `allUniqueOutputs` emits for position `idx`. -/
def duplicateReport (c : Component W) (idx : Nat) : Event :=
  Event.reportError
    (duplicateMessage (c.outputName ((c.m_outputWrappers.map (fun o => o.output)).getD idx 0)) idx)

end DynamicCustomStruct

namespace DynamicCustomStruct

/-- The cells of the FIFO of output `o`, from slot index `i` on, as
(output, slot index, pointer held). -/
def slotsFrom (o : Nat) : Nat → List MAPSIOElt → List (Nat × Nat × Ptr)
  | _, [] => []
  | i, e :: rest => (o, i, e.data) :: slotsFrom o (i + 1) rest

/-- The cells of the FIFO of output `o` as (output, slot index, pointer held). -/
def slotsOf (o : Nat) (elts : List MAPSIOElt) : List (Nat × Nat × Ptr) :=
  slotsFrom o 0 elts

/-- The `construct` calls of a trace that returned a non-null pointer:
output, slot index, pointer returned. -/
def successfulConstructs : List Event → List (Nat × Nat × Ptr)
  | [] => []
  | Event.construct o i (CtorResult.returned p) :: evs =>
    if p = 0 then successfulConstructs evs else (o, i, p) :: successfulConstructs evs
  | _ :: evs => successfulConstructs evs

/-- The slots of the outputs of the bindings `ws`, binding after binding, with
the pointer each holds in `fifo`. -/
def slotsOfAll {W : Type} (ws : List (OutputWrapper W)) (fifo : Nat → List MAPSIOElt) :
    List (Nat × Nat × Ptr) :=
  ws.flatMap (fun ow => slotsOf ow.output (fifo ow.output))

/-- The slots of every registered binding, in registration order, with the
pointer each holds. -/
def registeredSlots {W : Type} (c : Component W) : List (Nat × Nat × Ptr) :=
  slotsOfAll c.m_outputWrappers c.fifo

/-- A construct function that returns a non-null pointer, without throwing,
whatever the world it is called in. -/
def CtorSucceeds {W : Type} (ow : OutputWrapper W) : Prop :=
  ∀ w, ∃ p, p ≠ 0 ∧ (ow.ctor w).1 = CtorResult.returned p

/-- A destroy function that returns, without throwing, whatever the pointer and
the world it is called with. -/
def DtorReturns {W : Type} (ow : OutputWrapper W) : Prop :=
  ∀ p w, (ow.dtor p w).1 = DtorResult.returned

/-- The world after the destroy function of the binding `ow` has been handed
the pointers of the cells `elts`, one call after the other. -/
def destroyedWorld {W : Type} (ow : OutputWrapper W) (elts : List MAPSIOElt) (w : W) : W :=
  elts.foldl (fun w e => (ow.dtor e.data w).2) w

/-- The world after, binding after binding of `ws`, the destroy function of the
binding has been handed the pointers its output holds in `fifo`. -/
def destroyedWorldAll {W : Type} (ws : List (OutputWrapper W)) (fifo : Nat → List MAPSIOElt)
    (w : W) : W :=
  ws.foldl (fun w ow => destroyedWorld ow (fifo ow.output) w) w

end DynamicCustomStruct

/-! ## Concrete inputs on which the statements are run -/

namespace DynamicCustomStruct

/-- A binding of output `o` whose construct function hands out the pointers
1, 2, 3, ... (the world counts the calls) and whose destroy function does
nothing else. -/
def countingBinding (o : Nat) : OutputWrapper Nat :=
  { output := o, ctor := fun n => (CtorResult.returned (n + 1), n + 1),
    dtor := fun _ n => (DtorResult.returned, n),
    typeName := "MapsCudaStruct", elementByteSize := 64 }

/-- A binding of output `o` whose construct function succeeds `k` times and
throws `std::bad_alloc` from then on. -/
def failingBinding (o k : Nat) : OutputWrapper Nat :=
  { output := o,
    ctor := fun n =>
      if n < k then (CtorResult.returned (n + 1), n + 1)
      else (CtorResult.badAlloc "std::bad_alloc", n),
    dtor := fun _ n => (DtorResult.returned, n), typeName := "MapsCudaStruct",
    elementByteSize := 64 }

/-- A component whose outputs all have a pool of two slots holding `nullptr`,
with the bindings `ws` registered. -/
def twoSlotComponent (ws : List (OutputWrapper Nat)) : Component Nat :=
  { outputName := fun o => if o = 0 then "o_gpu" else "o_gpu_" ++ toString o,
    fifo := fun _ => [⟨0, 0, 0⟩, ⟨0, 0, 0⟩], m_outputWrappers := ws, world := 0 }

/-- A heap: the number of buffers handed out so far and the pointers of the
live buffers, oldest first. -/
abbrev Heap := Nat × List Ptr

/-- A binding of output `o` on a heap: construct hands out the next pointer
(1, 2, 3, ...) and makes it live, destroy takes its pointer out of the live
buffers. -/
def heapBinding (o : Nat) : OutputWrapper Heap :=
  { output := o,
    ctor := fun h => (CtorResult.returned (h.1 + 1), (h.1 + 1, h.2 ++ [h.1 + 1])),
    dtor := fun p h => (DtorResult.returned, (h.1, h.2.erase p)),
    typeName := "MapsCudaStruct", elementByteSize := 64 }

/-- A binding of output `o` on a heap whose destroy function throws, leaving
the buffer live; construct as for `heapBinding`. -/
def throwingBinding (o : Nat) : OutputWrapper Heap :=
  { output := o,
    ctor := fun h => (CtorResult.returned (h.1 + 1), (h.1 + 1, h.2 ++ [h.1 + 1])),
    dtor := fun _ h => (DtorResult.threw "destroy failed", h),
    typeName := "MapsCudaStruct", elementByteSize := 64 }

/-- A component on an empty heap whose outputs all have a pool of two slots
holding `nullptr`, with the bindings `ws` registered. -/
def heapComponent (ws : List (OutputWrapper Heap)) : Component Heap :=
  { outputName := fun o => if o = 0 then "o_gpu" else "o_gpu_" ++ toString o,
    fifo := fun _ => [⟨0, 0, 0⟩, ⟨0, 0, 0⟩], m_outputWrappers := ws, world := (0, []) }

end DynamicCustomStruct

namespace CudaStruct

/-- The descriptor of an interleaved image of the given size, channel sequence
and depth. -/
def descriptor (width height : Int) (channelSeq : String) (depth : Int) : IplImage :=
  IplImageModel width height channelSeq IPL_DATA_ORDER_PIXEL depth IPL_ALIGN_QWORD

/-- The byte size declared by a built proxy and the live device regions
(pointer, byte size) after the construction. -/
def declaredAndAllocated (b : Built (List (Ptr × Nat))) : Option (Int × List (Ptr × Nat)) :=
  match b.result with
  | Except.ok s => some (s.m_size, b.device)
  | Except.error _ => none

end CudaStruct

/-! ## The allocation callbacks of the stages -/

namespace Stages

open DynamicCustomStruct (Ptr)
open CudaStruct

/-- The output a callback names: `Output("name")` or `Output(idx)`. -/
inductive OutputRef where
  | byName (name : String)
  | byIndex (idx : Nat)
  deriving DecidableEq, Repr

/-- The expression `new MapsCudaStruct(...)` of a struct allocation lambda. -/
inductive StructAllocation where
  | ofDims (width_ height_ nbChannels_ : Int) (image : IplImage)
  | ofSize (size_ : Int) (image : IplImage)
  | copy (cudaStruct : MapsCudaStruct)
  deriving DecidableEq, Repr

/-- Runs the constructor a struct allocation lambda calls. -/
def StructAllocation.build {D : Type} (rt : CudaRuntime D) : StructAllocation → D → Built D
  | StructAllocation.ofDims width_ height_ nbChannels_ image, d =>
    MapsCudaStruct.ofDims rt width_ height_ nbChannels_ image d
  | StructAllocation.ofSize size_ image, d => MapsCudaStruct.ofSize rt size_ image d
  | StructAllocation.copy cudaStruct, d => MapsCudaStruct.copy rt cudaStruct d

/-- The descriptor `m_IplImageProxy` of the struct the lambda builds. -/
def StructAllocation.descriptor : StructAllocation → IplImage
  | StructAllocation.ofDims _ _ _ image => copyProxy image
  | StructAllocation.ofSize _ image => copyProxy image
  | StructAllocation.copy cudaStruct => copyProxy cudaStruct.m_IplImageProxy

/-- The allocation a callback performs: through the registry
(`AllocateDynamicOutputBuffers(DynamicOutput<MapsCudaStruct>(output, lambda), ...)`) or
through the host buffer call (`output.AllocOutputBufferIplImage(model)`, one per output). -/
inductive OutputAllocation where
  | registry (bindings : List (OutputRef × StructAllocation))
  | host (buffers : List (OutputRef × IplImage))
  deriving DecidableEq, Repr

/-- The descriptors of the outputs an allocation creates, output after output. -/
def OutputAllocation.descriptors : OutputAllocation → List IplImage
  | OutputAllocation.registry bindings => bindings.map (fun b => b.2.descriptor)
  | OutputAllocation.host buffers => buffers.map (fun b => b.2)

/-- What an allocation callback did up to its allocation call: the allocation
it requested, or the message of the `Error` that ended it before. -/
structure Callback where
  allocation : Option OutputAllocation
  error : Option String
  deriving DecidableEq, Repr

/-- A callback ended by `Error(msg)`. -/
def Callback.fatal (msg : String) : Callback := ⟨none, some msg⟩

/-- A callback that reached its allocation call. -/
def Callback.allocate (a : OutputAllocation) : Callback := ⟨some a, none⟩

/-- The descriptor of the single output of a callback that allocated. -/
def Callback.outputDescriptor (c : Callback) : Option IplImage :=
  match c.allocation with
  | some a => a.descriptors.head?
  | none => none

def MAPS_CHANNELSEQ_GRAY : String := "GRAY"
def MAPS_CHANNELSEQ_RGB : String := "RGB"
def MAPS_CHANNELSEQ_BGR : String := "BGR"
def MAPS_CHANNELSEQ_YUV : String := "YUV"
def MAPS_CHANNELSEQ_HSV : String := "HSV"
def MAPS_CHANNELSEQ_RGBA : String := "RGBA"
def MAPS_CHANNELSEQ_BGRA : String := "BGRA"

/-! ### Resize -/

/-- The members of `MAPSOpenCV_Resize` read by its allocation callbacks;
`m_newSize` is (width, height) = (`new_size_x`, `new_size_y`). -/
structure MAPSOpenCV_Resize where
  m_newSize : Int × Int
  m_gpuMatAsOutput : Bool
  deriving DecidableEq, Repr

/-- Embeds `MAPSOpenCV_Resize::AllocateOutputBufferSize` (host input). -/
def MAPSOpenCV_Resize.AllocateOutputBufferSize (c : MAPSOpenCV_Resize) (imageIn : IplImage) :
    Callback :=
  let model := IplImageModel c.m_newSize.1 c.m_newSize.2 imageIn.channelSeq imageIn.dataOrder
    imageIn.depth imageIn.align
  if c.m_gpuMatAsOutput then
    Callback.allocate (OutputAllocation.registry
      [(OutputRef.byName "o_gpu",
        StructAllocation.ofDims model.width model.height model.nChannels model)])
  else
    Callback.allocate (OutputAllocation.host [(OutputRef.byIndex 0, model)])

/-- Embeds `MAPSOpenCV_Resize::AllocateOutputBufferSizeGpu` (device input). -/
def MAPSOpenCV_Resize.AllocateOutputBufferSizeGpu (c : MAPSOpenCV_Resize)
    (imageIn : MapsCudaStruct) : Callback :=
  if c.m_gpuMatAsOutput then
    Callback.allocate (OutputAllocation.registry
      [(OutputRef.byName "o_gpu",
        StructAllocation.ofDims c.m_newSize.1 c.m_newSize.2 imageIn.m_IplImageProxy.nChannels
          imageIn.m_IplImageProxy)])
  else
    let proxy := imageIn.m_IplImageProxy
    let model := IplImageModel c.m_newSize.1 c.m_newSize.2 proxy.channelSeq proxy.dataOrder
      proxy.depth proxy.align
    Callback.allocate (OutputAllocation.host [(OutputRef.byIndex 0, model)])

/-! ### Bayer decoder -/

/-- The members of `MAPSBayerDecoder` read by its allocation callbacks. -/
structure MAPSBayerDecoder where
  m_outputFormat : OUTPUT_FORMAT
  m_gpuMatAsOutput : Bool
  deriving DecidableEq, Repr

/-- Embeds `MAPSBayerDecoder::AllocateOutputBufferIpl` (host IplImage input). -/
def MAPSBayerDecoder.AllocateOutputBufferIpl (c : MAPSBayerDecoder) (imageIn : IplImage) :
    Callback :=
  if imageIn.channelSeq ≠ MAPS_CHANNELSEQ_GRAY then
    Callback.fatal "This component only accepts GRAY images on its input (8 bpp or 16bpp)."
  else
    let outputChanSeq := Bayer_outputChanSeq c.m_outputFormat
    let model := IplImageModel imageIn.width imageIn.height outputChanSeq imageIn.dataOrder
      imageIn.depth imageIn.align
    if c.m_gpuMatAsOutput then
      Callback.allocate (OutputAllocation.registry
        [(OutputRef.byName "o_gpu",
          StructAllocation.ofDims model.width model.height model.nChannels model)])
    else
      Callback.allocate (OutputAllocation.host [(OutputRef.byIndex 0, model)])

/-- Embeds `MAPSBayerDecoder::AllocateOutputBufferGpu` (device input). -/
def MAPSBayerDecoder.AllocateOutputBufferGpu (c : MAPSBayerDecoder) (imageIn : MapsCudaStruct) :
    Callback :=
  if c.m_gpuMatAsOutput then
    Callback.allocate (OutputAllocation.registry
      [(OutputRef.byName "o_gpu", StructAllocation.copy imageIn)])
  else
    let proxy := imageIn.m_IplImageProxy
    let model := IplImageModel proxy.width proxy.height proxy.channelSeq proxy.dataOrder
      proxy.depth proxy.align
    Callback.allocate (OutputAllocation.host [(OutputRef.byIndex 0, model)])

/-! ### Rotate and flip -/

def Operation_None : Int := 0
def Operation_Rotation_90_ClockWise : Int := 1
def Operation_Rotation_90_CounterClockWise : Int := 2
def Operation_Rotation_180 : Int := 3
def Operation_Flip_Up_Down : Int := 4
def Operation_Flip_Left_Right : Int := 5
def Operation_Rotation_SpecifiedDegrees : Int := 6

/-- The members of `MAPSOpenCV_RotateAndFlip` read by its allocation callbacks. -/
structure MAPSOpenCV_RotateAndFlip where
  m_operation : Int
  m_gpuMatAsOutput : Bool
  deriving DecidableEq, Repr

/-- The `switch (m_operation)` of the two allocation callbacks, on the
descriptor `imageIn` of the input (the `IplImage`, or the proxy of the device
input): the model, or the message of `Error`. -/
def MAPSOpenCV_RotateAndFlip.modelOf (c : MAPSOpenCV_RotateAndFlip) (imageIn : IplImage) :
    Except String IplImage :=
  if c.m_operation = Operation_None ∨ c.m_operation = Operation_Rotation_180 ∨
      c.m_operation = Operation_Flip_Up_Down ∨ c.m_operation = Operation_Flip_Left_Right ∨
      c.m_operation = Operation_Rotation_SpecifiedDegrees then
    Except.ok (IplImageModel imageIn.width imageIn.height imageIn.channelSeq imageIn.dataOrder
      imageIn.depth imageIn.align)
  else if c.m_operation = Operation_Rotation_90_ClockWise ∨
      c.m_operation = Operation_Rotation_90_CounterClockWise then
    Except.ok (IplImageModel imageIn.height imageIn.width imageIn.channelSeq imageIn.dataOrder
      imageIn.depth imageIn.align)
  else Except.error "Unknown operation."

/-- The allocation both callbacks end with. -/
def MAPSOpenCV_RotateAndFlip.allocateModel (c : MAPSOpenCV_RotateAndFlip) (model : IplImage) :
    Callback :=
  if c.m_gpuMatAsOutput then
    Callback.allocate (OutputAllocation.registry
      [(OutputRef.byName "o_gpu",
        StructAllocation.ofDims model.width model.height model.nChannels model)])
  else
    Callback.allocate (OutputAllocation.host [(OutputRef.byIndex 0, model)])

/-- Embeds `MAPSOpenCV_RotateAndFlip::AllocateOutputBufferSize` (host input). -/
def MAPSOpenCV_RotateAndFlip.AllocateOutputBufferSize (c : MAPSOpenCV_RotateAndFlip)
    (imageIn : IplImage) : Callback :=
  match c.modelOf imageIn with
  | Except.error msg => Callback.fatal msg
  | Except.ok model => c.allocateModel model

/-- Embeds `MAPSOpenCV_RotateAndFlip::AllocateOutputBufferSizeGpu` (device input). -/
def MAPSOpenCV_RotateAndFlip.AllocateOutputBufferSizeGpu (c : MAPSOpenCV_RotateAndFlip)
    (imageIn : MapsCudaStruct) : Callback :=
  match c.modelOf imageIn.m_IplImageProxy with
  | Except.error msg => Callback.fatal msg
  | Except.ok model => c.allocateModel model

end Stages

/-! ## Colour space converter -/

namespace Stages

open DynamicCustomStruct (Ptr)
open CudaStruct

def CS_RGB24 : Int := 0
def CS_BGR24 : Int := 1
def CS_YUV24 : Int := 2
def CS_HSV : Int := 3
def CS_GRAY : Int := 4
def CS_RGBA : Int := 5
def CS_BGRA : Int := 6
def CS_AUTO : Int := 7

/-- The values of `cv::ColorConversionCodes` the converter assigns to
`m_openCVConvertCode`. -/
inductive ColorConversionCodes where
  | COLOR_RGB2GRAY | COLOR_BGR2GRAY
  | COLOR_GRAY2RGB | COLOR_YCrCb2RGB | COLOR_HSV2RGB | COLOR_RGBA2RGB | COLOR_BGR2RGB
  | COLOR_GRAY2BGR | COLOR_YCrCb2BGR | COLOR_HSV2BGR | COLOR_BGRA2BGR | COLOR_RGBA2BGR
  | COLOR_RGB2BGR
  | COLOR_RGB2YCrCb | COLOR_BGR2YCrCb
  | COLOR_RGB2HSV | COLOR_BGR2HSV
  | COLOR_RGB2RGBA | COLOR_BGR2RGBA | COLOR_GRAY2RGBA
  | COLOR_RGB2BGRA | COLOR_BGR2BGRA | COLOR_GRAY2BGRA
  deriving DecidableEq, Repr

/-- The members of `MAPSColorSpaceConverter` its allocation callbacks read and
write; `m_openCVConvertCode` is `none` until a callback assigns it. -/
structure MAPSColorSpaceConverter where
  m_inputCS : Int
  m_outputCS : Int
  m_openCVConvertCode : Option ColorConversionCodes
  m_gpuMatAsOutput : Bool
  deriving DecidableEq, Repr

/-- The `switch (chanSeq)` of the `CS_AUTO` branch of `CheckInputColorSpace`. -/
def MAPSColorSpaceConverter.autoSwitch (chanSeq : String) : Option Int :=
  if chanSeq = MAPS_CHANNELSEQ_GRAY then some CS_GRAY
  else if chanSeq = MAPS_CHANNELSEQ_RGBA then some CS_RGBA
  else if chanSeq = MAPS_CHANNELSEQ_BGRA then some CS_BGRA
  else if chanSeq = MAPS_CHANNELSEQ_BGR then some CS_BGR24
  else if chanSeq = MAPS_CHANNELSEQ_RGB then some CS_RGB24
  else if chanSeq = MAPS_CHANNELSEQ_HSV then some CS_HSV
  else if chanSeq = MAPS_CHANNELSEQ_YUV then some CS_YUV24
  else none

/-- Embeds `MAPSColorSpaceConverter::CheckInputColorSpace`: the component after
the call and the message of `Error` when it raised one. -/
def MAPSColorSpaceConverter.CheckInputColorSpace (c : MAPSColorSpaceConverter)
    (chanSeq : String) : MAPSColorSpaceConverter × Option String :=
  if c.m_inputCS = CS_AUTO then
    match MAPSColorSpaceConverter.autoSwitch chanSeq with
    | some cs => ({ c with m_inputCS := cs }, none)
    | none => (c, some ("Unsupported image format on input. This component only supports " ++
        "RGB24, BGR24, YUV24, HSV and GRAY images."))
  else if c.m_inputCS = CS_GRAY then
    if chanSeq ≠ MAPS_CHANNELSEQ_GRAY then
      (c, some "This component expects GRAY images on its input. See the inputColorSpace property.")
    else (c, none)
  else if c.m_inputCS = CS_RGB24 then
    if chanSeq ≠ MAPS_CHANNELSEQ_RGB then
      (c, some "This component expects RGB24 images on its input. See the inputColorSpace property.")
    else (c, none)
  else if c.m_inputCS = CS_BGR24 then
    if chanSeq ≠ MAPS_CHANNELSEQ_BGR then
      (c, some "This component expects BGR24 images on its input. See the inputColorSpace property.")
    else (c, none)
  else if c.m_inputCS = CS_YUV24 then
    if chanSeq ≠ MAPS_CHANNELSEQ_YUV then
      (c, some "This component expects YUV images on its input. See the inputColorSpace property.")
    else (c, none)
  else if c.m_inputCS = CS_HSV then
    if chanSeq ≠ MAPS_CHANNELSEQ_HSV then
      (c, some "This component expects HSV images on its input. See the inputColorSpace property.")
    else (c, none)
  else (c, none)

/-- The `switch (m_outputCS)` of the two allocation callbacks (the same text in
both): the conversion code assigned to `m_openCVConvertCode` and the channel
sequence of the model, or the message of `Error`. -/
def MAPSColorSpaceConverter.outputSwitch (m_inputCS m_outputCS : Int) :
    Except String (ColorConversionCodes × String) :=
  if m_outputCS = CS_GRAY then
    if m_inputCS = CS_RGB24 then Except.ok (ColorConversionCodes.COLOR_RGB2GRAY, "GRAY")
    else if m_inputCS = CS_BGR24 then Except.ok (ColorConversionCodes.COLOR_BGR2GRAY, "GRAY")
    else Except.error ("Cannot convert the input image format to GRAY. " ++
      "Only RGB to GRAY and BGR to GRAY are supported.")
  else if m_outputCS = CS_RGB24 then
    if m_inputCS = CS_GRAY then
      Except.ok (ColorConversionCodes.COLOR_GRAY2RGB, MAPS_CHANNELSEQ_RGB)
    else if m_inputCS = CS_YUV24 then
      Except.ok (ColorConversionCodes.COLOR_YCrCb2RGB, MAPS_CHANNELSEQ_RGB)
    else if m_inputCS = CS_HSV then
      Except.ok (ColorConversionCodes.COLOR_HSV2RGB, MAPS_CHANNELSEQ_RGB)
    else if m_inputCS = CS_RGBA then
      Except.ok (ColorConversionCodes.COLOR_RGBA2RGB, MAPS_CHANNELSEQ_RGB)
    else if m_inputCS = CS_BGR24 then
      Except.ok (ColorConversionCodes.COLOR_BGR2RGB, MAPS_CHANNELSEQ_RGB)
    else Except.error ("Cannot convert the input image format to RGB24. Only GRAY to RGB, " ++
      "YUV 24 to RGB and HSV to RGB transformations are supported.")
  else if m_outputCS = CS_BGR24 then
    if m_inputCS = CS_GRAY then
      Except.ok (ColorConversionCodes.COLOR_GRAY2BGR, MAPS_CHANNELSEQ_BGR)
    else if m_inputCS = CS_YUV24 then
      Except.ok (ColorConversionCodes.COLOR_YCrCb2BGR, MAPS_CHANNELSEQ_BGR)
    else if m_inputCS = CS_HSV then
      Except.ok (ColorConversionCodes.COLOR_HSV2BGR, MAPS_CHANNELSEQ_BGR)
    else if m_inputCS = CS_BGRA then
      Except.ok (ColorConversionCodes.COLOR_BGRA2BGR, MAPS_CHANNELSEQ_BGR)
    else if m_inputCS = CS_RGBA then
      Except.ok (ColorConversionCodes.COLOR_RGBA2BGR, MAPS_CHANNELSEQ_BGR)
    else if m_inputCS = CS_RGB24 then
      Except.ok (ColorConversionCodes.COLOR_RGB2BGR, MAPS_CHANNELSEQ_BGR)
    else Except.error ("Cannot convert the input image to BRG24. Only GRAY to BGR, " ++
      "YUV 24 to BGR and HSV to BGR transformations are supported.")
  else if m_outputCS = CS_YUV24 then
    if m_inputCS = CS_RGB24 then
      Except.ok (ColorConversionCodes.COLOR_RGB2YCrCb, MAPS_CHANNELSEQ_YUV)
    else if m_inputCS = CS_BGR24 then
      Except.ok (ColorConversionCodes.COLOR_BGR2YCrCb, MAPS_CHANNELSEQ_YUV)
    else Except.error ("Cannot convert the input image format to YUV24. " ++
      "Only RGB to YUV and BGR to YUV transformations are supported.")
  else if m_outputCS = CS_HSV then
    if m_inputCS = CS_RGB24 then
      Except.ok (ColorConversionCodes.COLOR_RGB2HSV, MAPS_CHANNELSEQ_HSV)
    else if m_inputCS = CS_BGR24 then
      Except.ok (ColorConversionCodes.COLOR_BGR2HSV, MAPS_CHANNELSEQ_HSV)
    else Except.error ("Cannot convert the input image format to HSV. " ++
      "Only RGB to HSV and BGR to HSV transformations are supported.")
  else if m_outputCS = CS_RGBA then
    if m_inputCS = CS_RGB24 then
      Except.ok (ColorConversionCodes.COLOR_RGB2RGBA, MAPS_CHANNELSEQ_RGBA)
    else if m_inputCS = CS_BGR24 then
      Except.ok (ColorConversionCodes.COLOR_BGR2RGBA, MAPS_CHANNELSEQ_RGBA)
    else if m_inputCS = CS_GRAY then
      Except.ok (ColorConversionCodes.COLOR_GRAY2RGBA, MAPS_CHANNELSEQ_RGBA)
    else Except.error "Conversion not supported. Ask Intempora."
  else if m_outputCS = CS_BGRA then
    if m_inputCS = CS_RGB24 then
      Except.ok (ColorConversionCodes.COLOR_RGB2BGRA, MAPS_CHANNELSEQ_BGRA)
    else if m_inputCS = CS_BGR24 then
      Except.ok (ColorConversionCodes.COLOR_BGR2BGRA, MAPS_CHANNELSEQ_BGRA)
    else if m_inputCS = CS_GRAY then
      Except.ok (ColorConversionCodes.COLOR_GRAY2BGRA, MAPS_CHANNELSEQ_BGRA)
    else Except.error "Conversion not supported."
  else Except.error ("Unsupported image format on input. This component can only deal with " ++
    "GRAY, RGB, BGR, YUV and HSV images.")

/-- The part the two allocation callbacks share from `CheckInputColorSpace` on:
`sizeOf` gives the width and height arguments of the struct allocation. -/
def MAPSColorSpaceConverter.allocateFrom (c : MAPSColorSpaceConverter) (imageIn : IplImage)
    (sizeOf : IplImage → Int × Int) : MAPSColorSpaceConverter × Callback :=
  match c.CheckInputColorSpace imageIn.channelSeq with
  | (c1, some msg) => (c1, Callback.fatal msg)
  | (c1, none) =>
    match MAPSColorSpaceConverter.outputSwitch c1.m_inputCS c1.m_outputCS with
    | Except.error msg => (c1, Callback.fatal msg)
    | Except.ok (code, seq) =>
      let c2 := { c1 with m_openCVConvertCode := some code }
      let model := IplImageModel imageIn.width imageIn.height seq imageIn.dataOrder
        imageIn.depth imageIn.align
      if c2.m_gpuMatAsOutput then
        (c2, Callback.allocate (OutputAllocation.registry
          [(OutputRef.byName "o_gpu",
            StructAllocation.ofDims (sizeOf model).1 (sizeOf model).2 model.nChannels model)]))
      else
        (c2, Callback.allocate (OutputAllocation.host [(OutputRef.byIndex 0, model)]))

/-- Embeds `MAPSColorSpaceConverter::AllocateOutputBufferSize` (host input); the
struct allocation is `new MapsCudaStruct(imageIn.width, imageIn.height, model.nChannels,
model)`. -/
def MAPSColorSpaceConverter.AllocateOutputBufferSize (c : MAPSColorSpaceConverter)
    (imageIn : IplImage) : MAPSColorSpaceConverter × Callback :=
  if imageIn.dataOrder ≠ IPL_DATA_ORDER_PIXEL then
    (c, Callback.fatal "This component only supports pixel oriented images on its input.")
  else c.allocateFrom imageIn (fun _ => (imageIn.width, imageIn.height))

/-- Embeds `MAPSColorSpaceConverter::AllocateOutputBufferSizeGpu` (device input); the
struct allocation is `new MapsCudaStruct(model.width, model.height, model.nChannels,
model)`. -/
def MAPSColorSpaceConverter.AllocateOutputBufferSizeGpu (c : MAPSColorSpaceConverter)
    (imageIn : MapsCudaStruct) : MAPSColorSpaceConverter × Callback :=
  c.allocateFrom imageIn.m_IplImageProxy (fun model => (model.width, model.height))

/-- The pairs (input colour space, output colour space) the converter has a
conversion code for. -/
def conversionPairs : List (Int × Int) :=
  [(CS_RGB24, CS_GRAY), (CS_BGR24, CS_GRAY),
   (CS_GRAY, CS_RGB24), (CS_YUV24, CS_RGB24), (CS_HSV, CS_RGB24), (CS_RGBA, CS_RGB24),
   (CS_BGR24, CS_RGB24),
   (CS_GRAY, CS_BGR24), (CS_YUV24, CS_BGR24), (CS_HSV, CS_BGR24), (CS_BGRA, CS_BGR24),
   (CS_RGBA, CS_BGR24), (CS_RGB24, CS_BGR24),
   (CS_RGB24, CS_YUV24), (CS_BGR24, CS_YUV24),
   (CS_RGB24, CS_HSV), (CS_BGR24, CS_HSV),
   (CS_RGB24, CS_RGBA), (CS_BGR24, CS_RGBA), (CS_GRAY, CS_RGBA),
   (CS_RGB24, CS_BGRA), (CS_BGR24, CS_BGRA), (CS_GRAY, CS_BGRA)]

/-- The channel sequence of a colour space other than `CS_AUTO`. -/
def channelSeqOf (cs : Int) : Option String :=
  if cs = CS_RGB24 then some MAPS_CHANNELSEQ_RGB
  else if cs = CS_BGR24 then some MAPS_CHANNELSEQ_BGR
  else if cs = CS_YUV24 then some MAPS_CHANNELSEQ_YUV
  else if cs = CS_HSV then some MAPS_CHANNELSEQ_HSV
  else if cs = CS_GRAY then some MAPS_CHANNELSEQ_GRAY
  else if cs = CS_RGBA then some MAPS_CHANNELSEQ_RGBA
  else if cs = CS_BGRA then some MAPS_CHANNELSEQ_BGRA
  else none

/-! ## Channel merge and channel split -/

/-- The members of `MAPSOpenCV_ChannelsMerger` read by its allocation callbacks. -/
structure MAPSOpenCV_ChannelsMerger where
  m_channelSeq : String
  m_isOutputPlanar : Bool
  m_gpuMatAsOutput : Bool
  deriving DecidableEq, Repr

/-- The model both allocation callbacks of the merge stage build and the
allocation they end with; `alloc` is the struct allocation of the callback. -/
def MAPSOpenCV_ChannelsMerger.allocateModel (c : MAPSOpenCV_ChannelsMerger)
    (imageIn1 : IplImage) (alloc : IplImage → StructAllocation) : Callback :=
  let model := IplImageModel imageIn1.width imageIn1.height c.m_channelSeq
    (if c.m_isOutputPlanar then IPL_DATA_ORDER_PLANE else IPL_DATA_ORDER_PIXEL)
    imageIn1.depth imageIn1.align
  if c.m_gpuMatAsOutput then
    Callback.allocate (OutputAllocation.registry [(OutputRef.byName "o_gpu", alloc model)])
  else
    Callback.allocate (OutputAllocation.host [(OutputRef.byName "imageOut", model)])

/-- Embeds `MAPSOpenCV_ChannelsMerger::AllocateOutputBufferSize` (host inputs);
`m_tempImageIn[k]` views input `k`, so `channels()` is its `nChannels` and `size()` its
(width, height). -/
def MAPSOpenCV_ChannelsMerger.AllocateOutputBufferSize (c : MAPSOpenCV_ChannelsMerger)
    (imageIn1 imageIn2 imageIn3 : IplImage) : Callback :=
  if imageIn1.nChannels ≠ 1 then
    Callback.fatal "Input 1 : This component only supports single channel images on its inputs."
  else if imageIn2.nChannels ≠ 1 then
    Callback.fatal "Input 2 : This component only supports single channel images on its inputs."
  else if imageIn3.nChannels ≠ 1 then
    Callback.fatal "Input 3 : This component only supports single channel images on its inputs."
  else if (imageIn1.width, imageIn1.height) ≠ (imageIn2.width, imageIn2.height) ∨
      (imageIn1.width, imageIn1.height) ≠ (imageIn3.width, imageIn3.height) then
    Callback.fatal "Input images must have the same dimensions."
  else
    c.allocateModel imageIn1
      (fun model => StructAllocation.ofDims imageIn1.width imageIn1.height imageIn1.nChannels model)

/-- Embeds `MAPSOpenCV_ChannelsMerger::AllocateOutputBufferSizeGpu` (device inputs). -/
def MAPSOpenCV_ChannelsMerger.AllocateOutputBufferSizeGpu (c : MAPSOpenCV_ChannelsMerger)
    (imageIn1 imageIn2 imageIn3 : MapsCudaStruct) : Callback :=
  if imageIn1.m_IplImageProxy.nChannels ≠ 1 then
    Callback.fatal "Input 1 : This component only supports single channel images on its inputs."
  else if imageIn2.m_IplImageProxy.nChannels ≠ 1 then
    Callback.fatal "Input 2 : This component only supports single channel images on its inputs."
  else if imageIn3.m_IplImageProxy.nChannels ≠ 1 then
    Callback.fatal "Input 3 : This component only supports single channel images on its inputs."
  else if imageIn1.m_size ≠ imageIn2.m_size ∨ imageIn1.m_size ≠ imageIn3.m_size then
    Callback.fatal "Input images must have the same dimensions."
  else
    c.allocateModel imageIn1.m_IplImageProxy
      (fun model => StructAllocation.ofSize (wrapInt32 (imageIn1.m_size * 3)) model)

/-- The three inputs are single channel images of the same width and height. -/
def MergeInputsValid (d1 d2 d3 : IplImage) : Prop :=
  d1.nChannels = 1 ∧ d2.nChannels = 1 ∧ d3.nChannels = 1 ∧
  d1.width = d2.width ∧ d1.width = d3.width ∧ d1.height = d2.height ∧ d1.height = d3.height

instance instDecidableMergeInputsValid (d1 d2 d3 : IplImage) :
    Decidable (MergeInputsValid d1 d2 d3) := by
  unfold MergeInputsValid; infer_instance

end Stages

/-! ## Processing: channel split, channel merge, rotation -/

namespace Stages

open DynamicCustomStruct (Ptr)
open CudaStruct

/-- Modelled from the spec: the library's channel split primitive (`cv::split`,
`cv::cuda::split`) on the elements of a 3-channel interleaved image: plane `k` holds
the elements at the positions `3 i + k`. -/
def cvSplit : List Nat → List Nat × List Nat × List Nat
  | a :: b :: c :: rest =>
    ((a :: (cvSplit rest).1), (b :: (cvSplit rest).2.1), (c :: (cvSplit rest).2.2))
  | _ => ([], [], [])

/-- Modelled from the spec: the library's channel merge primitive (`cv::merge`,
`cv::cuda::merge`) on three planes of the same size: element `3 i + k` of the
result is element `i` of plane `k`. -/
def cvMerge : List Nat → List Nat → List Nat → List Nat
  | a :: x, b :: y, c :: z => a :: b :: c :: cvMerge x y z
  | _, _, _ => []

/-- The contents of the device regions, by data pointer. -/
abbrev DeviceMemory := Ptr → List Nat

/-- Modelled from the spec: `GpuMat::copyTo(dst)` for a destination header of
the size and type of the source: the elements are written to the region `dst`
points to. -/
def copyTo (plane : List Nat) (dst : Ptr) (mem : DeviceMemory) : DeviceMemory :=
  Function.update mem dst plane

/-- The device output branch of `MAPSOpenCV_SplitChannels::ProcessData` (host input
`imageData`, uploaded to `src`): `dst1`, `dst2`, `dst3` are built on
`outputData1.m_points`, `outputData2.m_points`, `outputData3.m_points`. -/
def SplitChannels_ProcessData_deviceOutput (imageData : List Nat)
    (outputData1 outputData2 outputData3 : MapsCudaStruct) (mem : DeviceMemory) :
    DeviceMemory :=
  let mats := cvSplit imageData
  let dst1 := outputData1.m_points
  let dst2 := outputData2.m_points
  let dst3 := outputData3.m_points
  copyTo mats.2.2 dst3 (copyTo mats.2.1 dst2 (copyTo mats.1 dst1 mem))

/-- The device output branch of `MAPSOpenCV_SplitChannels::ProcessDataGpu` (device
input `inElt`): `outputData` is the struct of `outGuard1`, and `dst1`, `dst2`, `dst3`
are all three built on `outputData.m_points`; the copies are `mats[0].copyTo(dst1)`,
`mats[1].copyTo(dst2)`, `mats[2].copyTo(dst2)`. The structs of `outGuard2` and
`outGuard3` are not read. -/
def SplitChannels_ProcessDataGpu_deviceOutput (inElt : MapsCudaStruct)
    (outputData : MapsCudaStruct) (mem : DeviceMemory) : DeviceMemory :=
  let mats := cvSplit (mem inElt.m_points)
  let dst1 := outputData.m_points
  let dst2 := outputData.m_points
  copyTo mats.2.2 dst2 (copyTo mats.2.1 dst2 (copyTo mats.1 dst1 mem))

/-- The host branch (no CUDA) of `MAPSOpenCV_SplitChannels::ProcessData`: the
contents of `imageOut1`, `imageOut2`, `imageOut3`; `imageSize` is the `imageSize` of
the outputs. The planar case is the three `memcpy`, the interleaved case is
`cv::split` into the views of the three outputs. -/
def SplitChannels_ProcessData_host (m_isInputPlanar : Bool) (imageSize : Nat)
    (imageData : List Nat) : List Nat × List Nat × List Nat :=
  if m_isInputPlanar then
    (imageData.take imageSize, (imageData.drop imageSize).take imageSize,
      (imageData.drop (2 * imageSize)).take imageSize)
  else cvSplit imageData

/-- The host branch (no CUDA) of `MAPSOpenCV_ChannelsMerger::ProcessData`: the
content of `imageOut`; `imageSize` is `imageIn1.imageSize`. The planar case is the
loop of `memcpy`, the interleaved case is `cv::merge` into the view of the output. -/
def ChannelsMerger_ProcessData_host (m_isOutputPlanar : Bool) (imageSize : Nat)
    (in1 in2 in3 : List Nat) : List Nat :=
  if m_isOutputPlanar then
    in1.take imageSize ++ in2.take imageSize ++ in3.take imageSize
  else cvMerge in1 in2 in3

/-- An image as its rows of pixels. -/
abbrev Image := List (List Nat)

/-- The pixel of an image at column `x` and row `y`; outside the image the
constant border value 0 of the warp. -/
def pixelAt (img : Image) (x y : Int) : Nat :=
  if 0 ≤ x ∧ 0 ≤ y then (img.getD y.toNat []).getD x.toNat 0 else 0

/-- Modelled from the spec: `cv::getRotationMatrix2D(center, 180, 1.0)` for the centre
`(cols / 2, rows / 2)` the stage computes, in exact arithmetic: the rows
`(-1, 0, 2 center.x)` and `(0, -1, 2 center.y)`, that is `(-1, 0, cols)` and
`(0, -1, rows)`. -/
def rotationMatrix180 (cols rows : Int) : (Int × Int × Int) × (Int × Int × Int) :=
  ((-1, 0, cols), (0, -1, rows))

/-- Modelled from the spec: `cv::warpAffine(src, dst, M, dsize)` for a rotation matrix
`M` with integer entries (determinant 1): pixel `(x, y)` of the result is the
source pixel at the position the inverse of `M` sends `(x, y)` to, the border
value outside the source. -/
def warpAffine (src : Image) (M : (Int × Int × Int) × (Int × Int × Int))
    (dsize : Nat × Nat) : Image :=
  let a := M.1.1
  let b := M.1.2.1
  let tx := M.1.2.2
  let c := M.2.1
  let d := M.2.2.1
  let ty := M.2.2.2
  (List.range dsize.2).map (fun y =>
    (List.range dsize.1).map (fun x =>
      pixelAt src (d * ((x : Int) - tx) - b * ((y : Int) - ty))
        (a * ((y : Int) - ty) - c * ((x : Int) - tx))))

/-- The host branch of `MAPSOpenCV_RotateAndFlip::Rotate(180, ...)`, called for
`Operation_Rotation_180`, on an image of `cols` columns and `rows` rows:
`center = (cols / 2.0f, rows / 2.0f)`, then
`warpAffine(imageIn, tempImageOut, rotationMatrix, imageIn.size())`. -/
def Rotate180 (cols rows : Nat) (imageIn : Image) : Image :=
  warpAffine imageIn (rotationMatrix180 cols rows) (cols, rows)

end Stages

/-! ## Predicates and concrete inputs for the stage statements -/

namespace Stages

open DynamicCustomStruct (Ptr)
open CudaStruct

/-- The callback ended without error and allocated one output whose descriptor
has the given width and height and the channel sequence, data order, depth and
alignment of `like`. -/
def Callback.Derives (cb : Callback) (width height : Int) (like : IplImage) : Prop :=
  cb.error = none ∧
  ∃ d, cb.outputDescriptor = some d ∧ d.width = width ∧ d.height = height ∧
    d.channelSeq = like.channelSeq ∧ d.dataOrder = like.dataOrder ∧ d.depth = like.depth ∧
    d.align = like.align

/-- The callback ended in the fatal error `msg` and allocated nothing. -/
def Callback.Rejects (cb : Callback) (msg : String) : Prop :=
  cb.error = some msg ∧ cb.allocation = none

/-- The input colour space after `CheckInputColorSpace`: the declared one, or
the one detected for `CS_AUTO`. -/
def MAPSColorSpaceConverter.inputSpace (c : MAPSColorSpaceConverter) (chanSeq : String) : Int :=
  (c.CheckInputColorSpace chanSeq).1.m_inputCS

/-- A device proxy of an interleaved 8 bit image of the given size and channel
sequence, at data pointer `p`. -/
def proxyOf (width height : Int) (channelSeq : String) (p : Ptr) : MapsCudaStruct :=
  { m_size := width * height * channelCount channelSeq,
    m_IplImageProxy := descriptor width height channelSeq IPL_DEPTH_8U, m_points := p }

/-- A device memory holding the two pixel image `1 2 3 | 4 5 6` at pointer 5 and
nothing elsewhere. -/
def twoPixelMemory : DeviceMemory := fun p => if p = 5 then [1, 2, 3, 4, 5, 6] else []

end Stages

/-! ## Processing callbacks: control flow of every stage -/

namespace Stages

/-- One statement of a processing callback, as far as the control flow goes. -/
inductive Step where
  /-- A call into the transform library (`cv::...`, `upload`, `download`, `ConvertGpu`),
  which may throw. -/
  | library (call : String)
  /-- A `memcpy`. -/
  | copy (call : String)
  /-- The statement
  `if (matOut.data != imageOut.imageData) Error("cv::Mat data ptr and imageOut data ptr are different.")`. -/
  | pointerCheck
  /-- The statement `outGuard.Timestamp() = ts` on the guard of output `output`. -/
  | setTimestamp (output : Nat)
  /-- The statement `Error(msg)`. -/
  | fatal (msg : String)
  deriving DecidableEq, Repr

/-- What the transform library does during one run of a callback: `threw` is the
`what()` of the exception its first call throws (none: no call throws), and
`reallocated` says that after the transform (or the download) the data pointer of the
output matrix is no longer the image data pointer of the output slot. -/
structure LibraryOutcome where
  threw : Option String
  reallocated : Bool
  deriving DecidableEq, Repr

/-- The end of a run of a processing callback: the message of the fatal error
that ended it (none: it returned), and the timestamps written, as pairs (output,
timestamp), in the order of the writes. -/
structure Processed where
  error : Option String
  stamps : List (Nat × Int)
  deriving DecidableEq, Repr

def pointerMessage : String := "cv::Mat data ptr and imageOut data ptr are different."

/-- Runs the statements of one path of a callback triggered by a sample of
timestamp `ts`. An exception of the library ends the callback (inside
`try ... catch (const std::exception& e) { Error(e.what()); }` as the fatal error
`e.what()`); `Error` ends the callback. -/
def run (lib : LibraryOutcome) (ts : Int) : List Step → Processed
  | [] => ⟨none, []⟩
  | Step.library _ :: rest =>
    match lib.threw with
    | some what => ⟨some what, []⟩
    | none => run lib ts rest
  | Step.copy _ :: rest => run lib ts rest
  | Step.pointerCheck :: rest =>
    if lib.reallocated then ⟨some pointerMessage, []⟩ else run lib ts rest
  | Step.setTimestamp output :: rest =>
    let r := run lib ts rest
    ⟨r.error, (output, ts) :: r.stamps⟩
  | Step.fatal msg :: _ => ⟨some msg, []⟩

/-- The configuration a processing callback branches on: the two path flags,
the operation of the rotate/flip stage, the planar flag of the split and merge
stages (`m_isInputPlanar`, `m_isOutputPlanar`), and whether the four-character code
of a `MAPSImage` input of the Bayer stage is one of the codes of its `switch`. -/
structure Config where
  m_useCuda : Bool
  m_gpuMatAsOutput : Bool
  m_operation : Int
  planar : Bool
  codingSupported : Bool
  deriving DecidableEq, Repr

/-- The path: does the output of a callback with a host input live in host memory. -/
def Config.hostOutput (c : Config) : Bool := !(c.m_useCuda && c.m_gpuMatAsOutput)

/-- The path: does the output of a callback with a device input live in host memory. -/
def Config.hostOutputGpu (c : Config) : Bool := !c.m_gpuMatAsOutput

/-! ### Resize -/

/-- Embeds `MAPSOpenCV_Resize::ProcessData`. -/
def Resize_ProcessData (c : Config) : List Step :=
  (if c.m_useCuda then
    [Step.library "cv::cuda::GpuMat src(tempImageIn)"] ++
    (if c.m_gpuMatAsOutput then [Step.library "cv::cuda::resize"]
     else [Step.library "cv::cuda::resize", Step.library "dst.download", Step.pointerCheck])
   else [Step.library "cv::resize", Step.pointerCheck]) ++
  [Step.setTimestamp 0]

/-- Embeds `MAPSOpenCV_Resize::ProcessDataGpu`. -/
def Resize_ProcessDataGpu (c : Config) : List Step :=
  if c.m_gpuMatAsOutput then [Step.library "cv::cuda::resize", Step.setTimestamp 0]
  else [Step.library "cv::cuda::resize", Step.library "dst.download", Step.setTimestamp 0,
    Step.pointerCheck]

/-! ### Bayer decoder -/

/-- Embeds `MAPSBayerDecoder::ProcessDataIpl`. -/
def Bayer_ProcessDataIpl (c : Config) : List Step :=
  (if c.m_useCuda then
    [Step.library "cv::cuda::GpuMat src(m_tempImageIn)"] ++
    (if c.m_gpuMatAsOutput then [Step.library "cv::cuda::cvtColor"]
     else [Step.library "cv::cuda::cvtColor", Step.library "dst.download"])
   else [Step.library "cv::cvtColor", Step.pointerCheck]) ++
  [Step.setTimestamp 0]

/-- Embeds `MAPSBayerDecoder::ProcessDataMaps`. -/
def Bayer_ProcessDataMaps (c : Config) : List Step :=
  (if c.codingSupported then [] else [Step.fatal "Image coding not supported"]) ++
  (if c.m_useCuda then
    [Step.library "cv::cuda::GpuMat src(m_tempImageIn)"] ++
    (if c.m_gpuMatAsOutput then [Step.library "ConvertGpu"]
     else [Step.library "ConvertGpu", Step.library "dst.download", Step.pointerCheck])
   else [Step.library "cv::cvtColor", Step.pointerCheck]) ++
  [Step.setTimestamp 0]

/-- Embeds `MAPSBayerDecoder::ProcessDataGpu`. -/
def Bayer_ProcessDataGpu (c : Config) : List Step :=
  (if c.m_gpuMatAsOutput then [Step.library "ConvertGpu"]
   else [Step.library "ConvertGpu", Step.library "dst.download", Step.pointerCheck]) ++
  [Step.setTimestamp 0]

/-! ### Colour space converter -/

/-- Embeds `MAPSColorSpaceConverter::ProcessData`. -/
def ColorSpaceConverter_ProcessData (c : Config) : List Step :=
  (if c.m_useCuda then
    [Step.library "cv::cuda::GpuMat src(matIn)"] ++
    (if c.m_gpuMatAsOutput then [Step.library "ConvertGpu"]
     else [Step.library "ConvertGpu", Step.library "dst.download", Step.pointerCheck])
   else [Step.library "cv::cvtColor", Step.pointerCheck]) ++
  [Step.setTimestamp 0]

/-- Embeds `MAPSColorSpaceConverter::ProcessDataGpu`. -/
def ColorSpaceConverter_ProcessDataGpu (c : Config) : List Step :=
  (if c.m_gpuMatAsOutput then [Step.library "ConvertGpu"]
   else [Step.library "ConvertGpu", Step.library "dst.download", Step.pointerCheck]) ++
  [Step.setTimestamp 0]

/-! ### Colour correction -/

/-- Embeds `MAPSColorCorrection::ProcessData`. -/
def ColorCorrection_ProcessData (c : Config) : List Step :=
  (if c.m_useCuda then
    [Step.library "cv::cuda::GpuMat src(m_tempImageIn)"] ++
    (if c.m_gpuMatAsOutput then [Step.library "cv::cuda::multiply"]
     else [Step.library "cv::cuda::multiply", Step.library "dst.download", Step.pointerCheck])
   else [Step.library "cv::multiply", Step.pointerCheck]) ++
  [Step.setTimestamp 0]

/-- Embeds `MAPSColorCorrection::ProcessDataGpu`. -/
def ColorCorrection_ProcessDataGpu (c : Config) : List Step :=
  (if c.m_gpuMatAsOutput then [Step.library "cv::cuda::multiply"]
   else [Step.library "cv::cuda::multiply", Step.library "dst.download", Step.pointerCheck]) ++
  [Step.setTimestamp 0]

/-! ### Histogram equalisation -/

/-- Embeds `MAPSOpenCV_EqualizeHistogram::ProcessData`. -/
def EqualizeHistogram_ProcessData (c : Config) : List Step :=
  (if c.m_useCuda then
    [Step.library "cv::cuda::GpuMat src(m_tempImageIn)"] ++
    (if c.m_gpuMatAsOutput then [Step.library "cv::cuda::equalizeHist"]
     else [Step.library "cv::cuda::equalizeHist", Step.library "dst.download",
       Step.pointerCheck])
   else [Step.library "cv::equalizeHist", Step.pointerCheck]) ++
  [Step.setTimestamp 0]

/-- Embeds `MAPSOpenCV_EqualizeHistogram::ProcessDataGpu`. -/
def EqualizeHistogram_ProcessDataGpu (c : Config) : List Step :=
  (if c.m_gpuMatAsOutput then [Step.library "cv::cuda::equalizeHist"]
   else [Step.library "cv::cuda::equalizeHist", Step.library "dst.download",
     Step.pointerCheck]) ++
  [Step.setTimestamp 0]

/-! ### Rotate and flip -/

/-- Embeds `MAPSOpenCV_RotateAndFlip::Rotate`. -/
def Rotate (c : Config) : List Step :=
  if c.m_useCuda then
    [Step.library "cv::cuda::GpuMat src(imageIn)"] ++
    (if c.m_gpuMatAsOutput then [Step.library "cv::cuda::warpAffine"]
     else [Step.library "cv::cuda::warpAffine", Step.library "dst.download"])
  else [Step.library "cv::warpAffine", Step.pointerCheck]

/-- Embeds `MAPSOpenCV_RotateAndFlip::RotateGpu`. -/
def RotateGpu (c : Config) : List Step :=
  if c.m_gpuMatAsOutput then [Step.library "cv::cuda::warpAffine"]
  else [Step.library "cv::cuda::warpAffine", Step.library "dst.download"]

/-- Embeds `MAPSOpenCV_RotateAndFlip::Flip`. -/
def Flip (c : Config) : List Step :=
  if c.m_useCuda then
    [Step.library "cv::cuda::GpuMat src(imageIn)"] ++
    (if c.m_gpuMatAsOutput then [Step.library "cv::cuda::flip"]
     else [Step.library "cv::cuda::flip", Step.library "dst.download"])
  else [Step.library "cv::flip", Step.pointerCheck]

/-- Embeds `MAPSOpenCV_RotateAndFlip::FlipGpu`. -/
def FlipGpu (c : Config) : List Step :=
  if c.m_gpuMatAsOutput then [Step.library "cv::cuda::flip"]
  else [Step.library "cv::cuda::flip", Step.library "dst.download"]

/-- Embeds `MAPSOpenCV_RotateAndFlip::ProcessData`: the `switch (m_operation)`,
then the write of the timestamp after the `try` block. -/
def RotateAndFlip_ProcessData (c : Config) : List Step :=
  (if c.m_operation = Operation_None then
    (if c.m_gpuMatAsOutput then [Step.library "dst.upload"] else [Step.copy "memcpy"])
   else if c.m_operation = Operation_Rotation_90_ClockWise ∨
      c.m_operation = Operation_Rotation_90_CounterClockWise ∨
      c.m_operation = Operation_Rotation_180 ∨
      c.m_operation = Operation_Rotation_SpecifiedDegrees then Rotate c
   else if c.m_operation = Operation_Flip_Up_Down ∨
      c.m_operation = Operation_Flip_Left_Right then Flip c
   else [Step.fatal "Unknown operation."]) ++
  [Step.setTimestamp 0]

/-- Embeds `MAPSOpenCV_RotateAndFlip::ProcessDataGpu`. -/
def RotateAndFlip_ProcessDataGpu (c : Config) : List Step :=
  (if c.m_operation = Operation_None then
    (if c.m_gpuMatAsOutput then [Step.library "src.copyTo"]
     else [Step.library "src.download"])
   else if c.m_operation = Operation_Rotation_90_ClockWise ∨
      c.m_operation = Operation_Rotation_90_CounterClockWise ∨
      c.m_operation = Operation_Rotation_180 ∨
      c.m_operation = Operation_Rotation_SpecifiedDegrees then RotateGpu c
   else if c.m_operation = Operation_Flip_Up_Down ∨
      c.m_operation = Operation_Flip_Left_Right then FlipGpu c
   else [Step.fatal "Unknown operation."]) ++
  [Step.setTimestamp 0]

/-! ### Channel merge -/

/-- Embeds `MAPSOpenCV_ChannelsMerger::ProcessData`. -/
def ChannelsMerger_ProcessData (c : Config) : List Step :=
  (if c.m_useCuda then
    [Step.library "m_tempGpuMats[0].upload", Step.library "m_tempGpuMats[1].upload",
      Step.library "m_tempGpuMats[2].upload"] ++
    (if c.m_gpuMatAsOutput then [Step.library "cv::cuda::merge"]
     else [Step.library "cv::cuda::merge", Step.library "dst.download", Step.pointerCheck])
   else if c.planar then [Step.copy "memcpy", Step.copy "memcpy", Step.copy "memcpy"]
   else [Step.library "cv::merge", Step.pointerCheck]) ++
  [Step.setTimestamp 0]

/-- Embeds `MAPSOpenCV_ChannelsMerger::ProcessDataGpu`. -/
def ChannelsMerger_ProcessDataGpu (c : Config) : List Step :=
  (if c.m_gpuMatAsOutput then [Step.library "cv::cuda::merge"]
   else [Step.library "cv::cuda::merge", Step.library "dst.download", Step.pointerCheck]) ++
  [Step.setTimestamp 0]

/-! ### Channel split -/

/-- Embeds `MAPSOpenCV_SplitChannels::ProcessData`; the pointer check is the
disjunction over the three outputs. -/
def SplitChannels_ProcessData (c : Config) : List Step :=
  (if c.m_useCuda then
    [Step.library "cv::cuda::GpuMat src(tempImageIn)"] ++
    (if c.m_gpuMatAsOutput then
      [Step.library "cv::cuda::split", Step.library "mats[0].copyTo",
        Step.library "mats[1].copyTo", Step.library "mats[2].copyTo"]
     else
      [Step.library "cv::cuda::split", Step.library "mats[0].download",
        Step.library "mats[1].download", Step.library "mats[2].download", Step.pointerCheck])
   else if c.planar then [Step.copy "memcpy", Step.copy "memcpy", Step.copy "memcpy"]
   else [Step.library "cv::split", Step.pointerCheck]) ++
  [Step.setTimestamp 0, Step.setTimestamp 1, Step.setTimestamp 2]

/-- Embeds `MAPSOpenCV_SplitChannels::ProcessDataGpu`. -/
def SplitChannels_ProcessDataGpu (c : Config) : List Step :=
  (if c.m_gpuMatAsOutput then
    [Step.library "cv::cuda::split", Step.library "mats[0].copyTo",
      Step.library "mats[1].copyTo", Step.library "mats[2].copyTo"]
   else
    [Step.library "cv::cuda::split", Step.library "mats[0].download",
      Step.library "mats[1].download", Step.library "mats[2].download", Step.pointerCheck]) ++
  [Step.setTimestamp 0, Step.setTimestamp 1, Step.setTimestamp 2]

/-- A processing callback of a stage: its name, the number of outputs it
publishes, whether its input lives in device memory, and its statements. -/
structure ProcessingCallback where
  name : String
  outputs : Nat
  deviceInput : Bool
  body : Config → List Step

/-- The processing callbacks of the eight stages. -/
def processingCallbacks : List ProcessingCallback :=
  [⟨"MAPSOpenCV_Resize::ProcessData", 1, false, Resize_ProcessData⟩,
   ⟨"MAPSOpenCV_Resize::ProcessDataGpu", 1, true, Resize_ProcessDataGpu⟩,
   ⟨"MAPSBayerDecoder::ProcessDataIpl", 1, false, Bayer_ProcessDataIpl⟩,
   ⟨"MAPSBayerDecoder::ProcessDataMaps", 1, false, Bayer_ProcessDataMaps⟩,
   ⟨"MAPSBayerDecoder::ProcessDataGpu", 1, true, Bayer_ProcessDataGpu⟩,
   ⟨"MAPSColorSpaceConverter::ProcessData", 1, false, ColorSpaceConverter_ProcessData⟩,
   ⟨"MAPSColorSpaceConverter::ProcessDataGpu", 1, true, ColorSpaceConverter_ProcessDataGpu⟩,
   ⟨"MAPSColorCorrection::ProcessData", 1, false, ColorCorrection_ProcessData⟩,
   ⟨"MAPSColorCorrection::ProcessDataGpu", 1, true, ColorCorrection_ProcessDataGpu⟩,
   ⟨"MAPSOpenCV_EqualizeHistogram::ProcessData", 1, false, EqualizeHistogram_ProcessData⟩,
   ⟨"MAPSOpenCV_EqualizeHistogram::ProcessDataGpu", 1, true, EqualizeHistogram_ProcessDataGpu⟩,
   ⟨"MAPSOpenCV_RotateAndFlip::ProcessData", 1, false, RotateAndFlip_ProcessData⟩,
   ⟨"MAPSOpenCV_RotateAndFlip::ProcessDataGpu", 1, true, RotateAndFlip_ProcessDataGpu⟩,
   ⟨"MAPSOpenCV_ChannelsMerger::ProcessData", 1, false, ChannelsMerger_ProcessData⟩,
   ⟨"MAPSOpenCV_ChannelsMerger::ProcessDataGpu", 1, true, ChannelsMerger_ProcessDataGpu⟩,
   ⟨"MAPSOpenCV_SplitChannels::ProcessData", 3, false, SplitChannels_ProcessData⟩,
   ⟨"MAPSOpenCV_SplitChannels::ProcessDataGpu", 3, true, SplitChannels_ProcessDataGpu⟩]

/-- The timestamps of a callback with `outputs` outputs that wrote `ts` to each. -/
def allStamped (outputs : Nat) (ts : Int) : List (Nat × Int) :=
  (List.range outputs).map (fun k => (k, ts))

end Stages
/-! ## Dynamic pass, teardown and the guarded registry call of the stages -/

namespace Stages

open DynamicCustomStruct
open CudaStruct

variable {W : Type}

/-- What the Dynamic pass of a stage reads to choose its memory path:
`cv::cuda::getCudaEnabledDeviceCount()` and the values of the properties `use_cuda`,
`gpu_mat_as_input` and `gpu_mat_as_output`. -/
structure CudaProperties where
  cudaEnabledDeviceCount : Int
  use_cuda : Bool
  gpu_mat_as_input : Bool
  gpu_mat_as_output : Bool
  deriving DecidableEq, Repr

/-- The three path flags of a stage. -/
structure PathFlags where
  m_useCuda : Bool
  m_gpuMatAsInput : Bool
  m_gpuMatAsOutput : Bool
  deriving DecidableEq, Repr

/-- The flags at the end of the `Dynamic` of a stage (the same statements in the
eight stages): the three flags are reset, `use_cuda` is made mutable when a CUDA
device exists, `m_useCuda` is read when `use_cuda` is mutable, and the two other flags
are read only `if (m_useCuda)`. -/
def Stage_Dynamic (p : CudaProperties) : PathFlags :=
  let isMutable : Bool := decide (p.cudaEnabledDeviceCount > 0)
  let m_useCuda : Bool := if isMutable then p.use_cuda else false
  if m_useCuda then ⟨true, p.gpu_mat_as_input, p.gpu_mat_as_output⟩
  else ⟨false, false, false⟩

/-- The name of the input and of the output the `Dynamic` of a stage creates. -/
def Stage_Dynamic_ports (p : CudaProperties) : String × String :=
  let f := Stage_Dynamic p
  if f.m_useCuda then
    (if f.m_gpuMatAsInput then "i_gpu" else "imageIn",
     if f.m_gpuMatAsOutput then "o_gpu" else "imageOut")
  else ("imageIn", "imageOut")

/-- The message of the `catch (...)` handler around the registry call of the
allocation callbacks. -/
def allocationFailedMessage : String := "Failed to allocate the dynamic output buffers"

/-- The end of the registry branch of an allocation callback: the registry, the
events of the registry call, the messages of what was thrown, in order (what
left the registry call, as a rule the `Error` of the registry, then the `Error` of
the handler), and the message of the fatal error that leaves the callback. -/
structure GuardedAllocation (W : Type) where
  state : Component W
  events : List Event
  raised : List String
  error : Option String

/-- Embeds the registry branch of the allocation callbacks: the call
`AllocateDynamicOutputBuffers(...)` inside `try`, followed by the handler `catch (...)`
whose body is `Error(allocationFailedMessage)`. The `Error` of the registry throws, the
handler catches whatever is thrown and calls `Error` with its own message. -/
def AllocateOutputBuffer_registryBranch (c : Component W) (outputWrapper : OutputWrapper W)
    (outputWrappers : List (OutputWrapper W)) : GuardedAllocation W :=
  let r := AllocateDynamicOutputBuffers c outputWrapper outputWrappers
  match r.error with
  | none => ⟨r.state, r.events, [], none⟩
  | some msg => ⟨r.state, r.events, [msg, allocationFailedMessage], some allocationFailedMessage⟩

end Stages

/-! ## Conversion steps, gains, warp size, ports and Bayer pattern -/

namespace Stages

open DynamicCustomStruct (Ptr)
open CudaStruct

/-- The images a conversion reads and writes: the input of the callback, the
scratch image (`m_workImage`, `workImage`), the output of the callback. -/
inductive Operand where
  | input | work | output
  deriving DecidableEq, Repr

/-- One statement of the conversion of the colour space converter; the channel
vector (`m_tempChannels`, `tempChannels`) is implicit. -/
inductive ConversionStep where
  /-- The call `split(src, channels)`. -/
  | split (src : Operand)
  /-- The call `std::swap(channels[i], channels[j])`. -/
  | swap (i j : Nat)
  /-- The call `merge(channels, dst)`. -/
  | merge (dst : Operand)
  /-- The call `cvtColor(src, dst, code)`. -/
  | cvtColor (src dst : Operand) (code : Option ColorConversionCodes)
  deriving DecidableEq, Repr

/-- Embeds the conversion of the host branch of `MAPSColorSpaceConverter::ProcessData`
(the `try` block; `cv::split`, `cv::merge`, `cv::cvtColor`). -/
def MAPSColorSpaceConverter.ProcessData_conversion (c : MAPSColorSpaceConverter) :
    List ConversionStep :=
  if c.m_inputCS = CS_YUV24 then
    [ConversionStep.split Operand.input, ConversionStep.swap 1 2,
      ConversionStep.merge Operand.work,
      ConversionStep.cvtColor Operand.work Operand.output c.m_openCVConvertCode]
  else if c.m_outputCS = CS_YUV24 then
    [ConversionStep.cvtColor Operand.input Operand.work c.m_openCVConvertCode,
      ConversionStep.split Operand.work, ConversionStep.swap 1 2,
      ConversionStep.merge Operand.output]
  else
    [ConversionStep.cvtColor Operand.input Operand.output c.m_openCVConvertCode]

/-- Embeds `MAPSColorSpaceConverter::ConvertGpu` (`cv::cuda::split`, `cv::cuda::merge`,
`cv::cuda::cvtColor`). -/
def MAPSColorSpaceConverter.ConvertGpu (c : MAPSColorSpaceConverter) : List ConversionStep :=
  if c.m_inputCS = CS_YUV24 then
    [ConversionStep.split Operand.input, ConversionStep.swap 1 2,
      ConversionStep.merge Operand.work,
      ConversionStep.cvtColor Operand.work Operand.output c.m_openCVConvertCode]
  else if c.m_outputCS = CS_YUV24 then
    [ConversionStep.cvtColor Operand.input Operand.work c.m_openCVConvertCode,
      ConversionStep.split Operand.work, ConversionStep.swap 1 2,
      ConversionStep.merge Operand.output]
  else
    [ConversionStep.cvtColor Operand.input Operand.output c.m_openCVConvertCode]

/-! ### Colour correction -/

/-- The members of `MAPSColorCorrection` read by its callbacks; `G` is the type
of the gains. -/
structure MAPSColorCorrection (G : Type) where
  m_dRed : G
  m_dGreen : G
  m_dBlue : G
  m_gpuMatAsOutput : Bool

/-- The `cv::Scalar coefficients` the processing callbacks hand to `multiply` (the same
`if`/`else` on the five paths of `ProcessData` and `ProcessDataGpu`); a `cv::Scalar` built
from three values has 0 as fourth component. -/
def MAPSColorCorrection.coefficients {G : Type} [Zero G] (c : MAPSColorCorrection G)
    (chanSeq : String) : G × G × G × G :=
  if chanSeq = MAPS_CHANNELSEQ_BGR ∨ chanSeq = MAPS_CHANNELSEQ_BGRA then
    (c.m_dBlue, c.m_dGreen, c.m_dRed, 0)
  else
    (c.m_dRed, c.m_dGreen, c.m_dBlue, 0)

/-- Embeds `MAPSColorCorrection::AllocateOutputBufferSize` (host input). -/
def MAPSColorCorrection.AllocateOutputBufferSize {G : Type} (c : MAPSColorCorrection G)
    (imageIn : IplImage) : Callback :=
  if imageIn.channelSeq ≠ MAPS_CHANNELSEQ_BGR ∧ imageIn.channelSeq ≠ MAPS_CHANNELSEQ_BGRA ∧
      imageIn.channelSeq ≠ MAPS_CHANNELSEQ_RGB ∧ imageIn.channelSeq ≠ MAPS_CHANNELSEQ_RGBA then
    Callback.fatal "This component only accepts RGB/BGR/RGBA/BGRA images on its input."
  else if c.m_gpuMatAsOutput then
    Callback.allocate (OutputAllocation.registry
      [(OutputRef.byName "o_gpu",
        StructAllocation.ofDims imageIn.width imageIn.height imageIn.nChannels imageIn)])
  else
    Callback.allocate (OutputAllocation.host [(OutputRef.byIndex 0, imageIn)])

/-- Embeds `MAPSColorCorrection::AllocateOutputBufferSizeGpu` (device input). -/
def MAPSColorCorrection.AllocateOutputBufferSizeGpu {G : Type} (c : MAPSColorCorrection G)
    (imageIn : MapsCudaStruct) : Callback :=
  let proxy := imageIn.m_IplImageProxy
  if proxy.channelSeq ≠ MAPS_CHANNELSEQ_BGR ∧ proxy.channelSeq ≠ MAPS_CHANNELSEQ_BGRA ∧
      proxy.channelSeq ≠ MAPS_CHANNELSEQ_RGB ∧ proxy.channelSeq ≠ MAPS_CHANNELSEQ_RGBA then
    Callback.fatal "This component only accepts RGB/BGR/RGBA/BGRA images on its input."
  else if c.m_gpuMatAsOutput then
    Callback.allocate (OutputAllocation.registry
      [(OutputRef.byName "o_gpu", StructAllocation.copy imageIn)])
  else
    let model := IplImageModel proxy.width proxy.height proxy.channelSeq IPL_DATA_ORDER_PIXEL
      proxy.depth proxy.align
    Callback.allocate (OutputAllocation.host [(OutputRef.byIndex 0, model)])

/-! ### Rotate and flip: destination size of the warp, ports -/

/-- The destination size `imageIn.size()` (width, height) that `Rotate` hands to
`warpAffine`; `imageIn` is the descriptor of the view of the host input. -/
def Rotate_dsize (imageIn : IplImage) : Int × Int := (imageIn.width, imageIn.height)

/-- The destination size `imageIn.size()` (width, height) that `RotateGpu` hands to
`cv::cuda::warpAffine`; the matrix `src` has `proxy.height` rows and `proxy.width` columns. -/
def RotateGpu_dsize (proxy : IplImage) : Int × Int := (proxy.width, proxy.height)

/-- The dimensions (width, height) of the descriptor of the output a callback
allocates. -/
def Callback.outputDims (c : Callback) : Option (Int × Int) :=
  c.outputDescriptor.map (fun d => (d.width, d.height))

/-- What the `Dynamic` of the rotate/flip stage reads. -/
structure RotateAndFlipProperties where
  operation : Int
  angle_input_mode : Int
  cuda : CudaProperties
  deriving DecidableEq, Repr

/-- The inputs and outputs the `Dynamic` of the rotate/flip stage has created, in
the order of the `NewInput` and `NewOutput` calls: `Input(i)` is entry `i` of `inputs`. -/
structure RotateAndFlipPorts where
  m_operation : Int
  flags : PathFlags
  inputs : List String
  outputs : List String
  deriving DecidableEq, Repr

/-- Embeds `MAPSOpenCV_RotateAndFlip::Dynamic`: for operation 6 the angle property or the
input `angle_in` is created first, then the path flags are read and the image input
and the output are created. -/
def MAPSOpenCV_RotateAndFlip_Dynamic (p : RotateAndFlipProperties) : RotateAndFlipPorts :=
  let angle : List String :=
    if p.operation = 6 then (if p.angle_input_mode = 0 then [] else ["angle_in"]) else []
  let f := Stage_Dynamic p.cuda
  let ports := Stage_Dynamic_ports p.cuda
  ⟨p.operation, f, angle ++ [ports.1], [ports.2]⟩

/-- The input `Input(0)` that `Birth` registers as the trigger and first reader
input, the data of which the callbacks read as the image (`inElts[0]`). -/
def RotateAndFlipPorts.imageRead (ports : RotateAndFlipPorts) : Option String :=
  ports.inputs[0]?

/-- The input `Input(1)` that `Birth` registers second for operation 6 with an
angle input, from which the callbacks read the angle (`Integer32()`). -/
def RotateAndFlipPorts.angleRead (ports : RotateAndFlipPorts) : Option String :=
  ports.inputs[1]?

/-! ### Bayer decoder: pattern and conversion code -/

/-- The values of `MAPS_BAYER_PATTERN` the `switch` statements of the Bayer stage
name; they are the four entries of the property `input_pattern`. -/
inductive MAPS_BAYER_PATTERN where
  | BG | GB | RG | GR
  deriving DecidableEq, Repr

/-- The values of `cv::ColorConversionCodes` assigned in `MAPSBayerDecoder::Birth`:
`COLOR_Bayer p f` stands for `cv::COLOR_Bayer<p>2<f>`. -/
inductive BayerConversionCode where
  | COLOR_Bayer (p : MAPS_BAYER_PATTERN) (f : OUTPUT_FORMAT)
  deriving DecidableEq, Repr

/-- The members of `MAPSBayerDecoder` that `Birth` and `Set` write and the conversion
reads. -/
structure BayerConversion where
  m_outputFormat : OUTPUT_FORMAT
  m_pattern : MAPS_BAYER_PATTERN
  m_colorConvCode : BayerConversionCode
  deriving DecidableEq, Repr

/-- Embeds the two nested `switch` statements of `MAPSBayerDecoder::Birth` on the
values of the properties `outputFormat` and `input_pattern`. -/
def MAPSBayerDecoder_Birth (outputFormat : OUTPUT_FORMAT) (input_pattern : MAPS_BAYER_PATTERN) :
    BayerConversion :=
  let m_colorConvCode :=
    match outputFormat with
    | OUTPUT_FORMAT.BGR =>
      (match input_pattern with
       | MAPS_BAYER_PATTERN.BG =>
         BayerConversionCode.COLOR_Bayer MAPS_BAYER_PATTERN.BG OUTPUT_FORMAT.BGR
       | MAPS_BAYER_PATTERN.GB =>
         BayerConversionCode.COLOR_Bayer MAPS_BAYER_PATTERN.GB OUTPUT_FORMAT.BGR
       | MAPS_BAYER_PATTERN.RG =>
         BayerConversionCode.COLOR_Bayer MAPS_BAYER_PATTERN.RG OUTPUT_FORMAT.BGR
       | MAPS_BAYER_PATTERN.GR =>
         BayerConversionCode.COLOR_Bayer MAPS_BAYER_PATTERN.GR OUTPUT_FORMAT.BGR)
    | OUTPUT_FORMAT.RGB =>
      (match input_pattern with
       | MAPS_BAYER_PATTERN.BG =>
         BayerConversionCode.COLOR_Bayer MAPS_BAYER_PATTERN.BG OUTPUT_FORMAT.RGB
       | MAPS_BAYER_PATTERN.GB =>
         BayerConversionCode.COLOR_Bayer MAPS_BAYER_PATTERN.GB OUTPUT_FORMAT.RGB
       | MAPS_BAYER_PATTERN.RG =>
         BayerConversionCode.COLOR_Bayer MAPS_BAYER_PATTERN.RG OUTPUT_FORMAT.RGB
       | MAPS_BAYER_PATTERN.GR =>
         BayerConversionCode.COLOR_Bayer MAPS_BAYER_PATTERN.GR OUTPUT_FORMAT.RGB)
    | OUTPUT_FORMAT.BGRA =>
      (match input_pattern with
       | MAPS_BAYER_PATTERN.BG =>
         BayerConversionCode.COLOR_Bayer MAPS_BAYER_PATTERN.BG OUTPUT_FORMAT.BGRA
       | MAPS_BAYER_PATTERN.GB =>
         BayerConversionCode.COLOR_Bayer MAPS_BAYER_PATTERN.GB OUTPUT_FORMAT.BGRA
       | MAPS_BAYER_PATTERN.RG =>
         BayerConversionCode.COLOR_Bayer MAPS_BAYER_PATTERN.RG OUTPUT_FORMAT.BGRA
       | MAPS_BAYER_PATTERN.GR =>
         BayerConversionCode.COLOR_Bayer MAPS_BAYER_PATTERN.GR OUTPUT_FORMAT.BGRA)
    | OUTPUT_FORMAT.RGBA =>
      (match input_pattern with
       | MAPS_BAYER_PATTERN.BG =>
         BayerConversionCode.COLOR_Bayer MAPS_BAYER_PATTERN.BG OUTPUT_FORMAT.RGBA
       | MAPS_BAYER_PATTERN.GB =>
         BayerConversionCode.COLOR_Bayer MAPS_BAYER_PATTERN.GB OUTPUT_FORMAT.RGBA
       | MAPS_BAYER_PATTERN.RG =>
         BayerConversionCode.COLOR_Bayer MAPS_BAYER_PATTERN.RG OUTPUT_FORMAT.RGBA
       | MAPS_BAYER_PATTERN.GR =>
         BayerConversionCode.COLOR_Bayer MAPS_BAYER_PATTERN.GR OUTPUT_FORMAT.RGBA)
  ⟨outputFormat, input_pattern, m_colorConvCode⟩

/-- Embeds `MAPSBayerDecoder::Set`: `selected` is the entry of `input_pattern` selected
after the base `Set`. -/
def MAPSBayerDecoder_Set (shortName : String) (selected : MAPS_BAYER_PATTERN)
    (c : BayerConversion) : BayerConversion :=
  if shortName = "input_pattern" then { c with m_pattern := selected } else c

/-- Embeds the `switch (m_pattern)` of `MAPSBayerDecoder::ConvertGpu` (the same in
`ProcessDataIpl` and `ProcessDataMaps`): the code handed to `cvtColor`. -/
def MAPSBayerDecoder_ConvertGpu (c : BayerConversion) : BayerConversionCode :=
  match c.m_pattern with
  | MAPS_BAYER_PATTERN.BG => c.m_colorConvCode
  | MAPS_BAYER_PATTERN.GB => c.m_colorConvCode
  | MAPS_BAYER_PATTERN.RG => c.m_colorConvCode
  | MAPS_BAYER_PATTERN.GR => c.m_colorConvCode

end Stages
/-! ## Histogram equalisation, channel split, Bayer (MAPSImage input): allocation callbacks -/

namespace Stages

open DynamicCustomStruct (Ptr)
open CudaStruct

/-- The member of `MAPSOpenCV_EqualizeHistogram` read by its allocation callbacks. -/
structure MAPSOpenCV_EqualizeHistogram where
  m_gpuMatAsOutput : Bool
  deriving DecidableEq, Repr

/-- Embeds `MAPSOpenCV_EqualizeHistogram::AllocateOutputBufferSize` (host input). -/
def MAPSOpenCV_EqualizeHistogram.AllocateOutputBufferSize (c : MAPSOpenCV_EqualizeHistogram)
    (imageIn : IplImage) : Callback :=
  if c.m_gpuMatAsOutput then
    Callback.allocate (OutputAllocation.registry
      [(OutputRef.byName "o_gpu",
        StructAllocation.ofDims imageIn.width imageIn.height imageIn.nChannels imageIn)])
  else
    Callback.allocate (OutputAllocation.host [(OutputRef.byIndex 0, imageIn)])

/-- Embeds `MAPSOpenCV_EqualizeHistogram::AllocateOutputBufferSizeGpu` (device input). -/
def MAPSOpenCV_EqualizeHistogram.AllocateOutputBufferSizeGpu (c : MAPSOpenCV_EqualizeHistogram)
    (imageIn : MapsCudaStruct) : Callback :=
  if c.m_gpuMatAsOutput then
    Callback.allocate (OutputAllocation.registry
      [(OutputRef.byName "o_gpu", StructAllocation.copy imageIn)])
  else
    let proxy := imageIn.m_IplImageProxy
    let model := IplImageModel proxy.width proxy.height proxy.channelSeq IPL_DATA_ORDER_PIXEL
      proxy.depth proxy.align
    Callback.allocate (OutputAllocation.host [(OutputRef.byIndex 0, model)])

/-- The members of `MAPSOpenCV_SplitChannels` read or written by its allocation
callbacks. -/
structure MAPSOpenCV_SplitChannels where
  m_isInputPlanar : Bool
  m_gpuMatAsOutput : Bool
  deriving DecidableEq, Repr

/-- The part both allocation callbacks of the split stage share, on the
descriptor `imageIn` of the input (the `IplImage`, or the proxy of the device
input): the check of the channel count, the assignment of `m_isInputPlanar`, the
model, and the allocation of the three outputs. -/
def MAPSOpenCV_SplitChannels.allocateFrom (c : MAPSOpenCV_SplitChannels) (imageIn : IplImage) :
    MAPSOpenCV_SplitChannels × Callback :=
  if imageIn.nChannels ≠ 3 then
    (c, Callback.fatal "This component only supports 3 channels images.")
  else
    let c1 := { c with m_isInputPlanar := decide (imageIn.dataOrder = IPL_DATA_ORDER_PLANE) }
    let model := IplImageModel imageIn.width imageIn.height MAPS_CHANNELSEQ_GRAY
      imageIn.dataOrder imageIn.depth imageIn.align
    if c1.m_gpuMatAsOutput then
      (c1, Callback.allocate (OutputAllocation.registry
        [(OutputRef.byName "o_gpu_channel1",
            StructAllocation.ofDims imageIn.width imageIn.height 1 model),
         (OutputRef.byName "o_gpu_channel2",
            StructAllocation.ofDims imageIn.width imageIn.height 1 model),
         (OutputRef.byName "o_gpu_channel3",
            StructAllocation.ofDims imageIn.width imageIn.height 1 model)]))
    else
      (c1, Callback.allocate (OutputAllocation.host
        [(OutputRef.byName "channel1", model), (OutputRef.byName "channel2", model),
         (OutputRef.byName "channel3", model)]))

/-- Embeds `MAPSOpenCV_SplitChannels::AllocateOutputBufferSize` (host input). -/
def MAPSOpenCV_SplitChannels.AllocateOutputBufferSize (c : MAPSOpenCV_SplitChannels)
    (imageIn : IplImage) : MAPSOpenCV_SplitChannels × Callback :=
  c.allocateFrom imageIn

/-- Embeds `MAPSOpenCV_SplitChannels::AllocateOutputBufferSizeGpu` (device input); the
local `type` the source computes is not used. -/
def MAPSOpenCV_SplitChannels.AllocateOutputBufferSizeGpu (c : MAPSOpenCV_SplitChannels)
    (imageIn : MapsCudaStruct) : MAPSOpenCV_SplitChannels × Callback :=
  c.allocateFrom imageIn.m_IplImageProxy

/-- The `switch (fourcc)` of `MAPSBayerDecoder::AllocateOutputBufferMaps`, on the four
characters of the image coding: the depth, or nothing at the `default` label. -/
def Bayer_codingDepth (imageCoding : String) : Option Int :=
  if imageCoding = "RGGB" ∨ imageCoding = "GRBG" ∨ imageCoding = "GBRG" ∨
      imageCoding = "BA81" then
    some IPL_DEPTH_8U
  else if imageCoding = "RG10" ∨ imageCoding = "BA10" ∨ imageCoding = "GB10" ∨
      imageCoding = "BG10" ∨ imageCoding = "RG12" ∨ imageCoding = "BA12" ∨
      imageCoding = "GB12" ∨ imageCoding = "BG12" ∨ imageCoding = "RG16" ∨
      imageCoding = "GR16" ∨ imageCoding = "GB16" ∨ imageCoding = "BYR2" then
    some IPL_DEPTH_16U
  else none

/-- Embeds `MAPSBayerDecoder::AllocateOutputBufferMaps` (host MAPSImage input). -/
def MAPSBayerDecoder.AllocateOutputBufferMaps (c : MAPSBayerDecoder) (imageIn : MAPSImage) :
    Callback :=
  let outputChanSeq := Bayer_outputChanSeq c.m_outputFormat
  match Bayer_codingDepth imageIn.imageCoding with
  | none => Callback.fatal "Image coding not supported"
  | some depth =>
    let model := IplImageModel imageIn.width imageIn.height outputChanSeq IPL_DATA_ORDER_PIXEL
      depth IPL_ALIGN_QWORD
    if c.m_gpuMatAsOutput then
      Callback.allocate (OutputAllocation.registry
        [(OutputRef.byName "o_gpu", StructAllocation.ofSize imageIn.imageSize model)])
    else
      Callback.allocate (OutputAllocation.host [(OutputRef.byIndex 0, model)])

/-- A call of an allocation callback of one of the eight stages: the members
the callback reads, the device-output flag apart, and the input it is handed;
`G` is the type of the gains of the colour correction. -/
inductive AllocationCall (G : Type) where
  | Resize_AllocateOutputBufferSize (m_newSize : Int × Int) (imageIn : IplImage)
  | Resize_AllocateOutputBufferSizeGpu (m_newSize : Int × Int) (imageIn : MapsCudaStruct)
  | Bayer_AllocateOutputBufferIpl (m_outputFormat : OUTPUT_FORMAT) (imageIn : IplImage)
  | Bayer_AllocateOutputBufferMaps (m_outputFormat : OUTPUT_FORMAT) (imageIn : MAPSImage)
  | Bayer_AllocateOutputBufferGpu (m_outputFormat : OUTPUT_FORMAT) (imageIn : MapsCudaStruct)
  | ColorSpaceConverter_AllocateOutputBufferSize (c : MAPSColorSpaceConverter)
      (imageIn : IplImage)
  | ColorSpaceConverter_AllocateOutputBufferSizeGpu (c : MAPSColorSpaceConverter)
      (imageIn : MapsCudaStruct)
  | ColorCorrection_AllocateOutputBufferSize (c : MAPSColorCorrection G) (imageIn : IplImage)
  | ColorCorrection_AllocateOutputBufferSizeGpu (c : MAPSColorCorrection G)
      (imageIn : MapsCudaStruct)
  | EqualizeHistogram_AllocateOutputBufferSize (imageIn : IplImage)
  | EqualizeHistogram_AllocateOutputBufferSizeGpu (imageIn : MapsCudaStruct)
  | RotateAndFlip_AllocateOutputBufferSize (m_operation : Int) (imageIn : IplImage)
  | RotateAndFlip_AllocateOutputBufferSizeGpu (m_operation : Int) (imageIn : MapsCudaStruct)
  | ChannelsMerger_AllocateOutputBufferSize (m_channelSeq : String) (m_isOutputPlanar : Bool)
      (imageIn1 imageIn2 imageIn3 : IplImage)
  | ChannelsMerger_AllocateOutputBufferSizeGpu (m_channelSeq : String)
      (m_isOutputPlanar : Bool) (imageIn1 imageIn2 imageIn3 : MapsCudaStruct)
  | SplitChannels_AllocateOutputBufferSize (m_isInputPlanar : Bool) (imageIn : IplImage)
  | SplitChannels_AllocateOutputBufferSizeGpu (m_isInputPlanar : Bool)
      (imageIn : MapsCudaStruct)

/-- Runs the allocation callback of the call in the stage whose device-output
flag is `m_gpuMatAsOutput`. -/
def AllocationCall.run {G : Type} (m_gpuMatAsOutput : Bool) : AllocationCall G → Callback
  | AllocationCall.Resize_AllocateOutputBufferSize m_newSize imageIn =>
    MAPSOpenCV_Resize.AllocateOutputBufferSize ⟨m_newSize, m_gpuMatAsOutput⟩ imageIn
  | AllocationCall.Resize_AllocateOutputBufferSizeGpu m_newSize imageIn =>
    MAPSOpenCV_Resize.AllocateOutputBufferSizeGpu ⟨m_newSize, m_gpuMatAsOutput⟩ imageIn
  | AllocationCall.Bayer_AllocateOutputBufferIpl m_outputFormat imageIn =>
    MAPSBayerDecoder.AllocateOutputBufferIpl ⟨m_outputFormat, m_gpuMatAsOutput⟩ imageIn
  | AllocationCall.Bayer_AllocateOutputBufferMaps m_outputFormat imageIn =>
    MAPSBayerDecoder.AllocateOutputBufferMaps ⟨m_outputFormat, m_gpuMatAsOutput⟩ imageIn
  | AllocationCall.Bayer_AllocateOutputBufferGpu m_outputFormat imageIn =>
    MAPSBayerDecoder.AllocateOutputBufferGpu ⟨m_outputFormat, m_gpuMatAsOutput⟩ imageIn
  | AllocationCall.ColorSpaceConverter_AllocateOutputBufferSize c imageIn =>
    (MAPSColorSpaceConverter.AllocateOutputBufferSize
      { c with m_gpuMatAsOutput := m_gpuMatAsOutput } imageIn).2
  | AllocationCall.ColorSpaceConverter_AllocateOutputBufferSizeGpu c imageIn =>
    (MAPSColorSpaceConverter.AllocateOutputBufferSizeGpu
      { c with m_gpuMatAsOutput := m_gpuMatAsOutput } imageIn).2
  | AllocationCall.ColorCorrection_AllocateOutputBufferSize c imageIn =>
    MAPSColorCorrection.AllocateOutputBufferSize
      { c with m_gpuMatAsOutput := m_gpuMatAsOutput } imageIn
  | AllocationCall.ColorCorrection_AllocateOutputBufferSizeGpu c imageIn =>
    MAPSColorCorrection.AllocateOutputBufferSizeGpu
      { c with m_gpuMatAsOutput := m_gpuMatAsOutput } imageIn
  | AllocationCall.EqualizeHistogram_AllocateOutputBufferSize imageIn =>
    MAPSOpenCV_EqualizeHistogram.AllocateOutputBufferSize ⟨m_gpuMatAsOutput⟩ imageIn
  | AllocationCall.EqualizeHistogram_AllocateOutputBufferSizeGpu imageIn =>
    MAPSOpenCV_EqualizeHistogram.AllocateOutputBufferSizeGpu ⟨m_gpuMatAsOutput⟩ imageIn
  | AllocationCall.RotateAndFlip_AllocateOutputBufferSize m_operation imageIn =>
    MAPSOpenCV_RotateAndFlip.AllocateOutputBufferSize ⟨m_operation, m_gpuMatAsOutput⟩ imageIn
  | AllocationCall.RotateAndFlip_AllocateOutputBufferSizeGpu m_operation imageIn =>
    MAPSOpenCV_RotateAndFlip.AllocateOutputBufferSizeGpu ⟨m_operation, m_gpuMatAsOutput⟩
      imageIn
  | AllocationCall.ChannelsMerger_AllocateOutputBufferSize m_channelSeq m_isOutputPlanar
      imageIn1 imageIn2 imageIn3 =>
    MAPSOpenCV_ChannelsMerger.AllocateOutputBufferSize
      ⟨m_channelSeq, m_isOutputPlanar, m_gpuMatAsOutput⟩ imageIn1 imageIn2 imageIn3
  | AllocationCall.ChannelsMerger_AllocateOutputBufferSizeGpu m_channelSeq m_isOutputPlanar
      imageIn1 imageIn2 imageIn3 =>
    MAPSOpenCV_ChannelsMerger.AllocateOutputBufferSizeGpu
      ⟨m_channelSeq, m_isOutputPlanar, m_gpuMatAsOutput⟩ imageIn1 imageIn2 imageIn3
  | AllocationCall.SplitChannels_AllocateOutputBufferSize m_isInputPlanar imageIn =>
    (MAPSOpenCV_SplitChannels.AllocateOutputBufferSize
      ⟨m_isInputPlanar, m_gpuMatAsOutput⟩ imageIn).2
  | AllocationCall.SplitChannels_AllocateOutputBufferSizeGpu m_isInputPlanar imageIn =>
    (MAPSOpenCV_SplitChannels.AllocateOutputBufferSizeGpu
      ⟨m_isInputPlanar, m_gpuMatAsOutput⟩ imageIn).2

end Stages

/-! ## Theorems -/

namespace DynamicCustomStruct

variable {W : Type}

theorem any_take_iff (ws : List (OutputWrapper W)) (idx : Nat) (ow : OutputWrapper W)
    (h : ws[idx]? = some ow) :
    (ws.take idx).any (fun o => o.output == ow.output) = true ↔ RepeatsEarlier ws idx := by
  have hlt : idx < ws.length := by
    rcases Nat.lt_or_ge idx ws.length with h1 | h1
    · exact h1
    · rw [List.getElem?_eq_none h1] at h; cases h
  simp only [List.any_eq_true, beq_iff_eq, RepeatsEarlier, List.getElem?_map, h, Option.map_some']
  constructor
  · rintro ⟨x, hx, hxo⟩
    obtain ⟨j, hj, rfl⟩ := List.getElem_of_mem hx
    rw [List.length_take] at hj
    have hj1 : j < idx := lt_of_lt_of_le hj (Nat.min_le_left _ _)
    refine ⟨j, hj1, ?_⟩
    rw [List.getElem_take] at hxo
    rw [List.getElem?_eq_getElem (lt_trans hj1 hlt)]
    simp [hxo]
  · rintro ⟨j, hj, hjo⟩
    have hjl : j < ws.length := lt_trans hj hlt
    rw [List.getElem?_eq_getElem hjl] at hjo
    simp only [Option.map_some', Option.some.injEq] at hjo
    refine ⟨ws[j], ?_, hjo⟩
    rw [List.mem_take_iff_getElem]
    exact ⟨j, by simp [Nat.lt_min]; exact ⟨hj, hjl⟩, rfl⟩

theorem allUniqueOutputsStep_eq (c : Component W) (acc : Bool × List Event) (idx : Nat)
    (hidx : idx < c.m_outputWrappers.length) :
    allUniqueOutputsStep c acc idx =
      if RepeatsEarlier c.m_outputWrappers idx then (false, acc.2 ++ [duplicateReport c idx])
      else acc := by
  unfold allUniqueOutputsStep
  have hget : c.m_outputWrappers[idx]? = some c.m_outputWrappers[idx] :=
    List.getElem?_eq_getElem hidx
  rw [hget]
  have hiff := any_take_iff c.m_outputWrappers idx _ hget
  by_cases hr : RepeatsEarlier c.m_outputWrappers idx
  · have := hiff.mpr hr
    simp [this, hr, duplicateReport, List.getD, hidx]
  · have : ¬ ((c.m_outputWrappers.take idx).any
        (fun o => o.output == (c.m_outputWrappers[idx]).output) = true) := fun h => hr (hiff.mp h)
    simp [this, hr]

theorem allUniqueOutputs_foldl (c : Component W) (l : List Nat)
    (hl : ∀ idx ∈ l, idx < c.m_outputWrappers.length) (acc : Bool × List Event) :
    l.foldl (allUniqueOutputsStep c) acc =
      (acc.1 && l.all (fun idx => !decide (RepeatsEarlier c.m_outputWrappers idx)),
       acc.2 ++ (l.filter (fun idx => decide (RepeatsEarlier c.m_outputWrappers idx))).map
          (duplicateReport c)) := by
  induction l generalizing acc with
  | nil => simp
  | cons idx rest ih =>
    have hidx := hl idx (List.mem_cons_self _ _)
    have hrest : ∀ i ∈ rest, i < c.m_outputWrappers.length :=
      fun i hi => hl i (List.mem_cons_of_mem _ hi)
    rw [List.foldl_cons, ih hrest, allUniqueOutputsStep_eq c acc idx hidx]
    by_cases hr : RepeatsEarlier c.m_outputWrappers idx
    · simp [hr]
    · simp [hr]

theorem not_repeatsEarlier_zero (ws : List (OutputWrapper W)) : ¬ RepeatsEarlier ws 0 := by
  rintro ⟨j, hj, _⟩; exact Nat.not_lt_zero j hj

theorem nodup_iff_no_repeat (ws : List (OutputWrapper W)) :
    (ws.map (fun o => o.output)).Nodup ↔
      ∀ idx ∈ List.range' 1 (ws.length - 1), ¬ RepeatsEarlier ws idx := by
  rw [List.nodup_iff_getElem?_ne_getElem?]
  simp only [List.length_map, List.mem_range', RepeatsEarlier]
  constructor
  · rintro h idx ⟨i, hi, rfl⟩ ⟨j, hj, hjo⟩
    exact h j (1 + 1 * i) hj (by omega) hjo
  · intro h i j hij hj hjo
    exact h j ⟨j - 1, by omega, by omega⟩ ⟨i, hij, hjo⟩

/-- The result and the reports of `allUniqueOutputs`. -/
theorem allUniqueOutputs_eq (c : Component W) :
    ((allUniqueOutputs c).1 = true ↔ (c.m_outputWrappers.map (fun o => o.output)).Nodup) ∧
    (allUniqueOutputs c).2 =
      ((List.range c.m_outputWrappers.length).filter
        (fun idx => decide (1 ≤ idx ∧ RepeatsEarlier c.m_outputWrappers idx))).map
        (fun idx => Event.reportError
          (duplicateMessage
            (c.outputName ((c.m_outputWrappers.map (fun o => o.output)).getD idx 0)) idx)) := by
  have hl : ∀ idx ∈ List.range' 1 (c.m_outputWrappers.length - 1),
      idx < c.m_outputWrappers.length := by
    intro idx h; simp only [List.mem_range'] at h; omega
  unfold allUniqueOutputs
  rw [allUniqueOutputs_foldl c _ hl]
  constructor
  · rw [nodup_iff_no_repeat]
    simp
  · simp only [List.nil_append]
    have hfilter : (List.range c.m_outputWrappers.length).filter
        (fun idx => decide (1 ≤ idx ∧ RepeatsEarlier c.m_outputWrappers idx)) =
        (List.range' 1 (c.m_outputWrappers.length - 1)).filter
          (fun idx => decide (RepeatsEarlier c.m_outputWrappers idx)) := by
      cases hn : c.m_outputWrappers.length with
      | zero => simp
      | succ n =>
        rw [List.range_eq_range', List.range'_succ, List.filter_cons]
        simp only [Nat.lt_irrefl, Nat.le_zero_eq, Nat.add_one_ne_zero, false_and, decide_False,
          Bool.false_eq_true, if_false, Nat.add_sub_cancel, Nat.zero_add]
        apply List.filter_congr
        intro idx hidx
        simp only [List.mem_range'] at hidx
        have : 1 ≤ idx := by omega
        simp [this]
    rw [hfilter]
    rfl

/-- C3: `allUniqueOutputs` returns true exactly when the registered bindings
reference pairwise distinct outputs, and its error reports are, in order, one
report for each position `idx >= 1` whose output is the output of an earlier
position, and none for any other position; the report for position `idx` is the
text naming the output and, as argument position, the decimal numeral of `idx`,
spelled out in the statement. -/
theorem allUniqueOutputs_spec (c : Component W) :
    ((allUniqueOutputs c).1 = true ↔ (c.m_outputWrappers.map (fun o => o.output)).Nodup) ∧
    (allUniqueOutputs c).2 =
      ((List.range c.m_outputWrappers.length).filter
        (fun idx => decide (1 ≤ idx ∧ RepeatsEarlier c.m_outputWrappers idx))).map
        (fun idx => Event.reportError
          ("AllocateDynamicOutputBuffers: Output [" ++
            c.outputName ((c.m_outputWrappers.map (fun o => o.output)).getD idx 0) ++
            "] has been added more than once [argument position = " ++ toString idx ++
            "] (argument positions start at 0)")) :=
  allUniqueOutputs_eq c


theorem constructCalls_append (a b : List Event) :
    constructCalls (a ++ b) = constructCalls a ++ constructCalls b := by
  induction a with
  | nil => rfl
  | cons e rest ih => cases e <;> simp [constructCalls, ih]

theorem destroyCalls_append (a b : List Event) :
    destroyCalls (a ++ b) = destroyCalls a ++ destroyCalls b := by
  induction a with
  | nil => rfl
  | cons e rest ih => cases e <;> simp [destroyCalls, ih]

theorem successfulConstructs_append (a b : List Event) :
    successfulConstructs (a ++ b) = successfulConstructs a ++ successfulConstructs b := by
  induction a with
  | nil => rfl
  | cons e rest ih =>
    cases e with
    | construct o i r =>
      cases r with
      | returned p => by_cases hp : p = 0 <;> simp [successfulConstructs, ih, hp]
      | _ => simp [successfulConstructs, ih]
    | _ => simp [successfulConstructs, ih]

theorem forEachFifoEltFrom_length (op : MAPSIOElt → Nat → W → EltRun W)
    (elts : List MAPSIOElt) (idx : Nat) (w : W) :
    (forEachFifoEltFrom op elts idx w).elts.length = elts.length := by
  induction elts generalizing idx w with
  | nil => rfl
  | cons e rest ih =>
    unfold forEachFifoEltFrom
    cases h : (op e idx w).error with
    | some msg => simp [h]
    | none => simp [h, ih]

/-- What one call of `allocateDynamicOutputElement` does, by the outcome of `ctor`. -/
theorem allocateDynamicOutputElement_cases (name : String) (ow : OutputWrapper W)
    (e : MAPSIOElt) (idx : Nat) (w : W) :
    (allocateDynamicOutputElement name ow e idx w).events =
        [Event.construct ow.output idx (ow.ctor w).1] ∧
    (((allocateDynamicOutputElement name ow e idx w).error = none ∧
        ∃ p, p ≠ 0 ∧ (ow.ctor w).1 = CtorResult.returned p ∧
          (allocateDynamicOutputElement name ow e idx w).elt.data = p) ∨
     ((allocateDynamicOutputElement name ow e idx w).error ≠ none ∧
        ∀ p, (ow.ctor w).1 = CtorResult.returned p → p = 0)) := by
  unfold allocateDynamicOutputElement
  cases h : (ow.ctor w).1 with
  | returned p =>
    by_cases hp : p = 0
    · simp [h, hp]
    · simp [h, hp]
  | badAlloc what => simp [h]
  | stdException what => simp [h]
  | cString msg => simp [h]
  | other => simp [h]


theorem successfulConstructs_single_failed (o i : Nat) (r : CtorResult)
    (h : ∀ p, r = CtorResult.returned p → p = 0) :
    successfulConstructs [Event.construct o i r] = [] := by
  cases r with
  | returned p => simp [successfulConstructs, h p rfl]
  | _ => simp [successfulConstructs]

/-- The walk of `allocateDynamicOutput` over a FIFO: no destroy call; the
non-null pointers returned are, in order, what the first slots hold; and when
the walk ends without error every slot holds the non-null pointer that the one
construct call made for it returned. -/
theorem forEach_allocate (name : String) (ow : OutputWrapper W) (elts : List MAPSIOElt)
    (idx : Nat) (w : W) :
    destroyCalls (forEachFifoEltFrom (allocateDynamicOutputElement name ow) elts idx w).events
      = [] ∧
    (∃ rest,
      slotsFrom ow.output idx
          (forEachFifoEltFrom (allocateDynamicOutputElement name ow) elts idx w).elts =
        successfulConstructs
          (forEachFifoEltFrom (allocateDynamicOutputElement name ow) elts idx w).events ++ rest ∧
      ((forEachFifoEltFrom (allocateDynamicOutputElement name ow) elts idx w).error ≠ none →
        rest ≠ [])) ∧
    ((forEachFifoEltFrom (allocateDynamicOutputElement name ow) elts idx w).error = none →
      (∀ e ∈ (forEachFifoEltFrom (allocateDynamicOutputElement name ow) elts idx w).elts,
        e.data ≠ 0) ∧
      constructCalls (forEachFifoEltFrom (allocateDynamicOutputElement name ow) elts idx w).events =
        (slotsFrom ow.output idx
          (forEachFifoEltFrom (allocateDynamicOutputElement name ow) elts idx w).elts).map
          (fun t => (t.1, t.2.1, CtorResult.returned t.2.2)) ∧
      slotsFrom ow.output idx
          (forEachFifoEltFrom (allocateDynamicOutputElement name ow) elts idx w).elts =
        successfulConstructs
          (forEachFifoEltFrom (allocateDynamicOutputElement name ow) elts idx w).events) ∧
    (CtorSucceeds ow →
      (forEachFifoEltFrom (allocateDynamicOutputElement name ow) elts idx w).error = none) := by
  induction elts generalizing idx w with
  | nil =>
    refine ⟨rfl, ⟨[], rfl, fun h => absurd rfl h⟩, fun _ => ⟨?_, rfl, rfl⟩, fun _ => rfl⟩
    intro e he; cases he
  | cons e rest ih =>
    obtain ⟨hev, hcase⟩ := allocateDynamicOutputElement_cases name ow e idx w
    unfold forEachFifoEltFrom
    rcases hcase with ⟨herr, p, hp, hret, hdata⟩ | ⟨herr, hnull⟩
    · obtain ⟨ih1, ⟨rest2, ih2, ih2b⟩, ih3, ih4⟩ :=
        ih (idx + 1) (allocateDynamicOutputElement name ow e idx w).world
      simp only [herr]
      refine ⟨?_, ⟨rest2, ?_, ih2b⟩, ?_, ?_⟩
      · rw [destroyCalls_append, ih1, hev]; rfl
      · rw [successfulConstructs_append, hev, slotsFrom, ih2, hret, hdata]
        simp [successfulConstructs, hp]
      · intro hnone
        obtain ⟨h3a, h3b, h3c⟩ := ih3 hnone
        refine ⟨?_, ?_, ?_⟩
        · intro x hx
          rcases List.mem_cons.mp hx with rfl | hx
          · rw [hdata]; exact hp
          · exact h3a x hx
        · rw [constructCalls_append, hev, slotsFrom, h3b, hret, hdata]
          simp [constructCalls]
        · rw [successfulConstructs_append, hev, slotsFrom, h3c, hret, hdata]
          simp [successfulConstructs, hp]
      · intro hs; exact ih4 hs
    · cases herr2 : (allocateDynamicOutputElement name ow e idx w).error with
      | none => exact absurd herr2 herr
      | some msg =>
        simp only [herr2]
        refine ⟨?_, ⟨slotsFrom ow.output idx
          ((allocateDynamicOutputElement name ow e idx w).elt :: rest), ?_, ?_⟩, ?_, ?_⟩
        · rw [hev]; rfl
        · rw [hev, successfulConstructs_single_failed _ _ _ hnull, List.nil_append]
        · intro _; simp [slotsFrom]
        · intro h; cases h
        · intro hs
          obtain ⟨p, hp, hret⟩ := hs w
          exact absurd (hnull p hret) hp

/-- What one call of `freeDynamicOutputElement` does, by the outcome of `dtor`. -/
theorem freeDynamicOutputElement_cases (ow : OutputWrapper W) (e : MAPSIOElt) (idx : Nat)
    (w : W) :
    (freeDynamicOutputElement ow e idx w).events = [Event.destroy ow.output idx e.data] ∧
    (freeDynamicOutputElement ow e idx w).world = (ow.dtor e.data w).2 ∧
    (((ow.dtor e.data w).1 = DtorResult.returned ∧
        (freeDynamicOutputElement ow e idx w).error = none ∧
        (freeDynamicOutputElement ow e idx w).elt = { e with data := 0 }) ∨
     (∃ what, (ow.dtor e.data w).1 = DtorResult.threw what ∧
        (freeDynamicOutputElement ow e idx w).error = some what ∧
        (freeDynamicOutputElement ow e idx w).elt = e)) := by
  unfold freeDynamicOutputElement
  cases h : (ow.dtor e.data w).1 with
  | returned => simp [h]
  | threw what => simp [h]

/-- The walk of `freeDynamicOutput` over a FIFO makes no construct call; when it
ends without exception it has handed every slot's pointer to one destroy call,
every slot holds `nullptr` and the world is the one the destroy calls leave; it
ends without exception when the destroy function returns. -/
theorem forEach_free (ow : OutputWrapper W) (elts : List MAPSIOElt) (idx : Nat) (w : W) :
    constructCalls (forEachFifoEltFrom (freeDynamicOutputElement ow) elts idx w).events = [] ∧
    ((forEachFifoEltFrom (freeDynamicOutputElement ow) elts idx w).error = none →
      destroyCalls (forEachFifoEltFrom (freeDynamicOutputElement ow) elts idx w).events =
        slotsFrom ow.output idx elts ∧
      (∀ e ∈ (forEachFifoEltFrom (freeDynamicOutputElement ow) elts idx w).elts, e.data = 0) ∧
      (forEachFifoEltFrom (freeDynamicOutputElement ow) elts idx w).world =
        destroyedWorld ow elts w) ∧
    (DtorReturns ow →
      (forEachFifoEltFrom (freeDynamicOutputElement ow) elts idx w).error = none) := by
  induction elts generalizing idx w with
  | nil =>
    refine ⟨rfl, fun _ => ⟨rfl, ?_, rfl⟩, fun _ => rfl⟩
    intro e he; cases he
  | cons e rest ih =>
    obtain ⟨hev, hw, hcase⟩ := freeDynamicOutputElement_cases ow e idx w
    obtain ⟨ih1, ih2, ih3⟩ := ih (idx + 1) (freeDynamicOutputElement ow e idx w).world
    unfold forEachFifoEltFrom
    rcases hcase with ⟨hret, herr, helt⟩ | ⟨what, hthrew, herr, helt⟩
    · simp only [herr]
      refine ⟨?_, ?_, ?_⟩
      · rw [constructCalls_append, ih1, hev]; rfl
      · intro hnone
        obtain ⟨h2a, h2b, h2c⟩ := ih2 hnone
        refine ⟨?_, ?_, ?_⟩
        · rw [destroyCalls_append, hev, h2a]; rfl
        · intro x hx
          rcases List.mem_cons.mp hx with rfl | hx
          · rw [helt]
          · exact h2b x hx
        · rw [h2c, hw]; rfl
      · intro hd; exact ih3 hd
    · simp only [herr]
      refine ⟨?_, ?_, ?_⟩
      · rw [hev]; rfl
      · intro h; cases h
      · intro hd
        rw [hd e.data w] at hthrew
        cases hthrew


/-- What `allocateDynamicOutput` does for one binding. -/
theorem allocateDynamicOutput_spec (c : Component W) (ow : OutputWrapper W) :
    (allocateDynamicOutput c ow).state.m_outputWrappers = c.m_outputWrappers ∧
    (allocateDynamicOutput c ow).state.outputName = c.outputName ∧
    (∀ o, o ≠ ow.output → (allocateDynamicOutput c ow).state.fifo o = c.fifo o) ∧
    (∀ o, ((allocateDynamicOutput c ow).state.fifo o).length = (c.fifo o).length) ∧
    destroyCalls (allocateDynamicOutput c ow).events = [] ∧
    (∃ rest, slotsOf ow.output ((allocateDynamicOutput c ow).state.fifo ow.output) =
      successfulConstructs (allocateDynamicOutput c ow).events ++ rest ∧
      ((allocateDynamicOutput c ow).error ≠ none → rest ≠ [])) ∧
    ((allocateDynamicOutput c ow).error = none →
      (∀ e ∈ (allocateDynamicOutput c ow).state.fifo ow.output, e.data ≠ 0) ∧
      constructCalls (allocateDynamicOutput c ow).events =
        (slotsOf ow.output ((allocateDynamicOutput c ow).state.fifo ow.output)).map
          (fun t => (t.1, t.2.1, CtorResult.returned t.2.2)) ∧
      slotsOf ow.output ((allocateDynamicOutput c ow).state.fifo ow.output) =
        successfulConstructs (allocateDynamicOutput c ow).events) ∧
    (CtorSucceeds ow → (allocateDynamicOutput c ow).error = none) := by
  obtain ⟨h1, ⟨rest, h2, h2b⟩, h3, h4⟩ :=
    forEach_allocate (c.outputName ow.output) ow (c.fifo ow.output) 0 c.world
  have hlen := forEachFifoEltFrom_length
    (allocateDynamicOutputElement (c.outputName ow.output) ow) (c.fifo ow.output) 0 c.world
  simp only [allocateDynamicOutput, forEachFifoElt, Function.update_same, slotsOf]
  refine ⟨trivial, trivial, ?_, ?_, ?_, ?_, ?_, h4⟩
  · intro o ho; exact Function.update_noteq ho _ _
  · intro o
    by_cases ho : o = ow.output
    · subst ho; rw [Function.update_same]; exact hlen
    · rw [Function.update_noteq ho]
  · simpa [destroyCalls] using h1
  · exact ⟨rest, by simpa [successfulConstructs] using h2, h2b⟩
  · intro hnone
    obtain ⟨h3a, h3b, h3c⟩ := h3 hnone
    exact ⟨h3a, by simpa [constructCalls] using h3b, by simpa [successfulConstructs] using h3c⟩

/-- What `freeDynamicOutput` does for one binding. -/
theorem freeDynamicOutput_spec (c : Component W) (ow : OutputWrapper W) :
    (freeDynamicOutput c ow).state.m_outputWrappers = c.m_outputWrappers ∧
    (freeDynamicOutput c ow).state.outputName = c.outputName ∧
    (∀ o, o ≠ ow.output → (freeDynamicOutput c ow).state.fifo o = c.fifo o) ∧
    (∀ o, ((freeDynamicOutput c ow).state.fifo o).length = (c.fifo o).length) ∧
    constructCalls (freeDynamicOutput c ow).events = [] ∧
    ((freeDynamicOutput c ow).error = none →
      destroyCalls (freeDynamicOutput c ow).events = slotsOf ow.output (c.fifo ow.output) ∧
      (∀ e ∈ (freeDynamicOutput c ow).state.fifo ow.output, e.data = 0) ∧
      (freeDynamicOutput c ow).state.world = destroyedWorld ow (c.fifo ow.output) c.world) ∧
    (DtorReturns ow → (freeDynamicOutput c ow).error = none) := by
  obtain ⟨h1, h2, h3⟩ := forEach_free ow (c.fifo ow.output) 0 c.world
  have hlen := forEachFifoEltFrom_length (freeDynamicOutputElement ow) (c.fifo ow.output) 0 c.world
  simp only [freeDynamicOutput, forEachFifoElt, Function.update_same, slotsOf]
  refine ⟨trivial, trivial, ?_, ?_, ?_, ?_, h3⟩
  · intro o ho; exact Function.update_noteq ho _ _
  · intro o
    by_cases ho : o = ow.output
    · subst ho; rw [Function.update_same]; exact hlen
    · rw [Function.update_noteq ho]
  · simpa [constructCalls] using h1
  · intro hnone
    obtain ⟨h2a, h2b, h2c⟩ := h2 hnone
    exact ⟨by simpa [destroyCalls] using h2a, h2b, h2c⟩


theorem slotsOfAll_cons (ow : OutputWrapper W) (ws : List (OutputWrapper W))
    (fifo : Nat → List MAPSIOElt) :
    slotsOfAll (ow :: ws) fifo = slotsOf ow.output (fifo ow.output) ++ slotsOfAll ws fifo := by
  simp [slotsOfAll]

theorem slotsOfAll_congr (ws : List (OutputWrapper W)) (f g : Nat → List MAPSIOElt)
    (h : ∀ ow ∈ ws, f ow.output = g ow.output) : slotsOfAll ws f = slotsOfAll ws g := by
  induction ws with
  | nil => rfl
  | cons ow rest ih =>
    rw [slotsOfAll_cons, slotsOfAll_cons, h ow (List.mem_cons_self _ _),
      ih (fun o ho => h o (List.mem_cons_of_mem _ ho))]

/-- What the loop of `allocateDynamicOutputs` does on bindings with pairwise
distinct outputs. -/
theorem allocateDynamicOutputsFrom_spec (ws : List (OutputWrapper W)) (c : Component W)
    (hnd : (ws.map (fun o => o.output)).Nodup) :
    (allocateDynamicOutputsFrom ws c).state.m_outputWrappers = c.m_outputWrappers ∧
    (allocateDynamicOutputsFrom ws c).state.outputName = c.outputName ∧
    (∀ o, o ∉ ws.map (fun o => o.output) →
      (allocateDynamicOutputsFrom ws c).state.fifo o = c.fifo o) ∧
    (∀ o, ((allocateDynamicOutputsFrom ws c).state.fifo o).length = (c.fifo o).length) ∧
    destroyCalls (allocateDynamicOutputsFrom ws c).events = [] ∧
    (∃ rest, slotsOfAll ws (allocateDynamicOutputsFrom ws c).state.fifo =
      successfulConstructs (allocateDynamicOutputsFrom ws c).events ++ rest ∧
      ((allocateDynamicOutputsFrom ws c).error ≠ none → rest ≠ [])) ∧
    ((allocateDynamicOutputsFrom ws c).error = none →
      (∀ ow ∈ ws, ∀ e ∈ (allocateDynamicOutputsFrom ws c).state.fifo ow.output, e.data ≠ 0) ∧
      constructCalls (allocateDynamicOutputsFrom ws c).events =
        (slotsOfAll ws (allocateDynamicOutputsFrom ws c).state.fifo).map
          (fun t => (t.1, t.2.1, CtorResult.returned t.2.2)) ∧
      slotsOfAll ws (allocateDynamicOutputsFrom ws c).state.fifo =
        successfulConstructs (allocateDynamicOutputsFrom ws c).events) ∧
    ((∀ ow ∈ ws, CtorSucceeds ow) → (allocateDynamicOutputsFrom ws c).error = none) := by
  induction ws generalizing c with
  | nil =>
    refine ⟨rfl, rfl, fun _ _ => rfl, fun _ => rfl, rfl, ⟨[], rfl, fun h => absurd rfl h⟩,
      fun _ => ⟨?_, rfl, rfl⟩, fun _ => rfl⟩
    intro ow how; cases how
  | cons ow rest ih =>
    rw [List.map_cons, List.nodup_cons] at hnd
    obtain ⟨hnot, hnd'⟩ := hnd
    obtain ⟨a1, a2, a3, a4, a5, ⟨rest1, a6, a6b⟩, a7, a8⟩ := allocateDynamicOutput_spec c ow
    unfold allocateDynamicOutputsFrom
    cases herr : (allocateDynamicOutput c ow).error with
    | some msg =>
      simp only [herr]
      refine ⟨a1, a2, ?_, a4, a5, ⟨rest1 ++ slotsOfAll rest (allocateDynamicOutput c ow).state.fifo,
        ?_, ?_⟩, ?_, ?_⟩
      · intro o ho
        apply a3
        intro h; apply ho; rw [h]; exact List.mem_cons_self _ _
      · rw [slotsOfAll_cons, a6, List.append_assoc]
      · intro _ h
        have hne := a6b (by rw [herr]; exact fun h => Option.noConfusion h)
        exact hne (List.append_eq_nil.mp h).1
      · intro h; cases h
      · intro hs
        have := a8 (hs ow (List.mem_cons_self _ _))
        rw [herr] at this; cases this
    | none =>
      obtain ⟨b1, b2, b3, b4, b5, ⟨rest2, b6, b6b⟩, b7, b8⟩ :=
        ih (allocateDynamicOutput c ow).state hnd'
      obtain ⟨a7a, a7b, a7c⟩ := a7 herr
      have hsame := b3 ow.output hnot
      simp only [herr]
      refine ⟨b1.trans a1, b2.trans a2, ?_, ?_, ?_, ⟨rest2, ?_, b6b⟩, ?_, ?_⟩
      · intro o ho
        have h1 : o ∉ rest.map (fun o => o.output) := fun h => ho (List.mem_cons_of_mem _ h)
        have h2 : o ≠ ow.output := by
          intro h; apply ho; rw [h]; exact List.mem_cons_self _ _
        rw [b3 o h1, a3 o h2]
      · intro o; rw [b4 o, a4 o]
      · rw [destroyCalls_append, a5, b5]; rfl
      · rw [slotsOfAll_cons, hsame, a7c, b6, successfulConstructs_append, List.append_assoc]
      · intro hnone
        obtain ⟨b7a, b7b, b7c⟩ := b7 hnone
        refine ⟨?_, ?_, ?_⟩
        · intro x hx
          rcases List.mem_cons.mp hx with rfl | hx
          · rw [hsame]; exact a7a
          · exact b7a x hx
        · rw [constructCalls_append, a7b, b7b, slotsOfAll_cons, hsame, List.map_append]
        · rw [slotsOfAll_cons, hsame, a7c, b7c, successfulConstructs_append]
      · intro hs
        exact b8 (fun o ho => hs o (List.mem_cons_of_mem _ ho))

theorem destroyedWorldAll_cons (ow : OutputWrapper W) (ws : List (OutputWrapper W))
    (fifo : Nat → List MAPSIOElt) (w : W) :
    destroyedWorldAll (ow :: ws) fifo w =
      destroyedWorldAll ws fifo (destroyedWorld ow (fifo ow.output) w) := rfl

theorem destroyedWorldAll_congr (ws : List (OutputWrapper W)) (f g : Nat → List MAPSIOElt)
    (h : ∀ ow ∈ ws, f ow.output = g ow.output) (w : W) :
    destroyedWorldAll ws f w = destroyedWorldAll ws g w := by
  induction ws generalizing w with
  | nil => rfl
  | cons ow rest ih =>
    rw [destroyedWorldAll_cons, destroyedWorldAll_cons, h ow (List.mem_cons_self _ _),
      ih (fun o ho => h o (List.mem_cons_of_mem _ ho))]

/-- The loop of `freeDynamicOutputs` keeps the registry and the pool depths and
makes no construct call, however it ends. -/
theorem freeDynamicOutputsFrom_basic (ws : List (OutputWrapper W)) (c : Component W) :
    (freeDynamicOutputsFrom ws c).state.m_outputWrappers = c.m_outputWrappers ∧
    (freeDynamicOutputsFrom ws c).state.outputName = c.outputName ∧
    (∀ o, ((freeDynamicOutputsFrom ws c).state.fifo o).length = (c.fifo o).length) ∧
    constructCalls (freeDynamicOutputsFrom ws c).events = [] := by
  induction ws generalizing c with
  | nil => simp [freeDynamicOutputsFrom, constructCalls]
  | cons ow rest ih =>
    obtain ⟨a2, a3, _, a5, a6, _, _⟩ := freeDynamicOutput_spec c ow
    obtain ⟨b2, b3, b4, b5⟩ := ih (freeDynamicOutput c ow).state
    unfold freeDynamicOutputsFrom
    cases herr : (freeDynamicOutput c ow).error with
    | some msg =>
      simp only [herr]
      exact ⟨a2, a3, a5, a6⟩
    | none =>
      simp only [herr]
      refine ⟨b2.trans a2, b3.trans a3, ?_, ?_⟩
      · intro o; rw [b4 o, a5 o]
      · rw [constructCalls_append, a6, b5]; rfl

/-- What the loop of `freeDynamicOutputs` does on bindings with pairwise
distinct outputs: the other outputs are not touched; when it ends without
exception it has handed every slot of every binding to one destroy call, every
such slot holds `nullptr`, and the world is the one these destroy calls leave; it
ends without exception when the destroy functions return. -/
theorem freeDynamicOutputsFrom_spec (ws : List (OutputWrapper W)) (c : Component W)
    (hnd : (ws.map (fun o => o.output)).Nodup) :
    (∀ o, o ∉ ws.map (fun o => o.output) →
      (freeDynamicOutputsFrom ws c).state.fifo o = c.fifo o) ∧
    ((freeDynamicOutputsFrom ws c).error = none →
      destroyCalls (freeDynamicOutputsFrom ws c).events = slotsOfAll ws c.fifo ∧
      (∀ ow ∈ ws, ∀ e ∈ (freeDynamicOutputsFrom ws c).state.fifo ow.output, e.data = 0) ∧
      (freeDynamicOutputsFrom ws c).state.world = destroyedWorldAll ws c.fifo c.world) ∧
    ((∀ ow ∈ ws, DtorReturns ow) → (freeDynamicOutputsFrom ws c).error = none) := by
  induction ws generalizing c with
  | nil =>
    refine ⟨fun _ _ => rfl, fun _ => ⟨rfl, ?_, rfl⟩, fun _ => rfl⟩
    intro ow how; cases how
  | cons ow rest ih =>
    rw [List.map_cons, List.nodup_cons] at hnd
    obtain ⟨hnot, hnd'⟩ := hnd
    obtain ⟨_, _, a4, _, _, a7, a8⟩ := freeDynamicOutput_spec c ow
    obtain ⟨b4, b7, b8⟩ := ih (freeDynamicOutput c ow).state hnd'
    have hsame := b4 ow.output hnot
    have hrest : ∀ o ∈ rest, (freeDynamicOutput c ow).state.fifo o.output = c.fifo o.output := by
      intro o ho
      apply a4
      intro h
      apply hnot
      rw [← h]
      exact List.mem_map_of_mem _ ho
    unfold freeDynamicOutputsFrom
    cases herr : (freeDynamicOutput c ow).error with
    | some msg =>
      simp only [herr]
      refine ⟨?_, ?_, ?_⟩
      · intro o ho
        apply a4
        intro h; apply ho; rw [h]; exact List.mem_cons_self _ _
      · intro h; cases h
      · intro hd
        have := a8 (hd ow (List.mem_cons_self _ _))
        rw [herr] at this; cases this
    | none =>
      obtain ⟨a7a, a7b, a7c⟩ := a7 herr
      simp only [herr]
      refine ⟨?_, ?_, ?_⟩
      · intro o ho
        have h1 : o ∉ rest.map (fun o => o.output) := fun h => ho (List.mem_cons_of_mem _ h)
        have h2 : o ≠ ow.output := by
          intro h; apply ho; rw [h]; exact List.mem_cons_self _ _
        rw [b4 o h1, a4 o h2]
      · intro hnone
        obtain ⟨b7a, b7b, b7c⟩ := b7 hnone
        refine ⟨?_, ?_, ?_⟩
        · rw [destroyCalls_append, a7a, b7a, slotsOfAll_cons]
          congr 1
          exact slotsOfAll_congr rest _ _ hrest
        · intro x hx
          rcases List.mem_cons.mp hx with rfl | hx
          · rw [hsame]; exact a7b
          · exact b7b x hx
        · rw [b7c, a7c, destroyedWorldAll_cons]
          exact destroyedWorldAll_congr rest _ _ hrest _
      · intro hd
        exact b8 (fun o ho => hd o (List.mem_cons_of_mem _ ho))

/-- The method `FreeDynamicOutputs` keeps the pool depths and makes no construct
call; it empties the registry when it ends without exception and keeps it
otherwise. -/
theorem FreeDynamicOutputs_basic (c : Component W) :
    ((FreeDynamicOutputs c).error = none → (FreeDynamicOutputs c).state.m_outputWrappers = []) ∧
    ((FreeDynamicOutputs c).error ≠ none →
      (FreeDynamicOutputs c).state.m_outputWrappers = c.m_outputWrappers) ∧
    (FreeDynamicOutputs c).state.outputName = c.outputName ∧
    (∀ o, ((FreeDynamicOutputs c).state.fifo o).length = (c.fifo o).length) ∧
    constructCalls (FreeDynamicOutputs c).events = [] := by
  obtain ⟨b2, b3, b4, b5⟩ := freeDynamicOutputsFrom_basic c.m_outputWrappers c
  unfold FreeDynamicOutputs
  cases hws : c.m_outputWrappers with
  | nil => simp [hws, constructCalls]
  | cons ow rest =>
    rw [hws] at b2 b3 b4 b5
    simp only [List.isEmpty_cons, Bool.false_eq_true, if_false, freeDynamicOutputs, hws]
    cases herr : (freeDynamicOutputsFrom (ow :: rest) c).error with
    | some msg =>
      simp only [herr]
      refine ⟨(fun h => by cases h), fun _ => b2, b3, b4, b5⟩
    | none =>
      simp only [herr]
      exact ⟨fun _ => trivial, fun h => absurd rfl h, b3, b4, b5⟩

/-- With nothing registered `FreeDynamicOutputs` does nothing. -/
theorem FreeDynamicOutputs_of_empty (c : Component W) (h : c.m_outputWrappers = []) :
    FreeDynamicOutputs c = ⟨c, [], none⟩ := by
  unfold FreeDynamicOutputs
  simp [h]

/-- On a registry with pairwise distinct outputs, a `FreeDynamicOutputs` that
ends without exception has handed the pointer of every registered slot to one
destroy call, left `nullptr` in every registered slot and the other outputs as they
were, and the world is the one the destroy calls leave; it ends without exception
when the registered destroy functions return. -/
theorem FreeDynamicOutputs_spec (c : Component W)
    (hnd : (c.m_outputWrappers.map (fun o => o.output)).Nodup) :
    ((FreeDynamicOutputs c).error = none →
      destroyCalls (FreeDynamicOutputs c).events = registeredSlots c ∧
      (∀ ow ∈ c.m_outputWrappers, ∀ e ∈ (FreeDynamicOutputs c).state.fifo ow.output,
        e.data = 0) ∧
      (FreeDynamicOutputs c).state.world =
        destroyedWorldAll c.m_outputWrappers c.fifo c.world) ∧
    ((∀ ow ∈ c.m_outputWrappers, DtorReturns ow) → (FreeDynamicOutputs c).error = none) := by
  obtain ⟨_, b7, b8⟩ := freeDynamicOutputsFrom_spec c.m_outputWrappers c hnd
  unfold FreeDynamicOutputs
  cases hws : c.m_outputWrappers with
  | nil =>
    refine ⟨fun _ => ?_, fun _ => ?_⟩
    · simp [hws, destroyCalls, registeredSlots, slotsOfAll, destroyedWorldAll]
    · simp
  | cons ow rest =>
    rw [hws] at b7 b8
    simp only [List.isEmpty_cons, Bool.false_eq_true, if_false, freeDynamicOutputs, hws]
    cases herr : (freeDynamicOutputsFrom (ow :: rest) c).error with
    | some msg =>
      simp only [herr]
      refine ⟨(fun h => by cases h), fun hd => ?_⟩
      have := b8 hd
      rw [herr] at this; cases this
    | none =>
      obtain ⟨b7a, b7b, b7c⟩ := b7 herr
      simp only [herr]
      refine ⟨fun _ => ⟨?_, b7b, b7c⟩, fun _ => trivial⟩
      rw [b7a, registeredSlots, hws]

theorem constructCalls_allUniqueOutputs (c : Component W) :
    constructCalls (allUniqueOutputs c).2 = [] ∧ destroyCalls (allUniqueOutputs c).2 = [] ∧
    successfulConstructs (allUniqueOutputs c).2 = [] := by
  rw [(allUniqueOutputs_eq c).2]
  generalize (List.range c.m_outputWrappers.length).filter _ = l
  induction l with
  | nil => exact ⟨rfl, rfl, rfl⟩
  | cons i rest ih =>
    obtain ⟨h1, h2, h3⟩ := ih
    exact ⟨by simpa [constructCalls] using h1, by simpa [destroyCalls] using h2,
      by simpa [successfulConstructs] using h3⟩

/-- An exception of a destroy function of the registered bindings leaves
`AllocateDynamicOutputBuffers` from its first statement: the call is the run of
`FreeDynamicOutputs` and nothing more. -/
theorem AllocateDynamicOutputBuffers_of_throw (c : Component W) (ow : OutputWrapper W)
    (ows : List (OutputWrapper W)) (hthrow : (FreeDynamicOutputs c).error ≠ none) :
    AllocateDynamicOutputBuffers c ow ows = FreeDynamicOutputs c := by
  unfold AllocateDynamicOutputBuffers
  cases herr : (FreeDynamicOutputs c).error with
  | none => exact absurd herr hthrow
  | some msg =>
    simp only [herr]
    rcases hr : FreeDynamicOutputs c with ⟨st, evs, err⟩
    rw [hr] at herr
    simp only [] at herr
    rw [herr]

/-- A call of `AllocateDynamicOutputBuffers` that ends without error has run its
free pass without exception. -/
theorem free_ok_of_AllocateDynamicOutputBuffers_ok (c : Component W) (ow : OutputWrapper W)
    (ows : List (OutputWrapper W)) (hok : (AllocateDynamicOutputBuffers c ow ows).error = none) :
    (FreeDynamicOutputs c).error = none := by
  by_contra hthrow
  rw [AllocateDynamicOutputBuffers_of_throw c ow ows hthrow] at hok
  exact hthrow hok

/-- The method `AllocateDynamicOutputBuffers` on a batch with a repeated output. -/
theorem AllocateDynamicOutputBuffers_of_dup (c : Component W) (ow : OutputWrapper W)
    (ows : List (OutputWrapper W)) (hfree : (FreeDynamicOutputs c).error = none)
    (hdup : ¬ ((ow :: ows).map (fun o => o.output)).Nodup) :
    AllocateDynamicOutputBuffers c ow ows =
      ⟨{ addOutputWrappers (FreeDynamicOutputs c).state (ow :: ows) with m_outputWrappers := [] },
        (FreeDynamicOutputs c).events ++
          (allUniqueOutputs (addOutputWrappers (FreeDynamicOutputs c).state (ow :: ows))).2,
        some notUniqueMessage⟩ := by
  have f2 := (FreeDynamicOutputs_basic c).1 hfree
  have hu := (allUniqueOutputs_eq
    (addOutputWrappers (FreeDynamicOutputs c).state (ow :: ows))).1
  have hws : (addOutputWrappers (FreeDynamicOutputs c).state (ow :: ows)).m_outputWrappers =
      ow :: ows := by simp [addOutputWrappers, f2]
  rw [hws] at hu
  have hfalse : (allUniqueOutputs
      (addOutputWrappers (FreeDynamicOutputs c).state (ow :: ows))).1 = false := by
    cases h : (allUniqueOutputs
      (addOutputWrappers (FreeDynamicOutputs c).state (ow :: ows))).1 with
    | false => rfl
    | true => exact absurd (hu.mp h) hdup
  unfold AllocateDynamicOutputBuffers
  simp only [hfree, hfalse]
  rfl

/-- The method `AllocateDynamicOutputBuffers` on a batch with pairwise distinct outputs. -/
theorem AllocateDynamicOutputBuffers_of_nodup (c : Component W) (ow : OutputWrapper W)
    (ows : List (OutputWrapper W)) (hfree : (FreeDynamicOutputs c).error = none)
    (hnd : ((ow :: ows).map (fun o => o.output)).Nodup) :
    AllocateDynamicOutputBuffers c ow ows =
      ⟨(allocateDynamicOutputsFrom (ow :: ows)
          (addOutputWrappers (FreeDynamicOutputs c).state (ow :: ows))).state,
        (FreeDynamicOutputs c).events ++
          (allUniqueOutputs (addOutputWrappers (FreeDynamicOutputs c).state (ow :: ows))).2 ++
          (allocateDynamicOutputsFrom (ow :: ows)
            (addOutputWrappers (FreeDynamicOutputs c).state (ow :: ows))).events,
        (allocateDynamicOutputsFrom (ow :: ows)
          (addOutputWrappers (FreeDynamicOutputs c).state (ow :: ows))).error⟩ := by
  have f2 := (FreeDynamicOutputs_basic c).1 hfree
  have hu := (allUniqueOutputs_eq
    (addOutputWrappers (FreeDynamicOutputs c).state (ow :: ows))).1
  have hws : (addOutputWrappers (FreeDynamicOutputs c).state (ow :: ows)).m_outputWrappers =
      ow :: ows := by simp [addOutputWrappers, f2]
  rw [hws] at hu
  have htrue := hu.mpr hnd
  unfold AllocateDynamicOutputBuffers
  simp only [hfree, htrue, allocateDynamicOutputs, hws]
  rfl


/-- A call of `AllocateDynamicOutputBuffers` that ends without error was given
a batch with pairwise distinct outputs. -/
theorem nodup_of_AllocateDynamicOutputBuffers_ok (c : Component W) (ow : OutputWrapper W)
    (ows : List (OutputWrapper W)) (hok : (AllocateDynamicOutputBuffers c ow ows).error = none) :
    ((ow :: ows).map (fun o => o.output)).Nodup := by
  have hfree := free_ok_of_AllocateDynamicOutputBuffers_ok c ow ows hok
  by_contra hdup
  rw [AllocateDynamicOutputBuffers_of_dup c ow ows hfree hdup] at hok
  cases hok

theorem heapBinding_returns (o : Nat) : DtorReturns (heapBinding o) := fun _ _ => rfl

/-- The free pass that follows a call of `AllocateDynamicOutputBuffers` on a batch
with pairwise distinct outputs whose destroy functions return: it ends without
exception, hands every slot of the batch to one destroy call, leaves `nullptr` in
every slot of the batch and nothing registered, and the world is the one these
destroy calls leave. -/
theorem FreeDynamicOutputs_after (c : Component W) (ow : OutputWrapper W)
    (ows : List (OutputWrapper W)) (hfree : (FreeDynamicOutputs c).error = none)
    (hnd : ((ow :: ows).map (fun o => o.output)).Nodup)
    (hd : ∀ b ∈ ow :: ows, DtorReturns b) :
    (AllocateDynamicOutputBuffers c ow ows).state.m_outputWrappers = ow :: ows ∧
    (FreeDynamicOutputs (AllocateDynamicOutputBuffers c ow ows).state).error = none ∧
    destroyCalls (FreeDynamicOutputs (AllocateDynamicOutputBuffers c ow ows).state).events =
      registeredSlots (AllocateDynamicOutputBuffers c ow ows).state ∧
    constructCalls (FreeDynamicOutputs (AllocateDynamicOutputBuffers c ow ows).state).events
      = [] ∧
    (FreeDynamicOutputs (AllocateDynamicOutputBuffers c ow ows).state).state.world =
      destroyedWorldAll (ow :: ows) (AllocateDynamicOutputBuffers c ow ows).state.fifo
        (AllocateDynamicOutputBuffers c ow ows).state.world ∧
    (∀ b ∈ ow :: ows,
      ∀ e ∈ (FreeDynamicOutputs (AllocateDynamicOutputBuffers c ow ows).state).state.fifo
        b.output, e.data = 0) ∧
    (FreeDynamicOutputs (AllocateDynamicOutputBuffers c ow ows).state).state.m_outputWrappers
      = [] := by
  have f2 := (FreeDynamicOutputs_basic c).1 hfree
  have hws : (addOutputWrappers (FreeDynamicOutputs c).state (ow :: ows)).m_outputWrappers =
      ow :: ows := by simp [addOutputWrappers, f2]
  obtain ⟨a1, _⟩ := allocateDynamicOutputsFrom_spec (ow :: ows)
    (addOutputWrappers (FreeDynamicOutputs c).state (ow :: ows)) hnd
  have hreg : (AllocateDynamicOutputBuffers c ow ows).state.m_outputWrappers = ow :: ows := by
    rw [AllocateDynamicOutputBuffers_of_nodup c ow ows hfree hnd]
    exact a1.trans hws
  have hnd' : ((AllocateDynamicOutputBuffers c ow ows).state.m_outputWrappers.map
      (fun o => o.output)).Nodup := by rw [hreg]; exact hnd
  obtain ⟨g1, g2⟩ := FreeDynamicOutputs_spec (AllocateDynamicOutputBuffers c ow ows).state hnd'
  have herr := g2 (by rw [hreg]; exact hd)
  obtain ⟨g1a, g1b, g1c⟩ := g1 herr
  obtain ⟨k1, _, _, _, k5⟩ := FreeDynamicOutputs_basic (AllocateDynamicOutputBuffers c ow ows).state
  rw [hreg] at g1b g1c
  exact ⟨hreg, herr, g1a, k5, g1c, g1b, k1 herr⟩

/-- The construct calls of a call of `AllocateDynamicOutputBuffers` that ends
without error are one per registered slot, each returning the pointer the slot
holds. -/
theorem constructCalls_of_AllocateDynamicOutputBuffers_ok (c : Component W)
    (ow : OutputWrapper W) (ows : List (OutputWrapper W))
    (hok : (AllocateDynamicOutputBuffers c ow ows).error = none) :
    constructCalls (AllocateDynamicOutputBuffers c ow ows).events =
      (registeredSlots (AllocateDynamicOutputBuffers c ow ows).state).map
        (fun t => (t.1, t.2.1, CtorResult.returned t.2.2)) := by
  have hfree := free_ok_of_AllocateDynamicOutputBuffers_ok c ow ows hok
  have hnd := nodup_of_AllocateDynamicOutputBuffers_ok c ow ows hok
  obtain ⟨f2', _, _, _, f5⟩ := FreeDynamicOutputs_basic c
  have f2 := f2' hfree
  have hws : (addOutputWrappers (FreeDynamicOutputs c).state (ow :: ows)).m_outputWrappers =
      ow :: ows := by simp [addOutputWrappers, f2]
  obtain ⟨a1, _, _, _, _, _, a7, _⟩ := allocateDynamicOutputsFrom_spec (ow :: ows)
    (addOutputWrappers (FreeDynamicOutputs c).state (ow :: ows)) hnd
  obtain ⟨u1, _, _⟩ := constructCalls_allUniqueOutputs
    (addOutputWrappers (FreeDynamicOutputs c).state (ow :: ows))
  rw [AllocateDynamicOutputBuffers_of_nodup c ow ows hfree hnd] at hok ⊢
  simp only [] at hok ⊢
  obtain ⟨_, a7b, _⟩ := a7 hok
  rw [constructCalls_append, constructCalls_append, f5, u1, a7b, registeredSlots, a1, hws]
  rfl

/-- C4, the claim at a concrete input: one output with two slots and a destroy
function that throws. The allocation succeeds with two construct calls;
`FreeDynamicOutputs` called right after makes one destroy call, for slot 0, and the
exception leaves it: slot 1 is never handed to the destroy function, both slots
still hold their pointers, both buffers are live and the binding is still
registered. -/
theorem FreeDynamicOutputs_after_allocate_counterexample :
    (AllocateDynamicOutputBuffers (heapComponent []) (throwingBinding 0) []).error = none ∧
    constructCalls (AllocateDynamicOutputBuffers (heapComponent []) (throwingBinding 0)
      []).events = [(0, 0, CtorResult.returned 1), (0, 1, CtorResult.returned 2)] ∧
    (FreeDynamicOutputs (AllocateDynamicOutputBuffers (heapComponent []) (throwingBinding 0)
      []).state).error = some "destroy failed" ∧
    destroyCalls (FreeDynamicOutputs (AllocateDynamicOutputBuffers (heapComponent [])
      (throwingBinding 0) []).state).events = [(0, 0, 1)] ∧
    (FreeDynamicOutputs (AllocateDynamicOutputBuffers (heapComponent []) (throwingBinding 0)
      []).state).state.fifo 0 = [⟨1, 64, 64⟩, ⟨2, 64, 64⟩] ∧
    (FreeDynamicOutputs (AllocateDynamicOutputBuffers (heapComponent []) (throwingBinding 0)
      []).state).state.world = (2, [1, 2]) ∧
    (FreeDynamicOutputs (AllocateDynamicOutputBuffers (heapComponent []) (throwingBinding 0)
      []).state).state.m_outputWrappers.map (fun o => o.output) = [0] := by
  decide

/-- C4 as amended: when no destroy function of the batch throws,
`FreeDynamicOutputs` called right after a successful `AllocateDynamicOutputBuffers`
ends without exception; its destroy calls are one per slot of every registered
binding, on the pointer the slot holds, and they match the construct calls of
the allocation one to one (same output, same slot, the pointer that construct
returned), so both counts are equal; the world it leaves is the world of the
allocation after the destroy function of each binding has been applied to the
pointer of each of its slots, every slot of the batch holds `nullptr`, no binding
is registered afterwards, and a second `FreeDynamicOutputs` makes no call and
changes nothing. -/
theorem FreeDynamicOutputs_after_allocate (c : Component W) (ow : OutputWrapper W)
    (ows : List (OutputWrapper W))
    (hok : (AllocateDynamicOutputBuffers c ow ows).error = none)
    (hd : ∀ b ∈ ow :: ows, DtorReturns b) :
    (FreeDynamicOutputs (AllocateDynamicOutputBuffers c ow ows).state).error = none ∧
    destroyCalls (FreeDynamicOutputs (AllocateDynamicOutputBuffers c ow ows).state).events =
      registeredSlots (AllocateDynamicOutputBuffers c ow ows).state ∧
    constructCalls (AllocateDynamicOutputBuffers c ow ows).events =
      (destroyCalls (FreeDynamicOutputs (AllocateDynamicOutputBuffers c ow ows).state).events).map
        (fun t => (t.1, t.2.1, CtorResult.returned t.2.2)) ∧
    (destroyCalls (FreeDynamicOutputs (AllocateDynamicOutputBuffers c ow ows).state).events).length
      = (constructCalls (AllocateDynamicOutputBuffers c ow ows).events).length ∧
    constructCalls (FreeDynamicOutputs (AllocateDynamicOutputBuffers c ow ows).state).events
      = [] ∧
    (FreeDynamicOutputs (AllocateDynamicOutputBuffers c ow ows).state).state.world =
      destroyedWorldAll (ow :: ows) (AllocateDynamicOutputBuffers c ow ows).state.fifo
        (AllocateDynamicOutputBuffers c ow ows).state.world ∧
    (∀ b ∈ ow :: ows,
      ∀ e ∈ (FreeDynamicOutputs (AllocateDynamicOutputBuffers c ow ows).state).state.fifo
        b.output, e.data = 0) ∧
    (FreeDynamicOutputs (AllocateDynamicOutputBuffers c ow ows).state).state.m_outputWrappers
      = [] ∧
    FreeDynamicOutputs (FreeDynamicOutputs (AllocateDynamicOutputBuffers c ow ows).state).state =
      ⟨(FreeDynamicOutputs (AllocateDynamicOutputBuffers c ow ows).state).state, [], none⟩ := by
  have hfree := free_ok_of_AllocateDynamicOutputBuffers_ok c ow ows hok
  have hnd := nodup_of_AllocateDynamicOutputBuffers_ok c ow ows hok
  obtain ⟨_, herr, hdc, hcc, hworld, hnull, hempty⟩ :=
    FreeDynamicOutputs_after c ow ows hfree hnd hd
  have hcalls := constructCalls_of_AllocateDynamicOutputBuffers_ok c ow ows hok
  refine ⟨herr, hdc, ?_, ?_, hcc, hworld, hnull, hempty, FreeDynamicOutputs_of_empty _ hempty⟩
  · rw [hcalls, hdc]
  · rw [hcalls, hdc, List.length_map]

/-- C4 as amended, at a batch of two bindings on a heap (outputs 0 and 1, two
slots each): the allocation leaves the buffers 1, 2, 3, 4 live, the free pass
hands each of them to destroy and leaves no live buffer and `nullptr` in the
slots. -/
theorem FreeDynamicOutputs_after_allocate_witness :
    ((AllocateDynamicOutputBuffers (heapComponent []) (heapBinding 0)
      [heapBinding 1]).error = none ∧
      ∀ b ∈ [heapBinding 0, heapBinding 1], DtorReturns b) ∧
    destroyCalls (FreeDynamicOutputs (AllocateDynamicOutputBuffers (heapComponent [])
      (heapBinding 0) [heapBinding 1]).state).events =
      registeredSlots (AllocateDynamicOutputBuffers (heapComponent [])
        (heapBinding 0) [heapBinding 1]).state ∧
    destroyCalls (FreeDynamicOutputs (AllocateDynamicOutputBuffers (heapComponent [])
      (heapBinding 0) [heapBinding 1]).state).events =
      [(0, 0, 1), (0, 1, 2), (1, 0, 3), (1, 1, 4)] ∧
    (AllocateDynamicOutputBuffers (heapComponent []) (heapBinding 0)
      [heapBinding 1]).state.world = (4, [1, 2, 3, 4]) ∧
    (FreeDynamicOutputs (AllocateDynamicOutputBuffers (heapComponent [])
      (heapBinding 0) [heapBinding 1]).state).state.world = (4, []) ∧
    (FreeDynamicOutputs (AllocateDynamicOutputBuffers (heapComponent [])
      (heapBinding 0) [heapBinding 1]).state).state.fifo 1 = [⟨0, 64, 64⟩, ⟨0, 64, 64⟩] := by
  have hd : ∀ b ∈ [heapBinding 0, heapBinding 1], DtorReturns b := by
    intro b hb
    simp only [List.mem_cons, List.mem_singleton, List.not_mem_nil, or_false] at hb
    rcases hb with rfl | rfl <;> exact heapBinding_returns _
  exact ⟨⟨by decide, hd⟩,
    (FreeDynamicOutputs_after_allocate (heapComponent []) (heapBinding 0)
      [heapBinding 1] (by decide) hd).2.1,
    by decide, by decide, by decide, by decide⟩

/-- C6, the claim at a concrete input: the binding of output 2, whose destroy
function throws, is registered and allocated (buffers 1 and 2); a new batch for
the outputs 0 and 1 is then handed to `AllocateDynamicOutputBuffers`. The call
makes one destroy call, for slot 0 of output 2, and the exception leaves it:
slot 1 of the earlier batch is never destroyed, no construct call of the new
batch is made, and afterwards the earlier batch is registered, not the new
one. -/
theorem AllocateDynamicOutputBuffers_reentry_counterexample :
    (AllocateDynamicOutputBuffers (heapComponent []) (throwingBinding 2)
      []).state.m_outputWrappers.map (fun o => o.output) = [2] ∧
    ([heapBinding 0, heapBinding 1].map (fun o => o.output)).Nodup ∧
    (AllocateDynamicOutputBuffers
      (AllocateDynamicOutputBuffers (heapComponent []) (throwingBinding 2) []).state
      (heapBinding 0) [heapBinding 1]).error = some "destroy failed" ∧
    destroyCalls (AllocateDynamicOutputBuffers
      (AllocateDynamicOutputBuffers (heapComponent []) (throwingBinding 2) []).state
      (heapBinding 0) [heapBinding 1]).events = [(2, 0, 1)] ∧
    constructCalls (AllocateDynamicOutputBuffers
      (AllocateDynamicOutputBuffers (heapComponent []) (throwingBinding 2) []).state
      (heapBinding 0) [heapBinding 1]).events = [] ∧
    (AllocateDynamicOutputBuffers
      (AllocateDynamicOutputBuffers (heapComponent []) (throwingBinding 2) []).state
      (heapBinding 0) [heapBinding 1]).state.fifo 2 = [⟨1, 64, 64⟩, ⟨2, 64, 64⟩] ∧
    (AllocateDynamicOutputBuffers
      (AllocateDynamicOutputBuffers (heapComponent []) (throwingBinding 2) []).state
      (heapBinding 0) [heapBinding 1]).state.world = (2, [1, 2]) ∧
    (AllocateDynamicOutputBuffers
      (AllocateDynamicOutputBuffers (heapComponent []) (throwingBinding 2) []).state
      (heapBinding 0) [heapBinding 1]).state.m_outputWrappers.map (fun o => o.output) = [2] := by
  decide

/-- C6 as amended: when `AllocateDynamicOutputBuffers` is called with a batch of
pairwise distinct outputs while the bindings of an earlier batch (pairwise
distinct outputs) are registered, and no destroy function of the earlier batch
throws, its trace is the trace of `FreeDynamicOutputs` followed by the rest of
the call: the first part hands every slot of the earlier batch to one destroy
call and makes no construct call, the second part makes no destroy call; the
free pass leaves the world in which each earlier binding's destroy function has
been applied to the pointer of each of its slots, and `nullptr` in these slots;
the allocation runs from the state the free pass left, and afterwards exactly
the new batch is registered. -/
theorem AllocateDynamicOutputBuffers_reentry (c : Component W) (ow : OutputWrapper W)
    (ows : List (OutputWrapper W))
    (hreg : (c.m_outputWrappers.map (fun o => o.output)).Nodup)
    (hd : ∀ b ∈ c.m_outputWrappers, DtorReturns b)
    (hdistinct : ((ow :: ows).map (fun o => o.output)).Nodup) :
    (∃ rest, (AllocateDynamicOutputBuffers c ow ows).events =
        (FreeDynamicOutputs c).events ++ rest ∧ destroyCalls rest = []) ∧
    destroyCalls (FreeDynamicOutputs c).events = registeredSlots c ∧
    constructCalls (FreeDynamicOutputs c).events = [] ∧
    (FreeDynamicOutputs c).state.world = destroyedWorldAll c.m_outputWrappers c.fifo c.world ∧
    (∀ b ∈ c.m_outputWrappers, ∀ e ∈ (FreeDynamicOutputs c).state.fifo b.output, e.data = 0) ∧
    (AllocateDynamicOutputBuffers c ow ows).state =
      (allocateDynamicOutputsFrom (ow :: ows)
        (addOutputWrappers (FreeDynamicOutputs c).state (ow :: ows))).state ∧
    (AllocateDynamicOutputBuffers c ow ows).state.m_outputWrappers = ow :: ows := by
  obtain ⟨g1, g2⟩ := FreeDynamicOutputs_spec c hreg
  have hfree := g2 hd
  obtain ⟨g1a, g1b, g1c⟩ := g1 hfree
  obtain ⟨f2', _, _, _, f5⟩ := FreeDynamicOutputs_basic c
  have f2 := f2' hfree
  have hws : (addOutputWrappers (FreeDynamicOutputs c).state (ow :: ows)).m_outputWrappers =
      ow :: ows := by simp [addOutputWrappers, f2]
  obtain ⟨_, u2, _⟩ := constructCalls_allUniqueOutputs
    (addOutputWrappers (FreeDynamicOutputs c).state (ow :: ows))
  obtain ⟨a1, _, _, _, a5, _, _, _⟩ := allocateDynamicOutputsFrom_spec (ow :: ows)
    (addOutputWrappers (FreeDynamicOutputs c).state (ow :: ows)) hdistinct
  refine ⟨?_, g1a, f5, g1c, g1b, ?_, ?_⟩
  · rw [AllocateDynamicOutputBuffers_of_nodup c ow ows hfree hdistinct]
    refine ⟨_, List.append_assoc _ _ _, ?_⟩
    rw [destroyCalls_append, u2, a5]; rfl
  · rw [AllocateDynamicOutputBuffers_of_nodup c ow ows hfree hdistinct]
  · rw [AllocateDynamicOutputBuffers_of_nodup c ow ows hfree hdistinct]
    exact a1.trans hws

/-- C6 as amended, with the binding of output 2 registered and allocated on a
heap (buffers 1 and 2) and a new batch for the outputs 0 and 1: the call
destroys the buffers 1 and 2, then constructs the buffers 3, 4, 5, 6, which
are the live ones afterwards. -/
theorem AllocateDynamicOutputBuffers_reentry_witness :
    (((AllocateDynamicOutputBuffers (heapComponent []) (heapBinding 2)
      []).state.m_outputWrappers.map (fun o => o.output)).Nodup ∧
      (∀ b ∈ (AllocateDynamicOutputBuffers (heapComponent []) (heapBinding 2)
        []).state.m_outputWrappers, DtorReturns b) ∧
      ([heapBinding 0, heapBinding 1].map (fun o => o.output)).Nodup) ∧
    destroyCalls (FreeDynamicOutputs
      (AllocateDynamicOutputBuffers (heapComponent []) (heapBinding 2) []).state).events =
      registeredSlots
        (AllocateDynamicOutputBuffers (heapComponent []) (heapBinding 2) []).state ∧
    registeredSlots
        (AllocateDynamicOutputBuffers (heapComponent []) (heapBinding 2) []).state =
      [(2, 0, 1), (2, 1, 2)] ∧
    (FreeDynamicOutputs
      (AllocateDynamicOutputBuffers (heapComponent []) (heapBinding 2) []).state).state.world =
      (2, []) ∧
    (AllocateDynamicOutputBuffers
      (AllocateDynamicOutputBuffers (heapComponent []) (heapBinding 2) []).state
      (heapBinding 0) [heapBinding 1]).state.world = (6, [3, 4, 5, 6]) ∧
    (AllocateDynamicOutputBuffers
      (AllocateDynamicOutputBuffers (heapComponent []) (heapBinding 2) []).state
      (heapBinding 0) [heapBinding 1]).state.m_outputWrappers.map (fun o => o.output) =
      [0, 1] := by
  have hreg : (AllocateDynamicOutputBuffers (heapComponent []) (heapBinding 2)
      []).state.m_outputWrappers = [heapBinding 2] :=
    (FreeDynamicOutputs_after (heapComponent []) (heapBinding 2) [] (by decide) (by decide)
      (fun b hb => by
        simp only [List.mem_singleton] at hb
        subst hb
        exact heapBinding_returns _)).1
  have hd : ∀ b ∈ (AllocateDynamicOutputBuffers (heapComponent []) (heapBinding 2)
      []).state.m_outputWrappers, DtorReturns b := by
    intro b hb
    rw [hreg] at hb
    simp only [List.mem_singleton] at hb
    subst hb
    exact heapBinding_returns _
  exact ⟨⟨by decide, hd, by decide⟩,
    (AllocateDynamicOutputBuffers_reentry
      (AllocateDynamicOutputBuffers (heapComponent []) (heapBinding 2) []).state
      (heapBinding 0) [heapBinding 1] (by decide) hd (by decide)).2.1,
    by decide, by decide, by decide, by decide⟩

/-- C7: whenever the construct function throws (`std::bad_alloc`, another
`std::exception`, a C string, anything else) or returns a null pointer,
`allocateDynamicOutputElement` ends in a fatal error whose message contains
"when allocating element [fifoIdx] of output [name]", the slot index and the
output name. -/
theorem allocateDynamicOutputElement_fatal (name : String) (ow : OutputWrapper W)
    (e : MAPSIOElt) (fifoIdx : Nat) (w : W)
    (hfail : ∀ p, (ow.ctor w).1 = CtorResult.returned p → p = 0) :
    ∃ pre suf, (allocateDynamicOutputElement name ow e fifoIdx w).error =
      some (pre ++ ("when allocating element [" ++ toString fifoIdx ++ "] of output [" ++
        name ++ "]") ++ suf) := by
  unfold allocateDynamicOutputElement
  cases h : (ow.ctor w).1 with
  | returned p =>
    have hp := hfail p h
    subst hp
    exact ⟨"Not enough memory ", "", by simp [h, elementOfOutput]⟩
  | badAlloc what =>
    exact ⟨"Exception [std::bad_alloc] ", ": " ++ what,
      by simp only [h, elementOfOutput]; exact congrArg some (String.append_assoc _ _ _)⟩
  | stdException what =>
    exact ⟨"Exception [std::exception] ", ": " ++ what,
      by simp only [h, elementOfOutput]; exact congrArg some (String.append_assoc _ _ _)⟩
  | cString msg =>
    exact ⟨"Exception [const char*] ", ": " ++ msg,
      by simp only [h, elementOfOutput]; exact congrArg some (String.append_assoc _ _ _)⟩
  | other =>
    exact ⟨"Exception [...] ", "", by simp [h, elementOfOutput]⟩

/-- C7 at slot 3 of output `o_gpu`, with a construct function that throws
`std::bad_alloc`. -/
theorem allocateDynamicOutputElement_fatal_witness :
    (∀ p, ((failingBinding 0 0).ctor 0).1 = CtorResult.returned p → p = 0) ∧
    ∃ pre suf, (allocateDynamicOutputElement "o_gpu" (failingBinding 0 0) ⟨0, 0, 0⟩ 3 0).error =
      some (pre ++ ("when allocating element [" ++ toString 3 ++ "] of output [" ++
        "o_gpu" ++ "]") ++ suf) :=
  ⟨(fun p h => by cases h),
    allocateDynamicOutputElement_fatal "o_gpu" (failingBinding 0 0) ⟨0, 0, 0⟩ 3 0
      (fun p h => by cases h)⟩

end DynamicCustomStruct

namespace CudaStruct

open DynamicCustomStruct (Ptr)

variable {D : Type}

/-- C8, the code at a 2 x 2 single channel image of depth 16 (two bytes per
channel): the proxy declares 4 bytes and asks the device for 4 bytes, where
width x height x channels x byte depth is 8. -/
theorem MapsCudaStruct_ofDims_depth16 :
    declaredAndAllocated
      (MapsCudaStruct.ofDims (listRuntime 4096) 2 2 1 (descriptor 2 2 "GRAY" IPL_DEPTH_16U) []) =
      some (4, [(1, 4)]) ∧
    2 * 2 * 1 * byteDepth (descriptor 2 2 "GRAY" IPL_DEPTH_16U) = 8 := by
  decide

/-- C9, the code at concrete inputs. Resize, device input 640 x 480 x 3 and new
size 320 x 240: the proxy declares 230400 bytes and records 640 x 480 x 3.
Channel merge, host inputs 640 x 480 x 1 and channel sequence RGB: the proxy
declares 307200 bytes and records 640 x 480 x 3. Bayer, MAPSImage input
640 x 480 of 307200 bytes and output format RGB: the proxy declares 307200
bytes and records 640 x 480 x 3. The sibling callbacks (resize host input,
merge device input, Bayer IplImage input) declare the recorded product. -/
theorem struct_allocation_size_mismatch :
    sizeAndRecordedDims (Resize_AllocateOutputBufferSizeGpu_struct (listRuntime (2 ^ 32))
      (320, 240) ⟨921600, descriptor 640 480 "RGB" IPL_DEPTH_8U, 1⟩ [(1, 921600)]) =
      some (230400, 921600) ∧
    sizeAndRecordedDims (ChannelsMerger_AllocateOutputBufferSize_struct (listRuntime (2 ^ 32))
      "RGB" false (descriptor 640 480 "GRAY" IPL_DEPTH_8U) []) = some (307200, 921600) ∧
    sizeAndRecordedDims (Bayer_AllocateOutputBufferMaps_struct (listRuntime (2 ^ 32))
      OUTPUT_FORMAT.RGB IPL_DEPTH_8U ⟨640, 480, 307200, "BA81"⟩ []) = some (307200, 921600) ∧
    sizeAndRecordedDims (Resize_AllocateOutputBufferSize_struct (listRuntime (2 ^ 32))
      (320, 240) (descriptor 640 480 "RGB" IPL_DEPTH_8U) []) = some (230400, 230400) ∧
    sizeAndRecordedDims (ChannelsMerger_AllocateOutputBufferSizeGpu_struct (listRuntime (2 ^ 32))
      "RGB" false ⟨307200, descriptor 640 480 "GRAY" IPL_DEPTH_8U, 1⟩ [(1, 307200)]) =
      some (921600, 921600) ∧
    sizeAndRecordedDims (Bayer_AllocateOutputBufferIpl_struct (listRuntime (2 ^ 32))
      OUTPUT_FORMAT.RGB (descriptor 640 480 "GRAY" IPL_DEPTH_8U) []) = some (921600, 921600) := by
  decide

/-- The size `allocateMemory` hands to `cudaMalloc` for a 32 bit `int`: the value
itself when it is not negative, and `2 ^ 64` more when it is. -/
theorem toSizeT_of_int32 (z : Int) (hlo : -2 ^ 31 ≤ z) (hhi : z < 2 ^ 31) :
    toSizeT z = if 0 ≤ z then z.toNat else (z + 2 ^ 64).toNat := by
  unfold toSizeT
  split_ifs with h
  · congr 1
    omega
  · congr 1
    omega

/-- The copy constructor, by the answer of `cudaMalloc` to a request of `n` bytes,
`n` being the declared size of the source as a `size_t`. -/
theorem MapsCudaStruct_copy_cases (rt : CudaRuntime D) (cudaStruct : MapsCudaStruct) (d : D)
    (n : Nat) (hn : toSizeT cudaStruct.m_size = n) :
    (∀ points d1, rt.cudaMalloc n d = (some points, d1) →
      MapsCudaStruct.copy rt cudaStruct d =
        ⟨Except.ok { m_size := cudaStruct.m_size,
                     m_IplImageProxy :=
                       { align := cudaStruct.m_IplImageProxy.align,
                         depth := cudaStruct.m_IplImageProxy.depth,
                         dataOrder := cudaStruct.m_IplImageProxy.dataOrder,
                         nChannels := cudaStruct.m_IplImageProxy.nChannels,
                         width := cudaStruct.m_IplImageProxy.width,
                         height := cudaStruct.m_IplImageProxy.height,
                         channelSeq := cudaStruct.m_IplImageProxy.channelSeq },
                     m_points := points }, d1⟩) ∧
    (∀ d1, rt.cudaMalloc n d = (none, d1) →
      MapsCudaStruct.copy rt cudaStruct d = ⟨Except.error "Allocation failed", d1⟩) := by
  subst hn
  constructor
  · intro points d1 h
    simp [MapsCudaStruct.copy, construct, allocateMemory, copyProxy, h]
  · intro d1 h
    simp [MapsCudaStruct.copy, construct, allocateMemory, h]

/-- C10: copy-constructing a proxy whose declared byte size `m_size` is a
non negative 32 bit `int` asks the device for a region of exactly `m_size` bytes.
When the device answers with a pointer, the copy has the declared byte size of
the source, the seven descriptor fields of the source (alignment, depth, data
order, channel count, width, height, channel sequence) and, as data pointer,
the pointer of the new region, and the device is in the state the allocation
left; when the device refuses, the constructor throws "Allocation failed". The
data pointer of the source plays no part in the result. -/
theorem MapsCudaStruct_copy_spec (rt : CudaRuntime D) (cudaStruct : MapsCudaStruct) (d : D)
    (hsize : 0 ≤ cudaStruct.m_size) (hint : cudaStruct.m_size < 2 ^ 31) :
    (∀ points d1, rt.cudaMalloc cudaStruct.m_size.toNat d = (some points, d1) →
      MapsCudaStruct.copy rt cudaStruct d =
        ⟨Except.ok { m_size := cudaStruct.m_size,
                     m_IplImageProxy :=
                       { align := cudaStruct.m_IplImageProxy.align,
                         depth := cudaStruct.m_IplImageProxy.depth,
                         dataOrder := cudaStruct.m_IplImageProxy.dataOrder,
                         nChannels := cudaStruct.m_IplImageProxy.nChannels,
                         width := cudaStruct.m_IplImageProxy.width,
                         height := cudaStruct.m_IplImageProxy.height,
                         channelSeq := cudaStruct.m_IplImageProxy.channelSeq },
                     m_points := points }, d1⟩) ∧
    (∀ d1, rt.cudaMalloc cudaStruct.m_size.toNat d = (none, d1) →
      MapsCudaStruct.copy rt cudaStruct d = ⟨Except.error "Allocation failed", d1⟩) ∧
    ∀ q, MapsCudaStruct.copy rt { cudaStruct with m_points := q } d =
      MapsCudaStruct.copy rt cudaStruct d := by
  have hn : toSizeT cudaStruct.m_size = cudaStruct.m_size.toNat := by
    rw [toSizeT_of_int32 _ (by omega) hint, if_pos hsize]
  obtain ⟨h1, h2⟩ := MapsCudaStruct_copy_cases rt cudaStruct d _ hn
  exact ⟨h1, h2, fun q => rfl⟩

/-- C10 at a source proxy of 100 bytes whose region is the only live one, at
address 1: the device is asked for 100 bytes and hands out the region at
address 101; the copy has the size and the descriptor of the source and the
data pointer 101, and both regions are live afterwards. On a device without
room for 100 more bytes the constructor throws. -/
theorem MapsCudaStruct_copy_spec_witness :
    ((0 : Int) ≤ (⟨100, ⟨8, 8, 0, 1, 10, 10, "GRAY"⟩, 1⟩ : MapsCudaStruct).m_size ∧
      (⟨100, ⟨8, 8, 0, 1, 10, 10, "GRAY"⟩, 1⟩ : MapsCudaStruct).m_size < 2 ^ 31) ∧
    (listRuntime 4096).cudaMalloc 100 [(1, 100)] = (some 101, [(101, 100), (1, 100)]) ∧
    MapsCudaStruct.copy (listRuntime 4096) ⟨100, ⟨8, 8, 0, 1, 10, 10, "GRAY"⟩, 1⟩ [(1, 100)] =
      ⟨Except.ok ⟨100, ⟨8, 8, 0, 1, 10, 10, "GRAY"⟩, 101⟩, [(101, 100), (1, 100)]⟩ ∧
    (listRuntime 150).cudaMalloc 100 [(1, 100)] = (none, [(1, 100)]) ∧
    MapsCudaStruct.copy (listRuntime 150) ⟨100, ⟨8, 8, 0, 1, 10, 10, "GRAY"⟩, 1⟩ [(1, 100)] =
      ⟨Except.error "Allocation failed", [(1, 100)]⟩ :=
  ⟨⟨by decide, by decide⟩, by decide,
    (MapsCudaStruct_copy_spec (listRuntime 4096)
      ⟨100, ⟨8, 8, 0, 1, 10, 10, "GRAY"⟩, 1⟩ [(1, 100)] (by decide) (by decide)).1
      101 [(101, 100), (1, 100)] (by decide),
    by decide,
    (MapsCudaStruct_copy_spec (listRuntime 150)
      ⟨100, ⟨8, 8, 0, 1, 10, 10, "GRAY"⟩, 1⟩ [(1, 100)] (by decide) (by decide)).2.1
      [(1, 100)] (by decide)⟩

end CudaStruct

namespace Stages

open DynamicCustomStruct (Ptr)
open CudaStruct

/-- C11, the code on its four memory paths. With a host input the derived
descriptor has the configured size, for host and for device output, and so it
has with a device input and host output. With a device input and device output
the stored descriptor is the input's: for a 640 x 480 input and the target
320 x 240 it records 640 x 480. -/
theorem Resize_output_size :
    (∀ (newSize : Int × Int) (gpuOut : Bool) (imageIn : IplImage),
      ((MAPSOpenCV_Resize.AllocateOutputBufferSize ⟨newSize, gpuOut⟩ imageIn).Derives
        newSize.1 newSize.2 imageIn)) ∧
    (∀ (newSize : Int × Int) (imageIn : MapsCudaStruct),
      ((MAPSOpenCV_Resize.AllocateOutputBufferSizeGpu ⟨newSize, false⟩ imageIn).Derives
        newSize.1 newSize.2 imageIn.m_IplImageProxy)) ∧
    (MAPSOpenCV_Resize.AllocateOutputBufferSizeGpu ⟨(320, 240), true⟩
      (proxyOf 640 480 "RGB" 1)).outputDescriptor = some (descriptor 640 480 "RGB" IPL_DEPTH_8U) := by
  refine ⟨?_, ?_, by decide⟩
  · intro newSize gpuOut imageIn
    cases gpuOut <;>
      exact ⟨rfl, _, rfl, rfl, rfl, rfl, rfl, rfl, rfl⟩
  · intro newSize imageIn
    exact ⟨rfl, _, rfl, rfl, rfl, rfl, rfl, rfl, rfl⟩

/-- The host allocation callback of the Bayer stage on a GRAY input. -/
theorem Bayer_AllocateOutputBufferIpl_gray (c : MAPSBayerDecoder) (imageIn : IplImage)
    (hgray : imageIn.channelSeq = "GRAY") :
    (c.AllocateOutputBufferIpl imageIn).error = none ∧
    ∃ d, (c.AllocateOutputBufferIpl imageIn).outputDescriptor = some d ∧
      d.width = imageIn.width ∧ d.height = imageIn.height ∧ d.depth = imageIn.depth ∧
      (c.m_outputFormat = OUTPUT_FORMAT.BGR → d.channelSeq = "BGR" ∧ d.nChannels = 3) ∧
      (c.m_outputFormat = OUTPUT_FORMAT.RGB → d.channelSeq = "RGB" ∧ d.nChannels = 3) ∧
      (c.m_outputFormat = OUTPUT_FORMAT.BGRA → d.channelSeq = "BGRA" ∧ d.nChannels = 4) ∧
      (c.m_outputFormat = OUTPUT_FORMAT.RGBA → d.channelSeq = "RGBA" ∧ d.nChannels = 4) := by
  obtain ⟨f, gpuOut⟩ := c
  have hg : imageIn.channelSeq = MAPS_CHANNELSEQ_GRAY := hgray
  have hd : (MAPSBayerDecoder.AllocateOutputBufferIpl ⟨f, gpuOut⟩ imageIn).outputDescriptor =
      some (IplImageModel imageIn.width imageIn.height (Bayer_outputChanSeq f)
        imageIn.dataOrder imageIn.depth imageIn.align) := by
    cases gpuOut
    · simp [MAPSBayerDecoder.AllocateOutputBufferIpl, hg, Callback.allocate,
        Callback.outputDescriptor, OutputAllocation.descriptors]
    · simp [MAPSBayerDecoder.AllocateOutputBufferIpl, hg, Callback.allocate,
        Callback.outputDescriptor, OutputAllocation.descriptors, StructAllocation.descriptor,
        copyProxy, IplImageModel]
  refine ⟨?_, _, hd, rfl, rfl, rfl, ?_, ?_, ?_, ?_⟩
  · cases gpuOut <;> simp [MAPSBayerDecoder.AllocateOutputBufferIpl, hg, Callback.allocate]
  all_goals
    intro hf
    simp only at hf
    subst hf
    simp +decide [IplImageModel, channelCount, Bayer_outputChanSeq]

/-- C12: for a GRAY input of width W and height H, the host allocation callback
of the Bayer stage ends without error and derives a descriptor of width W and
height H with the input's depth and, for the output format BGR, the channel
sequence BGR and 3 channels, for RGB the sequence RGB and 3 channels, for BGRA
the sequence BGRA and 4 channels, for RGBA the sequence RGBA and 4 channels; an
input whose channel sequence is not GRAY is rejected with a fatal error and
nothing is allocated. -/
theorem Bayer_AllocateOutputBufferIpl_spec (c : MAPSBayerDecoder) (imageIn : IplImage) :
    (imageIn.channelSeq = "GRAY" →
      (c.AllocateOutputBufferIpl imageIn).error = none ∧
      ∃ d, (c.AllocateOutputBufferIpl imageIn).outputDescriptor = some d ∧
        d.width = imageIn.width ∧ d.height = imageIn.height ∧ d.depth = imageIn.depth ∧
        (c.m_outputFormat = OUTPUT_FORMAT.BGR → d.channelSeq = "BGR" ∧ d.nChannels = 3) ∧
        (c.m_outputFormat = OUTPUT_FORMAT.RGB → d.channelSeq = "RGB" ∧ d.nChannels = 3) ∧
        (c.m_outputFormat = OUTPUT_FORMAT.BGRA → d.channelSeq = "BGRA" ∧ d.nChannels = 4) ∧
        (c.m_outputFormat = OUTPUT_FORMAT.RGBA → d.channelSeq = "RGBA" ∧ d.nChannels = 4)) ∧
    (imageIn.channelSeq ≠ "GRAY" →
      (c.AllocateOutputBufferIpl imageIn).error =
        some "This component only accepts GRAY images on its input (8 bpp or 16bpp)." ∧
      (c.AllocateOutputBufferIpl imageIn).allocation = none) := by
  refine ⟨Bayer_AllocateOutputBufferIpl_gray c imageIn, ?_⟩
  intro hne
  have hg : imageIn.channelSeq ≠ MAPS_CHANNELSEQ_GRAY := hne
  simp [MAPSBayerDecoder.AllocateOutputBufferIpl, hg, Callback.fatal]

/-- C12 at a 640 x 480 GRAY input of depth 8 with output format RGB, for host
and for device output, and at an RGB input. -/
theorem Bayer_AllocateOutputBufferIpl_spec_witness :
    (descriptor 640 480 "GRAY" IPL_DEPTH_8U).channelSeq = "GRAY" ∧
    ((⟨OUTPUT_FORMAT.RGB, false⟩ : MAPSBayerDecoder).AllocateOutputBufferIpl
      (descriptor 640 480 "GRAY" IPL_DEPTH_8U)).error = none ∧
    ((⟨OUTPUT_FORMAT.RGB, false⟩ : MAPSBayerDecoder).AllocateOutputBufferIpl
      (descriptor 640 480 "GRAY" IPL_DEPTH_8U)).outputDescriptor =
      some ⟨8, 8, 0, 3, 640, 480, "RGB"⟩ ∧
    ((⟨OUTPUT_FORMAT.BGRA, true⟩ : MAPSBayerDecoder).AllocateOutputBufferIpl
      (descriptor 640 480 "GRAY" IPL_DEPTH_8U)).outputDescriptor =
      some ⟨8, 8, 0, 4, 640, 480, "BGRA"⟩ ∧
    (descriptor 640 480 "RGB" IPL_DEPTH_8U).channelSeq ≠ "GRAY" ∧
    ((⟨OUTPUT_FORMAT.RGB, false⟩ : MAPSBayerDecoder).AllocateOutputBufferIpl
      (descriptor 640 480 "RGB" IPL_DEPTH_8U)).error =
        some "This component only accepts GRAY images on its input (8 bpp or 16bpp)." :=
  ⟨by decide,
    ((Bayer_AllocateOutputBufferIpl_spec ⟨OUTPUT_FORMAT.RGB, false⟩
      (descriptor 640 480 "GRAY" IPL_DEPTH_8U)).1 (by decide)).1,
    by decide, by decide, by decide,
    ((Bayer_AllocateOutputBufferIpl_spec ⟨OUTPUT_FORMAT.RGB, false⟩
      (descriptor 640 480 "RGB" IPL_DEPTH_8U)).2 (by decide)).1⟩

/-- C13, the code at a 640 x 480 GRAY input and output format RGB: the host
input callback derives a 3 channel RGB descriptor for host and for device
output, the device input callback derives the 1 channel GRAY descriptor of its
input for both. -/
theorem Bayer_device_input_descriptor :
    ((⟨OUTPUT_FORMAT.RGB, false⟩ : MAPSBayerDecoder).AllocateOutputBufferIpl
      (descriptor 640 480 "GRAY" IPL_DEPTH_8U)).outputDescriptor =
      some (descriptor 640 480 "RGB" IPL_DEPTH_8U) ∧
    ((⟨OUTPUT_FORMAT.RGB, true⟩ : MAPSBayerDecoder).AllocateOutputBufferIpl
      (descriptor 640 480 "GRAY" IPL_DEPTH_8U)).outputDescriptor =
      some (descriptor 640 480 "RGB" IPL_DEPTH_8U) ∧
    ((⟨OUTPUT_FORMAT.RGB, false⟩ : MAPSBayerDecoder).AllocateOutputBufferGpu
      (proxyOf 640 480 "GRAY" 1)).outputDescriptor =
      some (descriptor 640 480 "GRAY" IPL_DEPTH_8U) ∧
    ((⟨OUTPUT_FORMAT.RGB, true⟩ : MAPSBayerDecoder).AllocateOutputBufferGpu
      (proxyOf 640 480 "GRAY" 1)).outputDescriptor =
      some (descriptor 640 480 "GRAY" IPL_DEPTH_8U) ∧
    (descriptor 640 480 "RGB" IPL_DEPTH_8U).nChannels = 3 ∧
    (descriptor 640 480 "GRAY" IPL_DEPTH_8U).nChannels = 1 := by
  decide


theorem colorSpace_cases (z : Int) :
    z = 0 ∨ z = 1 ∨ z = 2 ∨ z = 3 ∨ z = 4 ∨ z = 5 ∨ z = 6 ∨
      (z ≠ 0 ∧ z ≠ 1 ∧ z ≠ 2 ∧ z ≠ 3 ∧ z ≠ 4 ∧ z ≠ 5 ∧ z ≠ 6) := by
  omega

set_option maxHeartbeats 1600000 in
/-- The `switch (m_outputCS)` assigns a conversion code exactly for the pairs
of the table `conversionPairs`. -/
theorem outputSwitch_error_iff (i o : Int) :
    (∃ msg, MAPSColorSpaceConverter.outputSwitch i o = Except.error msg) ↔
      (i, o) ∉ conversionPairs := by
  rcases colorSpace_cases o with rfl | rfl | rfl | rfl | rfl | rfl | rfl | ho <;>
  rcases colorSpace_cases i with rfl | rfl | rfl | rfl | rfl | rfl | rfl | hi <;>
  simp [MAPSColorSpaceConverter.outputSwitch, conversionPairs, CS_RGB24, CS_BGR24, CS_YUV24,
    CS_HSV, CS_GRAY, CS_RGBA, CS_BGRA, Prod.ext_iff, *]


theorem CheckInputColorSpace_outputCS (c : MAPSColorSpaceConverter) (chanSeq : String) :
    (c.CheckInputColorSpace chanSeq).1.m_outputCS = c.m_outputCS := by
  unfold MAPSColorSpaceConverter.CheckInputColorSpace
  split_ifs <;> first | rfl | (split <;> rfl)

/-- After `CheckInputColorSpace` a pair without conversion code ends both
allocation callbacks in a fatal error before any allocation. -/
theorem allocateFrom_rejects (c : MAPSColorSpaceConverter) (imageIn : IplImage)
    (sizeOf : IplImage → Int × Int)
    (hpair : (c.inputSpace imageIn.channelSeq, c.m_outputCS) ∉ conversionPairs) :
    (c.allocateFrom imageIn sizeOf).2.error ≠ none ∧
    (c.allocateFrom imageIn sizeOf).2.allocation = none := by
  unfold MAPSColorSpaceConverter.allocateFrom
  rcases hchk : c.CheckInputColorSpace imageIn.channelSeq with ⟨c1, _ | msg⟩
  · have hout : c1.m_outputCS = c.m_outputCS := by
      have := CheckInputColorSpace_outputCS c imageIn.channelSeq
      rw [hchk] at this; exact this
    have hin : c1.m_inputCS = c.inputSpace imageIn.channelSeq := by
      unfold MAPSColorSpaceConverter.inputSpace; rw [hchk]
    obtain ⟨msg, hmsg⟩ := (outputSwitch_error_iff c1.m_inputCS c1.m_outputCS).mpr
      (by rw [hin, hout]; exact hpair)
    simp [hmsg, Callback.fatal]
  · simp [Callback.fatal]

/-- C14: when the converter has no conversion code for the pair (input colour
space after `CheckInputColorSpace`, output colour space), for example HSV to
YUV, the host and the device allocation callbacks both end in a fatal error and
allocate nothing, neither through the registry nor through the host buffer
call; the pairs without code are exactly those for which the switch on the
output colour space raises its error. -/
theorem ColorSpaceConverter_rejects_unsupported (c : MAPSColorSpaceConverter) :
    (∀ imageIn : IplImage,
      (c.inputSpace imageIn.channelSeq, c.m_outputCS) ∉ conversionPairs →
      (c.AllocateOutputBufferSize imageIn).2.error ≠ none ∧
      (c.AllocateOutputBufferSize imageIn).2.allocation = none) ∧
    (∀ imageIn : MapsCudaStruct,
      (c.inputSpace imageIn.m_IplImageProxy.channelSeq, c.m_outputCS) ∉ conversionPairs →
      (c.AllocateOutputBufferSizeGpu imageIn).2.error ≠ none ∧
      (c.AllocateOutputBufferSizeGpu imageIn).2.allocation = none) ∧
    (∀ i o : Int, (∃ msg, MAPSColorSpaceConverter.outputSwitch i o = Except.error msg) ↔
      (i, o) ∉ conversionPairs) ∧
    (CS_HSV, CS_YUV24) ∉ conversionPairs := by
  refine ⟨?_, ?_, outputSwitch_error_iff, by decide⟩
  · intro imageIn hpair
    unfold MAPSColorSpaceConverter.AllocateOutputBufferSize
    by_cases hord : imageIn.dataOrder ≠ IPL_DATA_ORDER_PIXEL
    · simp [hord, Callback.fatal]
    · rw [if_neg hord]
      exact allocateFrom_rejects c imageIn _ hpair
  · intro imageIn hpair
    exact allocateFrom_rejects c imageIn.m_IplImageProxy _ hpair

/-- C14 at HSV to YUV, on a host and on a device HSV input. -/
theorem ColorSpaceConverter_rejects_unsupported_witness :
    ((⟨CS_HSV, CS_YUV24, none, false⟩ : MAPSColorSpaceConverter).inputSpace
      (descriptor 640 480 "HSV" IPL_DEPTH_8U).channelSeq, CS_YUV24) ∉ conversionPairs ∧
    ((⟨CS_HSV, CS_YUV24, none, false⟩ : MAPSColorSpaceConverter).AllocateOutputBufferSize
      (descriptor 640 480 "HSV" IPL_DEPTH_8U)).2.allocation = none ∧
    ((⟨CS_HSV, CS_YUV24, none, false⟩ : MAPSColorSpaceConverter).AllocateOutputBufferSizeGpu
      (proxyOf 640 480 "HSV" 1)).2.allocation = none :=
  ⟨by decide,
    ((ColorSpaceConverter_rejects_unsupported ⟨CS_HSV, CS_YUV24, none, false⟩).1
      (descriptor 640 480 "HSV" IPL_DEPTH_8U) (by decide)).2,
    ((ColorSpaceConverter_rejects_unsupported ⟨CS_HSV, CS_YUV24, none, false⟩).2.1
      (proxyOf 640 480 "HSV" 1) (by decide)).2⟩

/-- The declared spaces `CheckInputColorSpace` has a branch for. -/
theorem CheckInputColorSpace_checked (c : MAPSColorSpaceConverter) (chanSeq : String)
    (hmem : c.m_inputCS ∈ [CS_GRAY, CS_RGB24, CS_BGR24, CS_YUV24, CS_HSV])
    (hne : some chanSeq ≠ channelSeqOf c.m_inputCS) :
    (c.CheckInputColorSpace chanSeq).2 ≠ none := by
  simp only [List.mem_cons, List.mem_singleton, List.not_mem_nil, or_false] at hmem
  unfold MAPSColorSpaceConverter.CheckInputColorSpace
  rcases hmem with h | h | h | h | h <;>
    simp [h, channelSeqOf, CS_RGB24, CS_BGR24, CS_YUV24, CS_HSV, CS_GRAY, CS_RGBA, CS_BGRA,
      CS_AUTO] at hne ⊢ <;>
    simp [hne]

/-- The `CS_AUTO` branch of `CheckInputColorSpace`. -/
theorem CheckInputColorSpace_auto (c : MAPSColorSpaceConverter) (chanSeq : String)
    (hauto : c.m_inputCS = CS_AUTO) :
    (∀ cs, channelSeqOf cs = some chanSeq →
      c.CheckInputColorSpace chanSeq = ({ c with m_inputCS := cs }, none)) ∧
    ((∀ cs, channelSeqOf cs ≠ some chanSeq) → (c.CheckInputColorSpace chanSeq).2 ≠ none) := by
  refine ⟨?_, ?_⟩
  · intro cs hcs
    unfold channelSeqOf at hcs
    split_ifs at hcs with h0 h1 h2 h3 h4 h5 h6 <;> cases hcs <;> subst_vars <;>
      simp +decide [MAPSColorSpaceConverter.CheckInputColorSpace, hauto,
        MAPSColorSpaceConverter.autoSwitch, MAPS_CHANNELSEQ_GRAY, MAPS_CHANNELSEQ_RGB,
        MAPS_CHANNELSEQ_BGR, MAPS_CHANNELSEQ_YUV, MAPS_CHANNELSEQ_HSV, MAPS_CHANNELSEQ_RGBA,
        MAPS_CHANNELSEQ_BGRA]
  · intro hnone
    have e0 : ¬ chanSeq = MAPS_CHANNELSEQ_RGB := fun h => hnone CS_RGB24 (by rw [h]; rfl)
    have e1 : ¬ chanSeq = MAPS_CHANNELSEQ_BGR := fun h => hnone CS_BGR24 (by rw [h]; rfl)
    have e2 : ¬ chanSeq = MAPS_CHANNELSEQ_YUV := fun h => hnone CS_YUV24 (by rw [h]; rfl)
    have e3 : ¬ chanSeq = MAPS_CHANNELSEQ_HSV := fun h => hnone CS_HSV (by rw [h]; rfl)
    have e4 : ¬ chanSeq = MAPS_CHANNELSEQ_GRAY := fun h => hnone CS_GRAY (by rw [h]; rfl)
    have e5 : ¬ chanSeq = MAPS_CHANNELSEQ_RGBA := fun h => hnone CS_RGBA (by rw [h]; rfl)
    have e6 : ¬ chanSeq = MAPS_CHANNELSEQ_BGRA := fun h => hnone CS_BGRA (by rw [h]; rfl)
    simp [MAPSColorSpaceConverter.CheckInputColorSpace, hauto,
      MAPSColorSpaceConverter.autoSwitch, e0, e1, e2, e3, e4, e5, e6]

/-- C15, the code at its inputs. For the declared spaces GRAY, RGB, BGR, YUV
and HSV an input of another channel sequence raises a fatal error, and with
AUTO the input space becomes the space of the input's channel sequence, or a
fatal error is raised when none matches. For the declared spaces RGBA and BGRA
there is no check: a GRAY input raises no error. -/
theorem CheckInputColorSpace_cases :
    (∀ (c : MAPSColorSpaceConverter) (chanSeq : String),
      c.m_inputCS ∈ [CS_GRAY, CS_RGB24, CS_BGR24, CS_YUV24, CS_HSV] →
      some chanSeq ≠ channelSeqOf c.m_inputCS → (c.CheckInputColorSpace chanSeq).2 ≠ none) ∧
    (∀ (c : MAPSColorSpaceConverter) (chanSeq : String), c.m_inputCS = CS_AUTO →
      (∀ cs, channelSeqOf cs = some chanSeq →
        c.CheckInputColorSpace chanSeq = ({ c with m_inputCS := cs }, none)) ∧
      ((∀ cs, channelSeqOf cs ≠ some chanSeq) → (c.CheckInputColorSpace chanSeq).2 ≠ none)) ∧
    (⟨CS_RGBA, CS_RGB24, none, false⟩ : MAPSColorSpaceConverter).CheckInputColorSpace "GRAY" =
      (⟨CS_RGBA, CS_RGB24, none, false⟩, none) ∧
    (⟨CS_BGRA, CS_BGR24, none, false⟩ : MAPSColorSpaceConverter).CheckInputColorSpace "GRAY" =
      (⟨CS_BGRA, CS_BGR24, none, false⟩, none) :=
  ⟨CheckInputColorSpace_checked, CheckInputColorSpace_auto, by decide, by decide⟩


theorem allocateModel_derives (c : MAPSOpenCV_RotateAndFlip) (width height : Int)
    (imageIn : IplImage) :
    (c.allocateModel (IplImageModel width height imageIn.channelSeq imageIn.dataOrder
      imageIn.depth imageIn.align)).Derives width height imageIn := by
  obtain ⟨op, gpuOut⟩ := c
  cases gpuOut <;> exact ⟨rfl, _, rfl, rfl, rfl, rfl, rfl, rfl, rfl⟩

/-- The `switch (m_operation)` of the rotate and flip allocation callbacks. -/
theorem RotateAndFlip_modelOf (c : MAPSOpenCV_RotateAndFlip) (imageIn : IplImage) :
    ((c.m_operation = 1 ∨ c.m_operation = 2) →
      c.modelOf imageIn = Except.ok (IplImageModel imageIn.height imageIn.width
        imageIn.channelSeq imageIn.dataOrder imageIn.depth imageIn.align)) ∧
    ((c.m_operation = 0 ∨ c.m_operation = 3 ∨ c.m_operation = 4 ∨ c.m_operation = 5 ∨
        c.m_operation = 6) →
      c.modelOf imageIn = Except.ok (IplImageModel imageIn.width imageIn.height
        imageIn.channelSeq imageIn.dataOrder imageIn.depth imageIn.align)) ∧
    ((c.m_operation < 0 ∨ 6 < c.m_operation) →
      c.modelOf imageIn = Except.error "Unknown operation.") := by
  unfold MAPSOpenCV_RotateAndFlip.modelOf
  simp only [Operation_None, Operation_Rotation_90_ClockWise,
    Operation_Rotation_90_CounterClockWise, Operation_Rotation_180, Operation_Flip_Up_Down,
    Operation_Flip_Left_Right, Operation_Rotation_SpecifiedDegrees]
  refine ⟨?_, ?_, ?_⟩
  · intro h
    rw [if_neg (by omega), if_pos h]
  · intro h
    rw [if_pos (by omega)]
  · intro h
    rw [if_neg (by omega), if_neg (by omega)]

/-- C16: for an input descriptor of width W and height H, the host and the
device allocation callbacks of the rotate and flip stage end without error
with an output descriptor of H x W for the two 90 degree operations (codes 1
and 2) and of W x H for None, 180 degrees, both flips and the arbitrary angle
(codes 0, 3, 4, 5, 6), with the input's channel sequence, data order, depth and
alignment; every other operation code ends them in the fatal error "Unknown
operation." with nothing allocated. -/
theorem RotateAndFlip_allocation_spec (c : MAPSOpenCV_RotateAndFlip) (imageIn : IplImage)
    (imageInGpu : MapsCudaStruct) :
    ((c.m_operation = 1 ∨ c.m_operation = 2) →
      (c.AllocateOutputBufferSize imageIn).Derives imageIn.height imageIn.width imageIn ∧
      (c.AllocateOutputBufferSizeGpu imageInGpu).Derives imageInGpu.m_IplImageProxy.height
        imageInGpu.m_IplImageProxy.width imageInGpu.m_IplImageProxy) ∧
    ((c.m_operation = 0 ∨ c.m_operation = 3 ∨ c.m_operation = 4 ∨ c.m_operation = 5 ∨
        c.m_operation = 6) →
      (c.AllocateOutputBufferSize imageIn).Derives imageIn.width imageIn.height imageIn ∧
      (c.AllocateOutputBufferSizeGpu imageInGpu).Derives imageInGpu.m_IplImageProxy.width
        imageInGpu.m_IplImageProxy.height imageInGpu.m_IplImageProxy) ∧
    ((c.m_operation < 0 ∨ 6 < c.m_operation) →
      (c.AllocateOutputBufferSize imageIn).Rejects "Unknown operation." ∧
      (c.AllocateOutputBufferSizeGpu imageInGpu).Rejects "Unknown operation.") := by
  obtain ⟨a1, a2, a3⟩ := RotateAndFlip_modelOf c imageIn
  obtain ⟨b1, b2, b3⟩ := RotateAndFlip_modelOf c imageInGpu.m_IplImageProxy
  unfold MAPSOpenCV_RotateAndFlip.AllocateOutputBufferSize
    MAPSOpenCV_RotateAndFlip.AllocateOutputBufferSizeGpu
  refine ⟨?_, ?_, ?_⟩
  · intro h
    rw [a1 h, b1 h]
    exact ⟨allocateModel_derives c _ _ imageIn,
      allocateModel_derives c _ _ imageInGpu.m_IplImageProxy⟩
  · intro h
    rw [a2 h, b2 h]
    exact ⟨allocateModel_derives c _ _ imageIn,
      allocateModel_derives c _ _ imageInGpu.m_IplImageProxy⟩
  · intro h
    rw [a3 h, b3 h]
    exact ⟨⟨rfl, rfl⟩, ⟨rfl, rfl⟩⟩

/-- C16 at a 640 x 480 input: 90 degrees clockwise, 180 degrees, and the
operation code 7. -/
theorem RotateAndFlip_allocation_spec_witness :
    ((⟨1, false⟩ : MAPSOpenCV_RotateAndFlip).AllocateOutputBufferSize
      (descriptor 640 480 "RGB" IPL_DEPTH_8U)).outputDescriptor =
      some (descriptor 480 640 "RGB" IPL_DEPTH_8U) ∧
    ((⟨1, false⟩ : MAPSOpenCV_RotateAndFlip).AllocateOutputBufferSize
      (descriptor 640 480 "RGB" IPL_DEPTH_8U)).Derives 480 640
      (descriptor 640 480 "RGB" IPL_DEPTH_8U) ∧
    ((⟨3, true⟩ : MAPSOpenCV_RotateAndFlip).AllocateOutputBufferSizeGpu
      (proxyOf 640 480 "RGB" 1)).Derives 640 480 (descriptor 640 480 "RGB" IPL_DEPTH_8U) ∧
    ((⟨7, true⟩ : MAPSOpenCV_RotateAndFlip).AllocateOutputBufferSize
      (descriptor 640 480 "RGB" IPL_DEPTH_8U)).Rejects "Unknown operation." :=
  ⟨by decide,
    ((RotateAndFlip_allocation_spec ⟨1, false⟩ (descriptor 640 480 "RGB" IPL_DEPTH_8U)
      (proxyOf 640 480 "RGB" 1)).1 (by decide)).1,
    ((RotateAndFlip_allocation_spec ⟨3, true⟩ (descriptor 640 480 "RGB" IPL_DEPTH_8U)
      (proxyOf 640 480 "RGB" 1)).2.1 (by decide)).2,
    ((RotateAndFlip_allocation_spec ⟨7, true⟩ (descriptor 640 480 "RGB" IPL_DEPTH_8U)
      (proxyOf 640 480 "RGB" 1)).2.2 (by decide)).1⟩

/-- C17, the code on a two pixel image `1 2 3 | 4 5 6` with the three outputs at
the device pointers 10, 20 and 30. With a host input the device output branch
writes channel 1 to output 1, channel 2 to output 2 and channel 3 to output 3.
With a device input all three copies go to the region of output 1, which ends
holding channel 3, and the regions of outputs 2 and 3 are not written. -/
theorem SplitChannels_device_output :
    (SplitChannels_ProcessData_deviceOutput [1, 2, 3, 4, 5, 6] (proxyOf 2 1 "GRAY" 10)
      (proxyOf 2 1 "GRAY" 20) (proxyOf 2 1 "GRAY" 30) twoPixelMemory 10 = [1, 4] ∧
     SplitChannels_ProcessData_deviceOutput [1, 2, 3, 4, 5, 6] (proxyOf 2 1 "GRAY" 10)
      (proxyOf 2 1 "GRAY" 20) (proxyOf 2 1 "GRAY" 30) twoPixelMemory 20 = [2, 5] ∧
     SplitChannels_ProcessData_deviceOutput [1, 2, 3, 4, 5, 6] (proxyOf 2 1 "GRAY" 10)
      (proxyOf 2 1 "GRAY" 20) (proxyOf 2 1 "GRAY" 30) twoPixelMemory 30 = [3, 6]) ∧
    (SplitChannels_ProcessDataGpu_deviceOutput (proxyOf 2 1 "RGB" 5) (proxyOf 2 1 "GRAY" 10)
      twoPixelMemory 10 = [3, 6] ∧
     SplitChannels_ProcessDataGpu_deviceOutput (proxyOf 2 1 "RGB" 5) (proxyOf 2 1 "GRAY" 10)
      twoPixelMemory 20 = [] ∧
     SplitChannels_ProcessDataGpu_deviceOutput (proxyOf 2 1 "RGB" 5) (proxyOf 2 1 "GRAY" 10)
      twoPixelMemory 30 = []) := by
  decide

/-- The host allocation callback of the merge stage ends without error exactly
on single channel inputs of the same width and height. -/
theorem ChannelsMerger_host_check (c : MAPSOpenCV_ChannelsMerger)
    (imageIn1 imageIn2 imageIn3 : IplImage) :
    (c.AllocateOutputBufferSize imageIn1 imageIn2 imageIn3).error = none ↔
      MergeInputsValid imageIn1 imageIn2 imageIn3 := by
  unfold MAPSOpenCV_ChannelsMerger.AllocateOutputBufferSize MergeInputsValid
  by_cases h1 : imageIn1.nChannels ≠ 1
  · rw [if_pos h1]
    exact ⟨(fun h => by simp [Callback.fatal] at h), fun hv => absurd hv.1 h1⟩
  rw [if_neg h1]
  by_cases h2 : imageIn2.nChannels ≠ 1
  · rw [if_pos h2]
    exact ⟨(fun h => by simp [Callback.fatal] at h), fun hv => absurd hv.2.1 h2⟩
  rw [if_neg h2]
  by_cases h3 : imageIn3.nChannels ≠ 1
  · rw [if_pos h3]
    exact ⟨(fun h => by simp [Callback.fatal] at h), fun hv => absurd hv.2.2.1 h3⟩
  rw [if_neg h3]
  by_cases hs : (imageIn1.width, imageIn1.height) ≠ (imageIn2.width, imageIn2.height) ∨
      (imageIn1.width, imageIn1.height) ≠ (imageIn3.width, imageIn3.height)
  · rw [if_pos hs]
    refine ⟨(fun h => by simp [Callback.fatal] at h), fun hv => ?_⟩
    obtain ⟨_, _, _, hw2, hw3, hh2, hh3⟩ := hv
    rcases hs with hs | hs
    · exact absurd (by rw [hw2, hh2]) hs
    · exact absurd (by rw [hw3, hh3]) hs
  · rw [if_neg hs]
    have hs2 : (imageIn1.width, imageIn1.height) = (imageIn2.width, imageIn2.height) :=
      not_not.mp (fun h => hs (Or.inl h))
    have hs3 : (imageIn1.width, imageIn1.height) = (imageIn3.width, imageIn3.height) :=
      not_not.mp (fun h => hs (Or.inr h))
    rw [Prod.mk.injEq] at hs2 hs3
    refine ⟨fun _ => ⟨not_not.mp h1, not_not.mp h2, not_not.mp h3, hs2.1, hs3.1, hs2.2, hs3.2⟩,
      fun _ => ?_⟩
    unfold MAPSOpenCV_ChannelsMerger.allocateModel
    cases c.m_gpuMatAsOutput <;> rfl

/-- C18, the code on its two paths. With host inputs the allocation callback
of the merge stage ends without error exactly when the three inputs are single
channel images of the same width and height. With device inputs the sizes are
compared through `m_size` only: single channel inputs of 2 x 3, 3 x 2 and 6 x 1
pass the check and the output is allocated. -/
theorem ChannelsMerger_input_check :
    (∀ (c : MAPSOpenCV_ChannelsMerger) (imageIn1 imageIn2 imageIn3 : IplImage),
      (c.AllocateOutputBufferSize imageIn1 imageIn2 imageIn3).error = none ↔
        MergeInputsValid imageIn1 imageIn2 imageIn3) ∧
    ((⟨"RGB", false, true⟩ : MAPSOpenCV_ChannelsMerger).AllocateOutputBufferSizeGpu
      (proxyOf 2 3 "GRAY" 1) (proxyOf 3 2 "GRAY" 2) (proxyOf 6 1 "GRAY" 3)).error = none ∧
    ((⟨"RGB", false, true⟩ : MAPSOpenCV_ChannelsMerger).AllocateOutputBufferSizeGpu
      (proxyOf 2 3 "GRAY" 1) (proxyOf 3 2 "GRAY" 2) (proxyOf 6 1 "GRAY" 3)).allocation =
      some (OutputAllocation.registry [(OutputRef.byName "o_gpu",
        StructAllocation.ofSize 18 (descriptor 2 3 "RGB" IPL_DEPTH_8U))]) ∧
    ¬ MergeInputsValid (proxyOf 2 3 "GRAY" 1).m_IplImageProxy
      (proxyOf 3 2 "GRAY" 2).m_IplImageProxy (proxyOf 6 1 "GRAY" 3).m_IplImageProxy :=
  ⟨ChannelsMerger_host_check, by decide, by decide, by decide⟩


/-- C20, the code at the 2 x 2 image with rows `1 2` and `3 4`: the centre is
(1, 1), result pixel (x, y) is source pixel (2 - x, 2 - y), so the first row
and the first column of the result take the border value and only the pixel
(1, 1) is kept; applied twice, the stage returns the rows `0 0` and `0 4`, not
the original image. -/
theorem Rotate180_twice_not_identity :
    rotationMatrix180 2 2 = ((-1, 0, 2), (0, -1, 2)) ∧
    Rotate180 2 2 [[1, 2], [3, 4]] = [[0, 0], [0, 4]] ∧
    Rotate180 2 2 (Rotate180 2 2 [[1, 2], [3, 4]]) = [[0, 0], [0, 4]] ∧
    Rotate180 3 2 [[1, 2, 3], [4, 5, 6]] = [[0, 0, 0], [0, 6, 5]] := by
  decide

end Stages

/-! ## Processing callbacks: timestamps and pointer check -/

namespace Stages

open DynamicCustomStruct
open CudaStruct

theorem allStamped_one (ts : Int) : allStamped 1 ts = [(0, ts)] := rfl

theorem allStamped_three (ts : Int) : allStamped 3 ts = [(0, ts), (1, ts), (2, ts)] := rfl

/-- A run of the rotate/flip callback with a host input that ends without fatal
error wrote the timestamp of the trigger to its output. -/
theorem RotateAndFlip_ProcessData_stamps (c : Config) (lib : LibraryOutcome) (ts : Int)
    (h : (run lib ts (RotateAndFlip_ProcessData c)).error = none) :
    (run lib ts (RotateAndFlip_ProcessData c)).stamps = [(0, ts)] := by
  obtain ⟨cuda, gpuOut, op, planar, coding⟩ := c
  obtain ⟨threw, realloc⟩ := lib
  rcases colorSpace_cases op with h0 | h0 | h0 | h0 | h0 | h0 | h0 | ⟨h0, h1, h2, h3, h4, h5, h6⟩
  all_goals first
    | (subst h0
       cases cuda <;> cases gpuOut <;> cases threw <;> cases realloc <;>
         simp +decide [RotateAndFlip_ProcessData, Rotate, Flip, run, Operation_None,
           Operation_Rotation_90_ClockWise, Operation_Rotation_90_CounterClockWise,
           Operation_Rotation_180, Operation_Flip_Up_Down, Operation_Flip_Left_Right,
           Operation_Rotation_SpecifiedDegrees] at h ⊢)
    | (simp [RotateAndFlip_ProcessData, run, Operation_None,
           Operation_Rotation_90_ClockWise, Operation_Rotation_90_CounterClockWise,
           Operation_Rotation_180, Operation_Flip_Up_Down, Operation_Flip_Left_Right,
           Operation_Rotation_SpecifiedDegrees, h0, h1, h2, h3, h4, h5, h6] at h)

/-- A run of the rotate/flip callback with a device input that ends without
fatal error wrote the timestamp of the trigger to its output. -/
theorem RotateAndFlip_ProcessDataGpu_stamps (c : Config) (lib : LibraryOutcome) (ts : Int)
    (h : (run lib ts (RotateAndFlip_ProcessDataGpu c)).error = none) :
    (run lib ts (RotateAndFlip_ProcessDataGpu c)).stamps = [(0, ts)] := by
  obtain ⟨cuda, gpuOut, op, planar, coding⟩ := c
  obtain ⟨threw, realloc⟩ := lib
  rcases colorSpace_cases op with h0 | h0 | h0 | h0 | h0 | h0 | h0 | ⟨h0, h1, h2, h3, h4, h5, h6⟩
  all_goals first
    | (subst h0
       cases cuda <;> cases gpuOut <;> cases threw <;> cases realloc <;>
         simp +decide [RotateAndFlip_ProcessDataGpu, RotateGpu, FlipGpu, run, Operation_None,
           Operation_Rotation_90_ClockWise, Operation_Rotation_90_CounterClockWise,
           Operation_Rotation_180, Operation_Flip_Up_Down, Operation_Flip_Left_Right,
           Operation_Rotation_SpecifiedDegrees] at h ⊢)
    | (simp [RotateAndFlip_ProcessDataGpu, run, Operation_None,
           Operation_Rotation_90_ClockWise, Operation_Rotation_90_CounterClockWise,
           Operation_Rotation_180, Operation_Flip_Up_Down, Operation_Flip_Left_Right,
           Operation_Rotation_SpecifiedDegrees, h0, h1, h2, h3, h4, h5, h6] at h)

/-- Every processing callback of the eight stages, on every path: a run that
ends without fatal error wrote the timestamp of the trigger to each of its outputs,
and nothing else. -/
theorem run_stamps_of_ok (cb : ProcessingCallback) (hcb : cb ∈ processingCallbacks)
    (c : Config) (lib : LibraryOutcome) (ts : Int)
    (h : (run lib ts (cb.body c)).error = none) :
    (run lib ts (cb.body c)).stamps = allStamped cb.outputs ts := by
  simp only [processingCallbacks, List.mem_cons, List.mem_singleton, List.not_mem_nil,
    or_false] at hcb
  rcases hcb with rfl | rfl | rfl | rfl | rfl | rfl | rfl | rfl | rfl | rfl | rfl | rfl | rfl |
    rfl | rfl | rfl | rfl
  case inr.inr.inr.inr.inr.inr.inr.inr.inr.inr.inr.inl =>
    exact RotateAndFlip_ProcessData_stamps c lib ts h
  case inr.inr.inr.inr.inr.inr.inr.inr.inr.inr.inr.inr.inl =>
    exact RotateAndFlip_ProcessDataGpu_stamps c lib ts h
  all_goals
    obtain ⟨cuda, gpuOut, op, planar, coding⟩ := c
    obtain ⟨threw, realloc⟩ := lib
    cases cuda <;> cases gpuOut <;> cases planar <;> cases coding <;> cases threw <;>
      cases realloc <;>
      simp [Resize_ProcessData, Resize_ProcessDataGpu, Bayer_ProcessDataIpl,
        Bayer_ProcessDataMaps, Bayer_ProcessDataGpu, ColorSpaceConverter_ProcessData,
        ColorSpaceConverter_ProcessDataGpu, ColorCorrection_ProcessData,
        ColorCorrection_ProcessDataGpu, EqualizeHistogram_ProcessData,
        EqualizeHistogram_ProcessDataGpu, ChannelsMerger_ProcessData,
        ChannelsMerger_ProcessDataGpu, SplitChannels_ProcessData, SplitChannels_ProcessDataGpu,
        run, allStamped_one, allStamped_three] at h ⊢

end Stages

namespace Stages

open DynamicCustomStruct
open CudaStruct

/-- C21: for every processing callback of the eight stages (host input and
device input) and every configuration of the path flags, operation and layout, a
run that completes without a fatal error leaves the timestamp of every output it
publishes equal to the timestamp `ts` of the triggering sample: one write for the
single output, three writes for the three outputs of channel split. -/
theorem ProcessData_timestamps (cb : ProcessingCallback) (hcb : cb ∈ processingCallbacks)
    (c : Config) (lib : LibraryOutcome) (ts : Int)
    (h : (run lib ts (cb.body c)).error = none) :
    (run lib ts (cb.body c)).stamps = allStamped cb.outputs ts :=
  run_stamps_of_ok cb hcb c lib ts h

/-- Channel split with a device input and device outputs, no exception: the run
ends without error and the three outputs carry the timestamp 42 of the trigger. -/
theorem ProcessData_timestamps_witness :
    (run ⟨none, false⟩ 42
      (SplitChannels_ProcessDataGpu ⟨true, true, 0, false, true⟩)).error = none ∧
    (run ⟨none, false⟩ 42
      (SplitChannels_ProcessDataGpu ⟨true, true, 0, false, true⟩)).stamps =
        [(0, 42), (1, 42), (2, 42)] :=
  ⟨by decide,
    ProcessData_timestamps
      ⟨"MAPSOpenCV_SplitChannels::ProcessDataGpu", 3, true, SplitChannels_ProcessDataGpu⟩
      (by simp [processingCallbacks]) ⟨true, true, 0, false, true⟩ ⟨none, false⟩ 42
      (by decide)⟩

/-- C24: with an output matrix whose data pointer differs from the image data
pointer of the slot after the transform (no exception thrown), the resize callback
raises the fatal error on each of its host-output paths, but the Bayer callback for
`IplImage` input on the CUDA path with host output, and the rotate/flip callbacks on
the CUDA paths with host output (rotation, flip, and the copy of operation None with
a device input), return without error and publish the output with the timestamp of
the trigger. -/
theorem pointer_check_missing (ts : Int) (op : Int) (planar coding : Bool) :
    (∀ c : Config, (run ⟨none, true⟩ ts (Resize_ProcessData c)).error =
      if c.hostOutput then some pointerMessage else none) ∧
    (∀ c : Config, (run ⟨none, true⟩ ts (Resize_ProcessDataGpu c)).error =
      if c.hostOutputGpu then some pointerMessage else none) ∧
    (Config.hostOutput ⟨true, false, op, planar, coding⟩ = true ∧
      run ⟨none, true⟩ ts (Bayer_ProcessDataIpl ⟨true, false, op, planar, coding⟩) =
        ⟨none, [(0, ts)]⟩) ∧
    run ⟨none, true⟩ ts
      (RotateAndFlip_ProcessData ⟨true, false, Operation_Rotation_180, planar, coding⟩) =
        ⟨none, [(0, ts)]⟩ ∧
    run ⟨none, true⟩ ts
      (RotateAndFlip_ProcessData ⟨true, false, Operation_Flip_Up_Down, planar, coding⟩) =
        ⟨none, [(0, ts)]⟩ ∧
    run ⟨none, true⟩ ts
      (RotateAndFlip_ProcessDataGpu ⟨true, false, Operation_Rotation_180, planar, coding⟩) =
        ⟨none, [(0, ts)]⟩ ∧
    run ⟨none, true⟩ ts
      (RotateAndFlip_ProcessDataGpu ⟨true, false, Operation_Flip_Up_Down, planar, coding⟩) =
        ⟨none, [(0, ts)]⟩ ∧
    run ⟨none, true⟩ ts
      (RotateAndFlip_ProcessDataGpu ⟨true, false, Operation_None, planar, coding⟩) =
        ⟨none, [(0, ts)]⟩ := by
  refine ⟨?_, ?_, ⟨rfl, ?_⟩, ?_, ?_, ?_, ?_, ?_⟩
  · rintro ⟨cuda, gpuOut, o, p, k⟩
    cases cuda <;> cases gpuOut <;> simp [Resize_ProcessData, run, Config.hostOutput]
  · rintro ⟨cuda, gpuOut, o, p, k⟩
    cases gpuOut <;> simp [Resize_ProcessDataGpu, run, Config.hostOutputGpu]
  · simp [Bayer_ProcessDataIpl, run]
  · simp +decide [RotateAndFlip_ProcessData, Rotate, run, Operation_None,
      Operation_Rotation_90_ClockWise, Operation_Rotation_90_CounterClockWise,
      Operation_Rotation_180, Operation_Rotation_SpecifiedDegrees]
  · simp +decide [RotateAndFlip_ProcessData, Flip, run, Operation_None,
      Operation_Rotation_90_ClockWise, Operation_Rotation_90_CounterClockWise,
      Operation_Rotation_180, Operation_Rotation_SpecifiedDegrees, Operation_Flip_Up_Down,
      Operation_Flip_Left_Right]
  · simp +decide [RotateAndFlip_ProcessDataGpu, RotateGpu, run, Operation_None,
      Operation_Rotation_90_ClockWise, Operation_Rotation_90_CounterClockWise,
      Operation_Rotation_180, Operation_Rotation_SpecifiedDegrees]
  · simp +decide [RotateAndFlip_ProcessDataGpu, FlipGpu, run, Operation_None,
      Operation_Rotation_90_ClockWise, Operation_Rotation_90_CounterClockWise,
      Operation_Rotation_180, Operation_Rotation_SpecifiedDegrees, Operation_Flip_Up_Down,
      Operation_Flip_Left_Right]
  · simp +decide [RotateAndFlip_ProcessDataGpu, run, Operation_None]

end Stages

/-! ## Teardown and the guarded registry call -/

namespace Stages

open DynamicCustomStruct
open CudaStruct

variable {W : Type}

/-- The registry branch of an allocation callback: the fatal error that
leaves it carries the message of the handler, after the message of the registry. -/
theorem registryBranch_error (c : Component W) (ow : OutputWrapper W)
    (ows : List (OutputWrapper W)) (msg : String)
    (h : (AllocateDynamicOutputBuffers c ow ows).error = some msg) :
    (AllocateOutputBuffer_registryBranch c ow ows).error = some allocationFailedMessage ∧
    (AllocateOutputBuffer_registryBranch c ow ows).raised = [msg, allocationFailedMessage] ∧
    (AllocateOutputBuffer_registryBranch c ow ows).state =
      (AllocateDynamicOutputBuffers c ow ows).state ∧
    (AllocateOutputBuffer_registryBranch c ow ows).events =
      (AllocateDynamicOutputBuffers c ow ows).events := by
  unfold AllocateOutputBuffer_registryBranch
  simp only [h]
  exact ⟨trivial, trivial, trivial, trivial⟩

/-- The registry branch of an allocation callback whose registry call succeeds
raises nothing. -/
theorem registryBranch_ok (c : Component W) (ow : OutputWrapper W)
    (ows : List (OutputWrapper W))
    (h : (AllocateDynamicOutputBuffers c ow ows).error = none) :
    (AllocateOutputBuffer_registryBranch c ow ows).error = none ∧
    (AllocateOutputBuffer_registryBranch c ow ows).raised = [] := by
  unfold AllocateOutputBuffer_registryBranch
  simp only [h]
  exact ⟨trivial, trivial⟩

end Stages

namespace Stages

open DynamicCustomStruct
open CudaStruct

variable {W : Type}

/-- C23, the claim at a concrete input: the construct function of output 0
throws `std::bad_alloc` at slot 1. The registry raises its fatal error with the slot
index, the output name and the cause; the handler of the callback then raises a
second one, and the error that leaves the callback carries the message of the
handler, which names none of them. -/
theorem registryBranch_counterexample :
    (AllocateDynamicOutputBuffers (twoSlotComponent []) (failingBinding 0 1) []).error =
      some ("Exception [std::bad_alloc] when allocating element [1] of output [o_gpu]: " ++
        "std::bad_alloc") ∧
    (AllocateOutputBuffer_registryBranch (twoSlotComponent []) (failingBinding 0 1) []).error =
      some "Failed to allocate the dynamic output buffers" ∧
    (AllocateOutputBuffer_registryBranch (twoSlotComponent []) (failingBinding 0 1) []).raised =
      ["Exception [std::bad_alloc] when allocating element [1] of output [o_gpu]: " ++
        "std::bad_alloc", "Failed to allocate the dynamic output buffers"] ∧
    (AllocateOutputBuffer_registryBranch (twoSlotComponent []) (failingBinding 0 1) []).error ≠
      (AllocateDynamicOutputBuffers (twoSlotComponent []) (failingBinding 0 1) []).error := by
  decide

/-- C23 as amended: when the registry call of an allocation callback ends in
a fatal error with message `msg` (repeated output, construct failure or null
buffer), the handler of the callback catches it and raises a second fatal error:
the messages raised are `msg`, then the fixed message of the handler, and the error
that leaves the callback carries the fixed message
`Failed to allocate the dynamic output buffers`, whatever `msg` was; the registry and
its events are those of the registry call. -/
theorem registryBranch_replaces_message (c : Component W) (ow : OutputWrapper W)
    (ows : List (OutputWrapper W)) (msg : String)
    (h : (AllocateDynamicOutputBuffers c ow ows).error = some msg) :
    (AllocateOutputBuffer_registryBranch c ow ows).error = some allocationFailedMessage ∧
    (AllocateOutputBuffer_registryBranch c ow ows).raised = [msg, allocationFailedMessage] ∧
    (AllocateOutputBuffer_registryBranch c ow ows).state =
      (AllocateDynamicOutputBuffers c ow ows).state ∧
    (AllocateOutputBuffer_registryBranch c ow ows).events =
      (AllocateDynamicOutputBuffers c ow ows).events :=
  registryBranch_error c ow ows msg h

/-- A batch naming output 0 twice: the registry raises the message on repeated
outputs, the callback ends with the message of its handler. -/
theorem registryBranch_replaces_message_witness :
    (AllocateDynamicOutputBuffers (twoSlotComponent []) (countingBinding 0)
      [countingBinding 0]).error = some notUniqueMessage ∧
    (AllocateOutputBuffer_registryBranch (twoSlotComponent []) (countingBinding 0)
      [countingBinding 0]).error = some allocationFailedMessage ∧
    (AllocateOutputBuffer_registryBranch (twoSlotComponent []) (countingBinding 0)
      [countingBinding 0]).raised = [notUniqueMessage, allocationFailedMessage] :=
  ⟨by decide,
    (registryBranch_replaces_message (twoSlotComponent []) (countingBinding 0)
      [countingBinding 0] notUniqueMessage (by decide)).1,
    (registryBranch_replaces_message (twoSlotComponent []) (countingBinding 0)
      [countingBinding 0] notUniqueMessage (by decide)).2.1⟩

end Stages

/-! ## Conversion steps, planar copies, gains, warp size, ports, Bayer pattern -/

namespace Stages

open DynamicCustomStruct (Ptr)
open CudaStruct

/-- The steps of the host conversion, case by case. -/
theorem ProcessData_conversion_cases (c : MAPSColorSpaceConverter) :
    (c.m_inputCS = CS_YUV24 →
      c.ProcessData_conversion =
        [ConversionStep.split Operand.input, ConversionStep.swap 1 2,
          ConversionStep.merge Operand.work,
          ConversionStep.cvtColor Operand.work Operand.output c.m_openCVConvertCode]) ∧
    (c.m_inputCS ≠ CS_YUV24 → c.m_outputCS = CS_YUV24 →
      c.ProcessData_conversion =
        [ConversionStep.cvtColor Operand.input Operand.work c.m_openCVConvertCode,
          ConversionStep.split Operand.work, ConversionStep.swap 1 2,
          ConversionStep.merge Operand.output]) ∧
    (c.m_inputCS ≠ CS_YUV24 → c.m_outputCS ≠ CS_YUV24 →
      c.ProcessData_conversion =
        [ConversionStep.cvtColor Operand.input Operand.output c.m_openCVConvertCode]) := by
  unfold MAPSColorSpaceConverter.ProcessData_conversion
  refine ⟨fun h => ?_, fun h1 h2 => ?_, fun h1 h2 => ?_⟩
  · rw [if_pos h]
  · rw [if_neg h1, if_pos h2]
  · rw [if_neg h1, if_neg h2]

/-- The device conversion makes the steps of the host conversion. -/
theorem ConvertGpu_eq_host (c : MAPSColorSpaceConverter) :
    c.ConvertGpu = c.ProcessData_conversion := by
  unfold MAPSColorSpaceConverter.ConvertGpu MAPSColorSpaceConverter.ProcessData_conversion
  rfl

/-- The planar split cuts the input into its three planes. -/
theorem planar_split_bytes (S : Nat) (data : List Nat) (j : Nat) (hj : j < S) :
    (SplitChannels_ProcessData_host true S data).1[j]? = data[j]? ∧
    (SplitChannels_ProcessData_host true S data).2.1[j]? = data[S + j]? ∧
    (SplitChannels_ProcessData_host true S data).2.2[j]? = data[2 * S + j]? := by
  simp [SplitChannels_ProcessData_host, List.getElem?_take, hj]

/-- The planar merge lays its three inputs one after the other. -/
theorem planar_merge_bytes (S : Nat) (in1 in2 in3 : List Nat) (h1 : in1.length = S)
    (h2 : in2.length = S) (h3 : in3.length = S) :
    ChannelsMerger_ProcessData_host true S in1 in2 in3 = in1 ++ in2 ++ in3 ∧
    ∀ j, j < S →
      (ChannelsMerger_ProcessData_host true S in1 in2 in3)[j]? = in1[j]? ∧
      (ChannelsMerger_ProcessData_host true S in1 in2 in3)[S + j]? = in2[j]? ∧
      (ChannelsMerger_ProcessData_host true S in1 in2 in3)[2 * S + j]? = in3[j]? := by
  have e : ChannelsMerger_ProcessData_host true S in1 in2 in3 = in1 ++ in2 ++ in3 := by
    simp [ChannelsMerger_ProcessData_host, ← h1, ← h2, ← h3]
    rw [List.take_of_length_le (by omega), List.take_of_length_le (by omega)]
  refine ⟨e, fun j hj => ?_⟩
  rw [e]
  refine ⟨?_, ?_, ?_⟩
  · rw [List.append_assoc, List.getElem?_append_left (by omega)]
  · rw [List.append_assoc, List.getElem?_append_right (by omega),
      List.getElem?_append_left (by omega)]
    congr 1; omega
  · rw [List.getElem?_append_right (by simp; omega)]
    congr 1; simp; omega

/-- The planar split followed by the planar merge gives back the input. -/
theorem planar_roundtrip (S : Nat) (data : List Nat) (h : data.length = 3 * S) :
    ChannelsMerger_ProcessData_host true S
      (SplitChannels_ProcessData_host true S data).1
      (SplitChannels_ProcessData_host true S data).2.1
      (SplitChannels_ProcessData_host true S data).2.2 = data := by
  simp only [SplitChannels_ProcessData_host, ChannelsMerger_ProcessData_host, if_true]
  rw [List.take_take, List.take_take, List.take_take, Nat.min_self]
  have e3 : (data.drop (2 * S)).take S = data.drop (2 * S) :=
    List.take_of_length_le (by simp; omega)
  have e2 : (data.drop S).take S ++ data.drop (2 * S) = data.drop S := by
    have := List.take_append_drop S (data.drop S)
    rw [List.drop_drop] at this
    have e : S + S = 2 * S := by omega
    rw [e] at this
    exact this
  rw [e3, List.append_assoc, e2, List.take_append_drop]

end Stages

namespace Stages

open DynamicCustomStruct (Ptr)
open CudaStruct

/-- C25: in the colour space converter, with a YUV input the channels are
split, channels 1 and 2 swapped and merged into the scratch image before the library
conversion is called on it; with a YUV output and another input the library
conversion writes the scratch image, whose channels 1 and 2 are swapped afterwards on
the way to the output; for every other pair the only step is the library conversion;
and `ConvertGpu` makes the same sequence of steps as the host conversion, for every
pair of colour spaces. -/
theorem ColorSpaceConverter_swap_steps (c : MAPSColorSpaceConverter) :
    (c.m_inputCS = CS_YUV24 →
      c.ProcessData_conversion =
        [ConversionStep.split Operand.input, ConversionStep.swap 1 2,
          ConversionStep.merge Operand.work,
          ConversionStep.cvtColor Operand.work Operand.output c.m_openCVConvertCode]) ∧
    (c.m_inputCS ≠ CS_YUV24 → c.m_outputCS = CS_YUV24 →
      c.ProcessData_conversion =
        [ConversionStep.cvtColor Operand.input Operand.work c.m_openCVConvertCode,
          ConversionStep.split Operand.work, ConversionStep.swap 1 2,
          ConversionStep.merge Operand.output]) ∧
    (c.m_inputCS ≠ CS_YUV24 → c.m_outputCS ≠ CS_YUV24 →
      c.ProcessData_conversion =
        [ConversionStep.cvtColor Operand.input Operand.output c.m_openCVConvertCode]) ∧
    c.ConvertGpu = c.ProcessData_conversion :=
  ⟨(ProcessData_conversion_cases c).1, (ProcessData_conversion_cases c).2.1,
    (ProcessData_conversion_cases c).2.2, ConvertGpu_eq_host c⟩

/-- The conversions YUV to RGB, BGR to YUV and RGB to HSV, host and device. -/
theorem ColorSpaceConverter_swap_steps_witness :
    (MAPSColorSpaceConverter.ProcessData_conversion
      ⟨CS_YUV24, CS_RGB24, some ColorConversionCodes.COLOR_YCrCb2RGB, false⟩ =
        [ConversionStep.split Operand.input, ConversionStep.swap 1 2,
          ConversionStep.merge Operand.work,
          ConversionStep.cvtColor Operand.work Operand.output
            (some ColorConversionCodes.COLOR_YCrCb2RGB)]) ∧
    (MAPSColorSpaceConverter.ProcessData_conversion
      ⟨CS_BGR24, CS_YUV24, some ColorConversionCodes.COLOR_BGR2YCrCb, false⟩ =
        [ConversionStep.cvtColor Operand.input Operand.work
            (some ColorConversionCodes.COLOR_BGR2YCrCb),
          ConversionStep.split Operand.work, ConversionStep.swap 1 2,
          ConversionStep.merge Operand.output]) ∧
    (MAPSColorSpaceConverter.ProcessData_conversion
      ⟨CS_RGB24, CS_HSV, some ColorConversionCodes.COLOR_RGB2HSV, true⟩ =
        [ConversionStep.cvtColor Operand.input Operand.output
            (some ColorConversionCodes.COLOR_RGB2HSV)]) ∧
    MAPSColorSpaceConverter.ConvertGpu
      ⟨CS_BGR24, CS_YUV24, some ColorConversionCodes.COLOR_BGR2YCrCb, true⟩ =
      MAPSColorSpaceConverter.ProcessData_conversion
        ⟨CS_BGR24, CS_YUV24, some ColorConversionCodes.COLOR_BGR2YCrCb, true⟩ :=
  ⟨(ColorSpaceConverter_swap_steps
      ⟨CS_YUV24, CS_RGB24, some ColorConversionCodes.COLOR_YCrCb2RGB, false⟩).1 (by decide),
    (ColorSpaceConverter_swap_steps
      ⟨CS_BGR24, CS_YUV24, some ColorConversionCodes.COLOR_BGR2YCrCb, false⟩).2.1
      (by decide) (by decide),
    (ColorSpaceConverter_swap_steps
      ⟨CS_RGB24, CS_HSV, some ColorConversionCodes.COLOR_RGB2HSV, true⟩).2.2.1
      (by decide) (by decide),
    (ColorSpaceConverter_swap_steps
      ⟨CS_BGR24, CS_YUV24, some ColorConversionCodes.COLOR_BGR2YCrCb, true⟩).2.2.2⟩

/-- C26: on the host planar path, with `S` the byte size of one plane and an
input of `3 * S` bytes, channel split puts byte `k * S + j` of the input at byte `j` of
output `k` (k = 0, 1, 2, j < S); channel merge on three inputs of `S` bytes puts byte
`j` of input `i` at byte `i * S + j` of the output; and the planar merge of the three
outputs of the planar split is the input, byte for byte. -/
theorem planar_split_merge (S : Nat) (data : List Nat) (h : data.length = 3 * S) :
    (∀ j, j < S →
      (SplitChannels_ProcessData_host true S data).1[j]? = data[j]? ∧
      (SplitChannels_ProcessData_host true S data).2.1[j]? = data[S + j]? ∧
      (SplitChannels_ProcessData_host true S data).2.2[j]? = data[2 * S + j]?) ∧
    (∀ in1 in2 in3 : List Nat, in1.length = S → in2.length = S → in3.length = S →
      ∀ j, j < S →
        (ChannelsMerger_ProcessData_host true S in1 in2 in3)[j]? = in1[j]? ∧
        (ChannelsMerger_ProcessData_host true S in1 in2 in3)[S + j]? = in2[j]? ∧
        (ChannelsMerger_ProcessData_host true S in1 in2 in3)[2 * S + j]? = in3[j]?) ∧
    ChannelsMerger_ProcessData_host true S
      (SplitChannels_ProcessData_host true S data).1
      (SplitChannels_ProcessData_host true S data).2.1
      (SplitChannels_ProcessData_host true S data).2.2 = data :=
  ⟨fun j hj => planar_split_bytes S data j hj,
    fun in1 in2 in3 h1 h2 h3 => (planar_merge_bytes S in1 in2 in3 h1 h2 h3).2,
    planar_roundtrip S data h⟩

/-- A planar image of three planes of two bytes. -/
theorem planar_split_merge_witness :
    ([1, 2, 3, 4, 5, 6] : List Nat).length = 3 * 2 ∧
    SplitChannels_ProcessData_host true 2 [1, 2, 3, 4, 5, 6] = ([1, 2], [3, 4], [5, 6]) ∧
    ChannelsMerger_ProcessData_host true 2
      (SplitChannels_ProcessData_host true 2 [1, 2, 3, 4, 5, 6]).1
      (SplitChannels_ProcessData_host true 2 [1, 2, 3, 4, 5, 6]).2.1
      (SplitChannels_ProcessData_host true 2 [1, 2, 3, 4, 5, 6]).2.2 = [1, 2, 3, 4, 5, 6] :=
  ⟨by decide, by decide, (planar_split_merge 2 [1, 2, 3, 4, 5, 6] (by decide)).2.2⟩

end Stages

namespace Stages

open DynamicCustomStruct (Ptr)
open CudaStruct

/-- The gain vector of the colour correction, by channel sequence. -/
theorem coefficients_cases {G : Type} [Zero G] (c : MAPSColorCorrection G) (chanSeq : String) :
    ((chanSeq = MAPS_CHANNELSEQ_BGR ∨ chanSeq = MAPS_CHANNELSEQ_BGRA) →
      c.coefficients chanSeq = (c.m_dBlue, c.m_dGreen, c.m_dRed, 0)) ∧
    ((chanSeq = MAPS_CHANNELSEQ_RGB ∨ chanSeq = MAPS_CHANNELSEQ_RGBA) →
      c.coefficients chanSeq = (c.m_dRed, c.m_dGreen, c.m_dBlue, 0)) := by
  unfold MAPSColorCorrection.coefficients
  refine ⟨fun h => ?_, fun h => ?_⟩
  · rw [if_pos h]
  · have hn : ¬ (chanSeq = MAPS_CHANNELSEQ_BGR ∨ chanSeq = MAPS_CHANNELSEQ_BGRA) := by
      rcases h with h | h <;> subst h <;> decide
    rw [if_neg hn]

/-- The allocation callbacks of the colour correction reject every channel
sequence but the four accepted ones, and accept these. -/
theorem ColorCorrection_allocation_cases {G : Type} (c : MAPSColorCorrection G)
    (imageIn : IplImage) (imageInGpu : MapsCudaStruct) :
    ((imageIn.channelSeq ≠ MAPS_CHANNELSEQ_BGR ∧ imageIn.channelSeq ≠ MAPS_CHANNELSEQ_BGRA ∧
        imageIn.channelSeq ≠ MAPS_CHANNELSEQ_RGB ∧ imageIn.channelSeq ≠ MAPS_CHANNELSEQ_RGBA) →
      (c.AllocateOutputBufferSize imageIn).Rejects
        "This component only accepts RGB/BGR/RGBA/BGRA images on its input.") ∧
    ((imageInGpu.m_IplImageProxy.channelSeq ≠ MAPS_CHANNELSEQ_BGR ∧
        imageInGpu.m_IplImageProxy.channelSeq ≠ MAPS_CHANNELSEQ_BGRA ∧
        imageInGpu.m_IplImageProxy.channelSeq ≠ MAPS_CHANNELSEQ_RGB ∧
        imageInGpu.m_IplImageProxy.channelSeq ≠ MAPS_CHANNELSEQ_RGBA) →
      (c.AllocateOutputBufferSizeGpu imageInGpu).Rejects
        "This component only accepts RGB/BGR/RGBA/BGRA images on its input.") ∧
    ((imageIn.channelSeq = MAPS_CHANNELSEQ_BGR ∨ imageIn.channelSeq = MAPS_CHANNELSEQ_BGRA ∨
        imageIn.channelSeq = MAPS_CHANNELSEQ_RGB ∨ imageIn.channelSeq = MAPS_CHANNELSEQ_RGBA) →
      (c.AllocateOutputBufferSize imageIn).error = none) ∧
    ((imageInGpu.m_IplImageProxy.channelSeq = MAPS_CHANNELSEQ_BGR ∨
        imageInGpu.m_IplImageProxy.channelSeq = MAPS_CHANNELSEQ_BGRA ∨
        imageInGpu.m_IplImageProxy.channelSeq = MAPS_CHANNELSEQ_RGB ∨
        imageInGpu.m_IplImageProxy.channelSeq = MAPS_CHANNELSEQ_RGBA) →
      (c.AllocateOutputBufferSizeGpu imageInGpu).error = none) := by
  unfold MAPSColorCorrection.AllocateOutputBufferSize MAPSColorCorrection.AllocateOutputBufferSizeGpu
  refine ⟨fun h => ?_, fun h => ?_, fun h => ?_, fun h => ?_⟩
  · rw [if_pos h]; exact ⟨rfl, rfl⟩
  · simp only []; rw [if_pos h]; exact ⟨rfl, rfl⟩
  · have hn : ¬ (imageIn.channelSeq ≠ MAPS_CHANNELSEQ_BGR ∧
        imageIn.channelSeq ≠ MAPS_CHANNELSEQ_BGRA ∧ imageIn.channelSeq ≠ MAPS_CHANNELSEQ_RGB ∧
        imageIn.channelSeq ≠ MAPS_CHANNELSEQ_RGBA) := by
      rintro ⟨a, b, d, e⟩
      rcases h with h | h | h | h
      exacts [a h, b h, d h, e h]
    rw [if_neg hn]
    cases c.m_gpuMatAsOutput <;> simp [Callback.allocate]
  · have hn : ¬ (imageInGpu.m_IplImageProxy.channelSeq ≠ MAPS_CHANNELSEQ_BGR ∧
        imageInGpu.m_IplImageProxy.channelSeq ≠ MAPS_CHANNELSEQ_BGRA ∧
        imageInGpu.m_IplImageProxy.channelSeq ≠ MAPS_CHANNELSEQ_RGB ∧
        imageInGpu.m_IplImageProxy.channelSeq ≠ MAPS_CHANNELSEQ_RGBA) := by
      rintro ⟨a, b, d, e⟩
      rcases h with h | h | h | h
      exacts [a h, b h, d h, e h]
    simp only []
    rw [if_neg hn]
    cases c.m_gpuMatAsOutput <;> simp [Callback.allocate]

/-- The dimensions both allocation callbacks of the rotate/flip stage derive
for the two 90 degree operations. -/
theorem RotateAndFlip_outputDims_90 (gpuOut : Bool) (imageIn : IplImage)
    (imageInGpu : MapsCudaStruct) :
    (MAPSOpenCV_RotateAndFlip.AllocateOutputBufferSize
      ⟨Operation_Rotation_90_ClockWise, gpuOut⟩ imageIn).outputDims =
      some (imageIn.height, imageIn.width) ∧
    (MAPSOpenCV_RotateAndFlip.AllocateOutputBufferSize
      ⟨Operation_Rotation_90_CounterClockWise, gpuOut⟩ imageIn).outputDims =
      some (imageIn.height, imageIn.width) ∧
    (MAPSOpenCV_RotateAndFlip.AllocateOutputBufferSizeGpu
      ⟨Operation_Rotation_90_ClockWise, gpuOut⟩ imageInGpu).outputDims =
      some (imageInGpu.m_IplImageProxy.height, imageInGpu.m_IplImageProxy.width) ∧
    (MAPSOpenCV_RotateAndFlip.AllocateOutputBufferSizeGpu
      ⟨Operation_Rotation_90_CounterClockWise, gpuOut⟩ imageInGpu).outputDims =
      some (imageInGpu.m_IplImageProxy.height, imageInGpu.m_IplImageProxy.width) := by
  cases gpuOut <;>
    simp +decide [MAPSOpenCV_RotateAndFlip.AllocateOutputBufferSize,
      MAPSOpenCV_RotateAndFlip.AllocateOutputBufferSizeGpu, MAPSOpenCV_RotateAndFlip.modelOf,
      MAPSOpenCV_RotateAndFlip.allocateModel, Callback.outputDims, Callback.outputDescriptor,
      Callback.allocate, OutputAllocation.descriptors, StructAllocation.descriptor, copyProxy,
      IplImageModel, Operation_None, Operation_Rotation_90_ClockWise,
      Operation_Rotation_90_CounterClockWise, Operation_Rotation_180, Operation_Flip_Up_Down,
      Operation_Flip_Left_Right, Operation_Rotation_SpecifiedDegrees]

end Stages

namespace Stages

open DynamicCustomStruct (Ptr)
open CudaStruct

/-- The inputs the callbacks of the rotate/flip stage read after `Dynamic`. -/
theorem RotateAndFlip_Dynamic_reads (p : RotateAndFlipProperties) :
    (MAPSOpenCV_RotateAndFlip_Dynamic p).imageRead =
      (if p.operation = 6 ∧ p.angle_input_mode ≠ 0 then some "angle_in"
       else some (Stage_Dynamic_ports p.cuda).1) ∧
    (MAPSOpenCV_RotateAndFlip_Dynamic p).angleRead =
      (if p.operation = 6 ∧ p.angle_input_mode ≠ 0 then some (Stage_Dynamic_ports p.cuda).1
       else none) := by
  unfold MAPSOpenCV_RotateAndFlip_Dynamic RotateAndFlipPorts.imageRead
    RotateAndFlipPorts.angleRead
  by_cases h6 : p.operation = 6 <;> by_cases h0 : p.angle_input_mode = 0 <;> simp [h6, h0]

/-- C27: on every processing path of the colour correction (host and device
input, the same selection), the four-component gain vector handed to `multiply` is
(blue, green, red, 0) for the channel sequences BGR and BGRA and (red, green, blue, 0)
for RGB and RGBA, so that the gain of a colour meets the channel of that colour; an
input, host or device, with any other channel sequence is rejected by the allocation
callback with a fatal error and nothing allocated, and the four sequences are
accepted. -/
theorem ColorCorrection_gain_vector {G : Type} [Zero G] (c : MAPSColorCorrection G)
    (chanSeq : String) (imageIn : IplImage) (imageInGpu : MapsCudaStruct) :
    ((chanSeq = MAPS_CHANNELSEQ_BGR ∨ chanSeq = MAPS_CHANNELSEQ_BGRA) →
      c.coefficients chanSeq = (c.m_dBlue, c.m_dGreen, c.m_dRed, 0)) ∧
    ((chanSeq = MAPS_CHANNELSEQ_RGB ∨ chanSeq = MAPS_CHANNELSEQ_RGBA) →
      c.coefficients chanSeq = (c.m_dRed, c.m_dGreen, c.m_dBlue, 0)) ∧
    ((imageIn.channelSeq ≠ MAPS_CHANNELSEQ_BGR ∧ imageIn.channelSeq ≠ MAPS_CHANNELSEQ_BGRA ∧
        imageIn.channelSeq ≠ MAPS_CHANNELSEQ_RGB ∧ imageIn.channelSeq ≠ MAPS_CHANNELSEQ_RGBA) →
      (c.AllocateOutputBufferSize imageIn).Rejects
        "This component only accepts RGB/BGR/RGBA/BGRA images on its input.") ∧
    ((imageInGpu.m_IplImageProxy.channelSeq ≠ MAPS_CHANNELSEQ_BGR ∧
        imageInGpu.m_IplImageProxy.channelSeq ≠ MAPS_CHANNELSEQ_BGRA ∧
        imageInGpu.m_IplImageProxy.channelSeq ≠ MAPS_CHANNELSEQ_RGB ∧
        imageInGpu.m_IplImageProxy.channelSeq ≠ MAPS_CHANNELSEQ_RGBA) →
      (c.AllocateOutputBufferSizeGpu imageInGpu).Rejects
        "This component only accepts RGB/BGR/RGBA/BGRA images on its input.") ∧
    ((imageIn.channelSeq = MAPS_CHANNELSEQ_BGR ∨ imageIn.channelSeq = MAPS_CHANNELSEQ_BGRA ∨
        imageIn.channelSeq = MAPS_CHANNELSEQ_RGB ∨ imageIn.channelSeq = MAPS_CHANNELSEQ_RGBA) →
      (c.AllocateOutputBufferSize imageIn).error = none) ∧
    ((imageInGpu.m_IplImageProxy.channelSeq = MAPS_CHANNELSEQ_BGR ∨
        imageInGpu.m_IplImageProxy.channelSeq = MAPS_CHANNELSEQ_BGRA ∨
        imageInGpu.m_IplImageProxy.channelSeq = MAPS_CHANNELSEQ_RGB ∨
        imageInGpu.m_IplImageProxy.channelSeq = MAPS_CHANNELSEQ_RGBA) →
      (c.AllocateOutputBufferSizeGpu imageInGpu).error = none) :=
  ⟨(coefficients_cases c chanSeq).1, (coefficients_cases c chanSeq).2,
    (ColorCorrection_allocation_cases c imageIn imageInGpu).1,
    (ColorCorrection_allocation_cases c imageIn imageInGpu).2.1,
    (ColorCorrection_allocation_cases c imageIn imageInGpu).2.2.1,
    (ColorCorrection_allocation_cases c imageIn imageInGpu).2.2.2⟩

/-- The gains red 2, green 3, blue 5 on a BGR and on an RGBA input, and a GRAY
input at the allocation callback. -/
theorem ColorCorrection_gain_vector_witness :
    MAPSColorCorrection.coefficients (⟨2, 3, 5, false⟩ : MAPSColorCorrection Int) "BGR" =
      (5, 3, 2, 0) ∧
    MAPSColorCorrection.coefficients (⟨2, 3, 5, false⟩ : MAPSColorCorrection Int) "RGBA" =
      (2, 3, 5, 0) ∧
    (MAPSColorCorrection.AllocateOutputBufferSize (⟨2, 3, 5, false⟩ : MAPSColorCorrection Int)
      (descriptor 640 480 "GRAY" IPL_DEPTH_8U)).Rejects
        "This component only accepts RGB/BGR/RGBA/BGRA images on its input." ∧
    (MAPSColorCorrection.AllocateOutputBufferSizeGpu
      (⟨2, 3, 5, true⟩ : MAPSColorCorrection Int) (proxyOf 640 480 "RGB" 1)).error = none :=
  ⟨(ColorCorrection_gain_vector (⟨2, 3, 5, false⟩ : MAPSColorCorrection Int) "BGR"
      (descriptor 640 480 "GRAY" IPL_DEPTH_8U) (proxyOf 640 480 "RGB" 1)).1 (by decide),
    (ColorCorrection_gain_vector (⟨2, 3, 5, false⟩ : MAPSColorCorrection Int) "RGBA"
      (descriptor 640 480 "GRAY" IPL_DEPTH_8U) (proxyOf 640 480 "RGB" 1)).2.1 (by decide),
    (ColorCorrection_gain_vector (⟨2, 3, 5, false⟩ : MAPSColorCorrection Int) "BGR"
      (descriptor 640 480 "GRAY" IPL_DEPTH_8U) (proxyOf 640 480 "RGB" 1)).2.2.1 (by decide),
    (ColorCorrection_gain_vector (⟨2, 3, 5, true⟩ : MAPSColorCorrection Int) "BGR"
      (descriptor 640 480 "GRAY" IPL_DEPTH_8U) (proxyOf 640 480 "RGB" 1)).2.2.2.2.2
      (by decide)⟩

/-- C28, the code against the claim: for the two 90 degree operations both
allocation callbacks derive an output descriptor of input height by input width,
while `Rotate` and `RotateGpu` hand `imageIn.size()`, input width by input height, to the
affine warp as destination size. For a 640 x 480 input the descriptor is 480 x 640
and the requested size 640 x 480. -/
theorem Rotate_dsize_mismatch :
    (∀ (gpuOut : Bool) (imageIn : IplImage) (imageInGpu : MapsCudaStruct),
      (MAPSOpenCV_RotateAndFlip.AllocateOutputBufferSize
        ⟨Operation_Rotation_90_ClockWise, gpuOut⟩ imageIn).outputDims =
        some (imageIn.height, imageIn.width) ∧
      (MAPSOpenCV_RotateAndFlip.AllocateOutputBufferSize
        ⟨Operation_Rotation_90_CounterClockWise, gpuOut⟩ imageIn).outputDims =
        some (imageIn.height, imageIn.width) ∧
      (MAPSOpenCV_RotateAndFlip.AllocateOutputBufferSizeGpu
        ⟨Operation_Rotation_90_ClockWise, gpuOut⟩ imageInGpu).outputDims =
        some (imageInGpu.m_IplImageProxy.height, imageInGpu.m_IplImageProxy.width) ∧
      (MAPSOpenCV_RotateAndFlip.AllocateOutputBufferSizeGpu
        ⟨Operation_Rotation_90_CounterClockWise, gpuOut⟩ imageInGpu).outputDims =
        some (imageInGpu.m_IplImageProxy.height, imageInGpu.m_IplImageProxy.width) ∧
      Rotate_dsize imageIn = (imageIn.width, imageIn.height) ∧
      RotateGpu_dsize imageInGpu.m_IplImageProxy =
        (imageInGpu.m_IplImageProxy.width, imageInGpu.m_IplImageProxy.height)) ∧
    (MAPSOpenCV_RotateAndFlip.AllocateOutputBufferSize ⟨Operation_Rotation_90_ClockWise, false⟩
      (descriptor 640 480 "BGR" IPL_DEPTH_8U)).outputDims = some (480, 640) ∧
    Rotate_dsize (descriptor 640 480 "BGR" IPL_DEPTH_8U) = (640, 480) ∧
    (MAPSOpenCV_RotateAndFlip.AllocateOutputBufferSizeGpu
      ⟨Operation_Rotation_90_CounterClockWise, true⟩ (proxyOf 640 480 "BGR" 1)).outputDims =
      some (480, 640) ∧
    RotateGpu_dsize (proxyOf 640 480 "BGR" 1).m_IplImageProxy = (640, 480) ∧
    some (Rotate_dsize (descriptor 640 480 "BGR" IPL_DEPTH_8U)) ≠
      (MAPSOpenCV_RotateAndFlip.AllocateOutputBufferSize
        ⟨Operation_Rotation_90_ClockWise, false⟩
        (descriptor 640 480 "BGR" IPL_DEPTH_8U)).outputDims := by
  refine ⟨fun gpuOut imageIn imageInGpu => ?_, by decide, by decide, by decide, by decide,
    by decide⟩
  obtain ⟨a, b, c, d⟩ := RotateAndFlip_outputDims_90 gpuOut imageIn imageInGpu
  exact ⟨a, b, c, d, rfl, rfl⟩

/-- C29, the code against the claim: `Dynamic` creates the input `angle_in` before
the image input, so for operation 6 (Specify in degrees) with an angle input mode
other than 0 (Input) the input at index 0, which `Birth` uses as trigger and the
callbacks read as the image, is `angle_in`, and the input at index 1, from which the
callbacks read the angle, is the image port; in every other configuration index 0
is the image port and there is no index 1. -/
theorem RotateAndFlip_Dynamic_input_order :
    (∀ p : RotateAndFlipProperties,
      (MAPSOpenCV_RotateAndFlip_Dynamic p).imageRead =
        (if p.operation = 6 ∧ p.angle_input_mode ≠ 0 then some "angle_in"
         else some (Stage_Dynamic_ports p.cuda).1) ∧
      (MAPSOpenCV_RotateAndFlip_Dynamic p).angleRead =
        (if p.operation = 6 ∧ p.angle_input_mode ≠ 0 then some (Stage_Dynamic_ports p.cuda).1
         else none)) ∧
    (MAPSOpenCV_RotateAndFlip_Dynamic ⟨6, 1, ⟨0, false, false, false⟩⟩).inputs =
      ["angle_in", "imageIn"] ∧
    (MAPSOpenCV_RotateAndFlip_Dynamic ⟨6, 1, ⟨0, false, false, false⟩⟩).imageRead =
      some "angle_in" ∧
    (MAPSOpenCV_RotateAndFlip_Dynamic ⟨6, 1, ⟨0, false, false, false⟩⟩).angleRead =
      some "imageIn" ∧
    (MAPSOpenCV_RotateAndFlip_Dynamic ⟨6, 1, ⟨1, true, true, true⟩⟩).inputs =
      ["angle_in", "i_gpu"] ∧
    (MAPSOpenCV_RotateAndFlip_Dynamic ⟨6, 0, ⟨0, false, false, false⟩⟩).inputs = ["imageIn"] := by
  refine ⟨RotateAndFlip_Dynamic_reads, by decide, by decide, by decide, by decide, by decide⟩

/-- C30: in the Bayer stage, `Set` on the property `input_pattern` stores the
selected pattern and leaves the conversion code and the output format as they
were, so after `Birth` with pattern `p0` and format `f` the code stays the one of
(`p0`, `f`); every branch of the pattern switch of the processing callbacks hands
that code to the colour conversion, so the transform applied after `Set` is the same
for every selected pattern; `Set` on another property changes nothing. -/
theorem Bayer_Set_keeps_code (c : BayerConversion) (selected other : MAPS_BAYER_PATTERN)
    (f : OUTPUT_FORMAT) (p0 : MAPS_BAYER_PATTERN) (shortName : String) :
    (MAPSBayerDecoder_Set "input_pattern" selected c).m_pattern = selected ∧
    (MAPSBayerDecoder_Set "input_pattern" selected c).m_colorConvCode = c.m_colorConvCode ∧
    (MAPSBayerDecoder_Set "input_pattern" selected c).m_outputFormat = c.m_outputFormat ∧
    MAPSBayerDecoder_ConvertGpu (MAPSBayerDecoder_Set "input_pattern" selected c) =
      c.m_colorConvCode ∧
    MAPSBayerDecoder_ConvertGpu (MAPSBayerDecoder_Set "input_pattern" selected c) =
      MAPSBayerDecoder_ConvertGpu (MAPSBayerDecoder_Set "input_pattern" other c) ∧
    (MAPSBayerDecoder_Birth f p0).m_colorConvCode = BayerConversionCode.COLOR_Bayer p0 f ∧
    MAPSBayerDecoder_ConvertGpu
      (MAPSBayerDecoder_Set "input_pattern" selected (MAPSBayerDecoder_Birth f p0)) =
      BayerConversionCode.COLOR_Bayer p0 f ∧
    (MAPSBayerDecoder_Set shortName selected c).m_colorConvCode = c.m_colorConvCode := by
  refine ⟨rfl, rfl, rfl, ?_, ?_, ?_, ?_, ?_⟩
  · cases selected <;> rfl
  · cases selected <;> cases other <;> rfl
  · cases f <;> cases p0 <;> rfl
  · cases f <;> cases p0 <;> cases selected <;> rfl
  · unfold MAPSBayerDecoder_Set
    split_ifs <;> rfl

end Stages
